import Mathlib

/-!
# chappi-lib: LMX2594 register-mapped synthesizer driver

A shallow embedding of `include/chappi_lmx2594.h`.

Conventions of the embedding.

* `register_type` is `uint16_t`; a register word is a `Nat` (below `2 ^ 16` in the real
  device).  A bit-field declared `T name : width` after fields of total width `off` occupies
  bits `off .. off + width - 1` of the word (fields are allocated from bit 0 upwards, as the
  default image of the source and the data sheet require).
* Storing `v` into a bit-field of width `w` keeps `v mod 2 ^ w`, as C++ does for unsigned
  bit-fields.
* The register map is the `array` view of the `registers_map` union: a function from the
  address to the word.  Only addresses `0 .. register_max_num - 1` exist in the device.
* A C++ exception is an `error`; an operation that can throw returns a `result`, the device
  as it is left behind together with the pending exception, if any.
* The transport (`chip_base::write`, `chip_base::read`) is not part of this header: it is a
  parameter, and every call of `write` is recorded in the `bus` log of the device.
* Calls of `log_info` are omitted.
* The loops of `update_changes` and `reset` start at the index `register_max_num`, one past
  the arrays of the source.  The register structures and the change set are declared under
  `#pragma pack(push, 1)`, so the object holds the 113 words of the map, the 113 flags of the
  change set and its `int` count one after the other without padding: `array[113]` is the two
  bytes of `_changed[0]` and `_changed[1]`, and `_changed[113]` is the low byte of `_count`
  (little-endian).  The embedding follows this layout, each statement taking effect in source
  order.
* Of `include/chappi_ltc2991.h` the register addresses and the integer codes of the
  measurements are embedded; the scaling of a code to a `double` is left out.
-/

namespace chappi

namespace lmx2594_constants

def output_power_max : Int := 63

def vco_frequency.min : Nat := 7450000000

def osc_frequency.min : Nat := 5000000

def out_frequency.min : Nat := 10000000

def out_frequency.max : Nat := 15000000000

def pre_divider.min : Nat := 1

def pre_divider.max : Nat := 128

def divider.min : Nat := 1

def divider.max : Nat := 255

def n_divider.min : Nat := 28

def n_divider.max : Nat := 524287

end lmx2594_constants

namespace lmx2594_registers

/-- Value of the bit-field of `width` bits that starts at bit `off` of the word `reg`. -/
def get_bits (reg off width : Nat) : Nat :=
  reg / 2 ^ off % 2 ^ width

/-- Word `reg` after `value` is stored into the bit-field of `width` bits at bit `off`:
the bits below and above the field are kept, the field holds `value mod 2 ^ width`. -/
def set_bits (reg off width value : Nat) : Nat :=
  reg % 2 ^ off + 2 ^ off * (value % 2 ^ width + 2 ^ width * (reg / 2 ^ (off + width)))

/-- Conversion of an `int` to `register_type` (`uint16_t`). -/
def to_register_type (i : Int) : Nat :=
  (i % 65536).toNat

inductive POWERDOWN_type
  | normal
  | powerdown
  deriving DecidableEq

def POWERDOWN_type.val : POWERDOWN_type → Nat
  | .normal => 0
  | .powerdown => 1

inductive RESET_type
  | normal
  | reset
  deriving DecidableEq

def RESET_type.val : RESET_type → Nat
  | .normal => 0
  | .reset => 1

inductive MUXOUT_LD_SEL_type
  | readback
  | lock_detect
  deriving DecidableEq

def MUXOUT_LD_SEL_type.val : MUXOUT_LD_SEL_type → Nat
  | .readback => 0
  | .lock_detect => 1

inductive FCAL_EN_type
  | disabled
  | calibrate_vco
  deriving DecidableEq

def FCAL_EN_type.val : FCAL_EN_type → Nat
  | .disabled => 0
  | .calibrate_vco => 1

inductive CAL_CLK_DIV_type
  | div1
  | div2
  | div4
  | div8
  deriving DecidableEq

def CAL_CLK_DIV_type.val : CAL_CLK_DIV_type → Nat
  | .div1 => 0
  | .div2 => 1
  | .div4 => 2
  | .div8 => 3

inductive OSC_2X_type
  | disabled
  | low_noise_freq_doubler
  deriving DecidableEq

def OSC_2X_type.val : OSC_2X_type → Nat
  | .disabled => 0
  | .low_noise_freq_doubler => 1

inductive MULT_type
  | bypass
  | mul3
  | mul4
  | mul5
  | mul6
  | mul7
  deriving DecidableEq

def MULT_type.val : MULT_type → Nat
  | .bypass => 1
  | .mul3 => 3
  | .mul4 => 4
  | .mul5 => 5
  | .mul6 => 6
  | .mul7 => 7

inductive CPG_type
  | current_0_mA
  | current_6_mA
  | current_12_mA
  | current_3_mA
  | current_9_mA
  | current_15_mA
  deriving DecidableEq

def CPG_type.val : CPG_type → Nat
  | .current_0_mA => 0
  | .current_6_mA => 1
  | .current_12_mA => 3
  | .current_3_mA => 4
  | .current_9_mA => 5
  | .current_15_mA => 7

inductive SEG1_EN_type
  | disabled
  | driver_buffer_enabled
  deriving DecidableEq

def SEG1_EN_type.val : SEG1_EN_type → Nat
  | .disabled => 0
  | .driver_buffer_enabled => 1

inductive MASH_ORDER_type
  | integer
  | frac1
  | frac2
  | frac3
  | frac4
  deriving DecidableEq

def MASH_ORDER_type.val : MASH_ORDER_type → Nat
  | .integer => 0
  | .frac1 => 1
  | .frac2 => 2
  | .frac3 => 3
  | .frac4 => 4

inductive OUT_PD_type
  | active
  | powerdown
  deriving DecidableEq

def OUT_PD_type.val : OUT_PD_type → Nat
  | .active => 0
  | .powerdown => 1

inductive OUTA_MUX_type
  | chdiv
  | vco
  | high_z
  deriving DecidableEq

def OUTA_MUX_type.val : OUTA_MUX_type → Nat
  | .chdiv => 0
  | .vco => 1
  | .high_z => 3

inductive OUTB_MUX_type
  | chdiv
  | vco
  | sysref
  | high_z
  deriving DecidableEq

def OUTB_MUX_type.val : OUTB_MUX_type → Nat
  | .chdiv => 0
  | .vco => 1
  | .sysref => 2
  | .high_z => 3

inductive LD_TYPE_type
  | vco_status
  | vco_vtune_status
  deriving DecidableEq

def LD_TYPE_type.val : LD_TYPE_type → Nat
  | .vco_status => 0
  | .vco_vtune_status => 1

inductive CHDIV_type
  | div2
  | div4
  | div6
  | div8
  | div12
  | div16
  | div24
  | div32
  | div48
  | div64
  | div72
  | div96
  | div128
  | div192
  | div256
  | div384
  | div512
  | div768
  deriving DecidableEq

def CHDIV_type.val : CHDIV_type → Nat
  | .div2 => 0
  | .div4 => 1
  | .div6 => 2
  | .div8 => 3
  | .div12 => 4
  | .div16 => 5
  | .div24 => 6
  | .div32 => 7
  | .div48 => 8
  | .div64 => 9
  | .div72 => 10
  | .div96 => 11
  | .div128 => 12
  | .div192 => 13
  | .div256 => 14
  | .div384 => 15
  | .div512 => 16
  | .div768 => 17

/-- A named bit-field: the address of its register, its first bit and its width. -/
structure field where
  reg : Nat
  off : Nat
  width : Nat
  deriving DecidableEq

def reg_R0.POWERDOWN : field := ⟨0, 0, 1⟩

def reg_R0.RESET : field := ⟨0, 1, 1⟩

def reg_R0.MUXOUT_LD_SEL : field := ⟨0, 2, 1⟩

def reg_R0.FCAL_EN : field := ⟨0, 3, 1⟩

def reg_R1.CAL_CLK_DIV : field := ⟨1, 0, 3⟩

def reg_R9.OSC_2X : field := ⟨9, 12, 1⟩

def reg_R10.MULT : field := ⟨10, 7, 5⟩

def reg_R11.PLL_R : field := ⟨11, 4, 8⟩

def reg_R12.PLL_R_PRE : field := ⟨12, 0, 12⟩

def reg_R14.CPG : field := ⟨14, 4, 3⟩

def reg_R31.SEG1_EN : field := ⟨31, 14, 1⟩

def reg_R34.PLL_N_18_16 : field := ⟨34, 0, 3⟩

def reg_R36.PLL_N_15_0 : field := ⟨36, 0, 16⟩

def reg_R37.PFD_DLY_SEL : field := ⟨37, 8, 6⟩

def reg_R38.PLL_DEN_31_16 : field := ⟨38, 0, 16⟩

def reg_R39.PLL_DEN_15_0 : field := ⟨39, 0, 16⟩

def reg_R42.PLL_NUM_31_16 : field := ⟨42, 0, 16⟩

def reg_R43.PLL_NUM_15_0 : field := ⟨43, 0, 16⟩

def reg_R44.MASH_ORDER : field := ⟨44, 0, 3⟩

def reg_R44.OUTA_PD : field := ⟨44, 6, 1⟩

def reg_R44.OUTB_PD : field := ⟨44, 7, 1⟩

def reg_R44.OUTA_PWR : field := ⟨44, 8, 6⟩

def reg_R45.OUTB_PWR : field := ⟨45, 0, 6⟩

def reg_R45.OUTA_MUX : field := ⟨45, 11, 2⟩

def reg_R46.OUTB_MUX : field := ⟨46, 0, 2⟩

def reg_R59.LD_TYPE : field := ⟨59, 0, 1⟩

def reg_R72.SYSREF_DIV : field := ⟨72, 0, 11⟩

def reg_R75.CHDIV : field := ⟨75, 6, 5⟩

def get_SYSREF_DIV (div : Nat) : Nat :=
  if div < 4 then 0
  else if div > 4098 then 2047
  else (div - 4) / 2

def register_max_num : Int := 113

/-- The `array` view of the register map: address to word. -/
abbrev registers_map : Type := Nat → Nat

/-- Read of the bit-field `f` (`regs.reg_Rn.bits.NAME` as an rvalue). -/
def read_field (m : registers_map) (f : field) : Nat :=
  get_bits (m f.reg) f.off f.width

/-- Assignment to the bit-field `f` (`regs.reg_Rn.bits.NAME = value`). -/
def write_field (m : registers_map) (f : field) (value : Nat) : registers_map :=
  Function.update m f.reg (set_bits (m f.reg) f.off f.width value)

/-- Word built by a designated initializer `.bits{.F = v, ...}`: every named field, given as
(first bit, value), contributes `v * 2 ^ off`; fields that are not named are zero. -/
def pack (inits : List (Nat × Nat)) : Nat :=
  (inits.map fun p => p.2 * 2 ^ p.1).sum

/-- The initializers of `detail::registers_map_defaults`, register 0 first, each field as
(first bit, value) in the order of the source; `.reg{}` is the empty list. -/
def registers_map_defaults_bits : List (List (Nat × Nat)) :=
  [
    -- R0: POWERDOWN = normal, RESET = normal, MUXOUT_LD_SEL = readback, FCAL_EN = disabled, D4,
    --   FCAL_LPFD_ADJ = upper_10_MHz, FCAL_HPFD_ADJ = lower_100_MHz, OUT_MUTE = disabled, D10, D13,
    --   VCO_PHASE_SYNC = disabled, RAMP_EN = disabled
    [(0, 0), (1, 0), (2, 0), (3, 0), (4, 1), (5, 0), (7, 0), (9, 0), (10, 1), (13, 1), (14, 0), (15, 0)],
    -- R1: CAL_CLK_DIV = div8, D3, D11
    [(0, 3), (3, 1), (11, 1)],
    -- R2: D8, D10
    [(8, 1), (10, 1)],
    -- R3: D1, D6, D9, D10
    [(1, 1), (6, 1), (9, 1), (10, 1)],
    -- R4: D0, D1, D6, ACAL_CMP_DLY = 10
    [(0, 1), (1, 1), (6, 1), (8, 10)],
    -- R5: D3, D6, D7
    [(3, 1), (6, 1), (7, 1)],
    -- R6: D1, D11, D14, D15
    [(1, 1), (11, 1), (14, 1), (15, 1)],
    -- R7: D1, D4, D5, D7, OUT_FORCE = disabled
    [(1, 1), (4, 1), (5, 1), (7, 1), (14, 0)],
    -- R8: VCO_CAPCTRL_FORCE = disabled, D13, VCO_DACISET_FORCE = disabled
    [(11, 0), (13, 1), (14, 0)],
    -- R9: D2, D9, D10, OSC_2X = disabled
    [(2, 1), (9, 1), (10, 1), (12, 0)],
    -- R10: D3, D4, D6, MULT = bypass, D12
    [(3, 1), (4, 1), (6, 1), (7, 1), (12, 1)],
    -- R11: D3, PLL_R = 1
    [(3, 1), (4, 1)],
    -- R12: PLL_R_PRE = 1, D12, D14
    [(0, 1), (12, 1), (14, 1)],
    -- R13: D14
    [(14, 1)],
    -- R14: CPG = current_15_mA, D9, D10, D11, D12
    [(4, 7), (9, 1), (10, 1), (11, 1), (12, 1)],
    -- R15: D0, D1, D2, D3, D6, D9, D10
    [(0, 1), (1, 1), (2, 1), (3, 1), (6, 1), (9, 1), (10, 1)],
    -- R16: VCO_DACISET = 128
    [(0, 128)],
    -- R17: VCO_DACISET_STRT = 250
    [(0, 250)],
    -- R18: D2, D5, D6
    [(2, 1), (5, 1), (6, 1)],
    -- R19: VCO_CAPCTRL = 183, D8, D9, D10, D13
    [(0, 183), (8, 1), (9, 1), (10, 1), (13, 1)],
    -- R20: D3, D6, VCO_SEL_FORCE = disabled, VCO_SEL = vco7, D14, D15
    [(3, 1), (6, 1), (10, 0), (11, 7), (14, 1), (15, 1)],
    -- R21: D0, D10
    [(0, 1), (10, 1)],
    -- R22: D0
    [(0, 1)],
    -- R23: D2, D3, D4, D5, D6
    [(2, 1), (3, 1), (4, 1), (5, 1), (6, 1)],
    -- R24: D1, D3, D4, D8, D9, D10
    [(1, 1), (3, 1), (4, 1), (8, 1), (9, 1), (10, 1)],
    -- R25: D0, D1, D3, D5, D10, D11
    [(0, 1), (1, 1), (3, 1), (5, 1), (10, 1), (11, 1)],
    -- R26: D4, D5, D7, D8, D10, D11
    [(4, 1), (5, 1), (7, 1), (8, 1), (10, 1), (11, 1)],
    -- R27: D1
    [(1, 1)],
    -- R28: D3, D7, D10
    [(3, 1), (7, 1), (10, 1)],
    -- R29: D2, D3, D7, D8, D12, D13
    [(2, 1), (3, 1), (7, 1), (8, 1), (12, 1), (13, 1)],
    -- R30: D2, D3, D7, D8, D12, D13
    [(2, 1), (3, 1), (7, 1), (8, 1), (12, 1), (13, 1)],
    -- R31: D2, D3, D5, D6, D7, D8, D9, SEG1_EN = disabled
    [(2, 1), (3, 1), (5, 1), (6, 1), (7, 1), (8, 1), (9, 1), (14, 0)],
    -- R32: D0, D1, D4, D7, D8, D9
    [(0, 1), (1, 1), (4, 1), (7, 1), (8, 1), (9, 1)],
    -- R33: D0, D5, D9, D10, D11, D12
    [(0, 1), (5, 1), (9, 1), (10, 1), (11, 1), (12, 1)],
    -- R34 (zero)
    [],
    -- R35: D2
    [(2, 1)],
    -- R36: PLL_N_15_0 = 100
    [(0, 100)],
    -- R37: D2, PFD_DLY_SEL = 2, MASH_SEED_EN = disabled
    [(2, 1), (8, 2), (15, 0)],
    -- R38 (zero)
    [],
    -- R39 (zero)
    [],
    -- R40 (zero)
    [],
    -- R41 (zero)
    [],
    -- R42 (zero)
    [],
    -- R43 (zero)
    [],
    -- R44: MASH_ORDER = integer, MASH_RESET_N = frac_mode_enabled, OUTA_PD = active, OUTB_PD =
    --   powerdown, OUTA_PWR = 31
    [(0, 0), (5, 1), (6, 0), (7, 1), (8, 31)],
    -- R45: D6, D7, OUT_ISET = boost_max, OUTA_MUX = vco, D14, D15
    [(6, 1), (7, 1), (9, 0), (11, 1), (14, 1), (15, 1)],
    -- R46: OUTB_MUX = vco, D2, D3, D4, D5, D6, D7, D8, D9, D10
    [(0, 1), (2, 1), (3, 1), (4, 1), (5, 1), (6, 1), (7, 1), (8, 1), (9, 1), (10, 1)],
    -- R47: D8, D9
    [(8, 1), (9, 1)],
    -- R48: D8, D9
    [(8, 1), (9, 1)],
    -- R49: D7, D8, D14
    [(7, 1), (8, 1), (14, 1)],
    -- R50 (zero)
    [],
    -- R51: D7
    [(7, 1)],
    -- R52: D5, D11
    [(5, 1), (11, 1)],
    -- R53 (zero)
    [],
    -- R54 (zero)
    [],
    -- R55 (zero)
    [],
    -- R56 (zero)
    [],
    -- R57: D5
    [(5, 1)],
    -- R58: D0, INPIN_FMT = SYNC_SysRefReq_CMOS, INPIN_LVL = div4, INPIN_HYST = disabled,
    --   INPIN_IGNORE = SYNC_SysRefReq_ignored
    [(0, 1), (9, 0), (12, 0), (14, 0), (15, 1)],
    -- R59: LD_TYPE = vco_vtune_status
    [(0, 1)],
    -- R60 (zero)
    [],
    -- R61: D3, D5, D7
    [(3, 1), (5, 1), (7, 1)],
    -- R62: D1, D5, D8, D9
    [(1, 1), (5, 1), (8, 1), (9, 1)],
    -- R63 (zero)
    [],
    -- R64: D3, D7, D8, D9, D12
    [(3, 1), (7, 1), (8, 1), (9, 1), (12, 1)],
    -- R65 (zero)
    [],
    -- R66: D2, D4, D5, D6, D7, D8
    [(2, 1), (4, 1), (5, 1), (6, 1), (7, 1), (8, 1)],
    -- R67 (zero)
    [],
    -- R68: D3, D5, D6, D7, D8, D9
    [(3, 1), (5, 1), (6, 1), (7, 1), (8, 1), (9, 1)],
    -- R69 (zero)
    [],
    -- R70 (zero)
    [],
    -- R71: D0, SYSREF_REPEAT = master_mode, SYSREF_EN = disabled, SYSREF_PULSE = disabled,
    --   SYSREF_DIV_PRE = div4
    [(0, 1), (2, 0), (3, 0), (4, 0), (5, 4)],
    -- R72: SYSREF_DIV = get_SYSREF_DIV(4)
    [(0, get_SYSREF_DIV 4)],
    -- R73: JESD_DAC1_CTRL = 63
    [(0, 63)],
    -- R74 (zero)
    [],
    -- R75: CHDIV = div2, D11
    [(6, 0), (11, 1)],
    -- R76: D2, D3
    [(2, 1), (3, 1)],
    -- R77 (zero)
    [],
    -- R78: D0, QUICK_RECAL_EN = disable
    [(0, 1), (9, 0)],
    -- R79 (zero)
    [],
    -- R80 (zero)
    [],
    -- R81 (zero)
    [],
    -- R82 (zero)
    [],
    -- R83 (zero)
    [],
    -- R84 (zero)
    [],
    -- R85 (zero)
    [],
    -- R86 (zero)
    [],
    -- R87 (zero)
    [],
    -- R88 (zero)
    [],
    -- R89 (zero)
    [],
    -- R90 (zero)
    [],
    -- R91 (zero)
    [],
    -- R92 (zero)
    [],
    -- R93 (zero)
    [],
    -- R94 (zero)
    [],
    -- R95 (zero)
    [],
    -- R96: RAMP_BURST_EN = disable
    [(15, 0)],
    -- R97: RAMP_BURST_TRIG = ramp_transition, RAMP_TRIGA = disabled, RAMP_TRIGB = disabled, D11,
    --   RAMP0_RST = disabled
    [(0, 0), (3, 0), (7, 0), (11, 1), (15, 0)],
    -- R98 (zero)
    [],
    -- R99 (zero)
    [],
    -- R100 (zero)
    [],
    -- R101 (zero)
    [],
    -- R102 (zero)
    [],
    -- R103 (zero)
    [],
    -- R104 (zero)
    [],
    -- R105 (zero)
    [],
    -- R106 (zero)
    [],
    -- R107 (zero)
    [],
    -- R108 (zero)
    [],
    -- R109 (zero)
    [],
    -- R110 (zero)
    [],
    -- R111 (zero)
    [],
    -- R112 (zero)
    []
  ]

/-- The power-on image `detail::registers_map_defaults` in its `array` view. -/
def registers_map_defaults : registers_map :=
  fun n => pack (registers_map_defaults_bits.getD n [])

/-- The change set `bool _changed[register_max_num]; int _count;`.  The class is declared
under `#pragma pack(push, 1)`, so `_count` follows the 113 flags without padding and
`_changed[113]`, the index past the end of the bitmap that `is_valid` accepts, is the byte at
the lowest address of `_count`: its low byte, taken as true when it is not zero.  The embedding
keeps both views of that byte, entry 113 of `_changed` and `_count` itself, and each
assignment to one of them (`assign_changed`, `assign_count`) updates the other. -/
structure registers_update where
  _changed : Int → Bool
  _count : Int

namespace registers_update

def new : registers_update :=
  { _changed := fun _ => false, _count := 0 }

def is_valid (register_num : Int) : Bool :=
  if register_num < 0 ∨ register_num > register_max_num then false else true

/-- Overload `is_changed(int)`. -/
def is_changed_at (u : registers_update) (register_num : Int) : Bool :=
  if !is_valid register_num then false else u._changed register_num

/-- Overload `is_changed()`. -/
def is_changed (u : registers_update) : Bool :=
  if u._count > 0 then true else false

/-- The assignment `_changed[register_num] = value`.  At index `register_max_num` the byte
written is the low byte of `_count`, which becomes 1 or 0. -/
def assign_changed (u : registers_update) (register_num : Int) (value : Bool) :
    registers_update :=
  if register_num = register_max_num then
    { _changed := Function.update u._changed register_num value,
      _count := u._count - u._count % 256 + (if value then 1 else 0) }
  else { u with _changed := Function.update u._changed register_num value }

/-- The assignment of `count` to `_count` (by `++_count` and `--_count`); its low byte is what
`_changed[register_max_num]` reads afterwards. -/
def assign_count (u : registers_update) (count : Int) : registers_update :=
  { _changed := Function.update u._changed register_max_num (decide (count % 256 ≠ 0)),
    _count := count }

/-- Variadic `set_changed(register_num, other_registers...)`, the argument pack as a list;
the empty pack is the overload `set_changed()`. -/
def set_changed : registers_update → List Int → Bool × registers_update
  | u, [] => (true, u)
  | u, register_num :: other_registers =>
    if !is_valid register_num then (false, u)
    else
      set_changed
        ((u.assign_changed register_num true).assign_count
          ((u.assign_changed register_num true)._count + 1))
        other_registers

def clear_changed (u : registers_update) (register_num : Int) : Bool × registers_update :=
  if !is_valid register_num ∨ u._count ≤ 0 then (false, u)
  else
    (true,
      (u.assign_changed register_num false).assign_count
        ((u.assign_changed register_num false)._count - 1))

end registers_update

end lmx2594_registers

open lmx2594_registers

inductive lmx2594_output
  | outa
  | outb
  deriving DecidableEq

structure lmx2594_output_enable where
  output : lmx2594_output
  enabled : Bool
  deriving DecidableEq

structure lmx2594_output_power where
  output : lmx2594_output
  power : Int
  deriving DecidableEq

/-- The exceptions that leave the driver. -/
inductive error
  | invalid_argument
  | transport_error
  deriving DecidableEq

/-- Modelled from the spec: the transport collaborator behind `chip_base` (`chappi_base.h` is
not among the sources).  `write` tells whether the write of a word to an address succeeds and
`read` gives the word read, each after the writes issued so far; a failing call raises
`error.transport_error`. -/
structure transport where
  write : List (Nat × Nat) → Nat → Nat → Bool
  read : List (Nat × Nat) → Nat → Option Nat

/-- The device object: the register map, the change set and the log of the bus writes issued
so far, oldest first. -/
structure lmx2594 where
  _registers_map : registers_map
  _registers_update : registers_update
  bus : List (Nat × Nat)

/-- The device left behind by an operation and the exception it raised, if any. -/
structure result where
  dev : lmx2594
  error : Option error

/-- Sequencing: `k` runs on the device left by `r` unless `r` raised. -/
def result.and_then (r : result) (k : lmx2594 → result) : result :=
  match r.error with
  | some e => ⟨r.dev, some e⟩
  | none => k r.dev

namespace lmx2594

/-- The freshly constructed device. -/
def new : lmx2594 :=
  { _registers_map := registers_map_defaults, _registers_update := registers_update.new, bus := [] }

/-- Modelled from the spec: member `write(address, value)` inherited from `chip_base`
(`chappi_base.h` is not among the sources).  The call is appended to the `bus` log and the
word is handed to the transport, whose failure is raised as `error.transport_error`. -/
def write (tr : transport) (dev : lmx2594) (addr value : Nat) : result :=
  ⟨{ dev with bus := dev.bus ++ [(addr, value)] },
    if tr.write dev.bus addr value then none else some error.transport_error⟩

/-- The element `_registers_map.array[i]`.  The array has `register_max_num` elements; the
loops of `update_changes` and `reset` also read index `register_max_num`, the two bytes after
the map.  The object holds `_registers_update` right after `_registers_map`, both packed, so
these are the bytes of `_changed[0]` (low) and `_changed[1]` (high). -/
def array (dev : lmx2594) (i : Nat) : Nat :=
  if i = register_max_num.toNat then
    (if dev._registers_update._changed 0 then 1 else 0) +
      256 * (if dev._registers_update._changed 1 then 1 else 0)
  else dev._registers_map i

def get_vco_frequency_max (dev : lmx2594) : Nat :=
  if read_field dev._registers_map reg_R75.CHDIV ≥ CHDIV_type.div8.val then 11500000000
  else 15000000000

def get_n_divider_min (dev : lmx2594) (vco_frequency : Nat) : Except error Int :=
  if vco_frequency < lmx2594_constants.vco_frequency.min ∨
      vco_frequency > dev.get_vco_frequency_max then
    Except.error error.invalid_argument
  else
    let mash_order := read_field dev._registers_map reg_R44.MASH_ORDER
    if mash_order = MASH_ORDER_type.integer.val then
      if vco_frequency > 12500000000 then Except.ok 32 else Except.ok 28
    else if mash_order = MASH_ORDER_type.frac1.val then
      if vco_frequency > 12500000000 then Except.ok 36
      else if vco_frequency > 10000000000 then Except.ok 32
      else Except.ok 28
    else if mash_order = MASH_ORDER_type.frac2.val then
      if vco_frequency > 10000000000 then Except.ok 36 else Except.ok 32
    else if mash_order = MASH_ORDER_type.frac3.val then
      if vco_frequency > 10000000000 then Except.ok 40 else Except.ok 36
    else if mash_order = MASH_ORDER_type.frac4.val then
      if vco_frequency > 10000000000 then Except.ok 48 else Except.ok 40
    else Except.error error.invalid_argument

/-- Variadic `_update_registers(register_num, other_registers...)`, the pack as a list: each
register is written with its word of the map; a raising write abandons the rest. -/
def _update_registers (tr : transport) : lmx2594 → List Nat → result
  | dev, [] => ⟨dev, none⟩
  | dev, register_num :: other_registers =>
    (write tr dev register_num (dev._registers_map register_num)).and_then
      fun dev1 => _update_registers tr dev1 other_registers

/-- Statement `_registers_update.set_changed(...)`, its return value dropped as in the
source. -/
def mark_changed (dev : lmx2594) (registers : List Int) : lmx2594 :=
  { dev with _registers_update := (dev._registers_update.set_changed registers).2 }

def _set_output_enabled (dev : lmx2594) (data : lmx2594_output_enable) : lmx2594 :=
  let enabled := if data.enabled then OUT_PD_type.active else OUT_PD_type.powerdown
  let dev1 :=
    if data.output = lmx2594_output.outa then
      { dev with _registers_map := write_field dev._registers_map reg_R44.OUTA_PD enabled.val }
    else dev
  if data.output = lmx2594_output.outb then
    { dev1 with _registers_map := write_field dev1._registers_map reg_R44.OUTB_PD enabled.val }
  else dev1

def _set_output_power (dev : lmx2594) (data : lmx2594_output_power) : lmx2594 :=
  let dev1 :=
    if data.output = lmx2594_output.outa then
      { dev with
        _registers_map :=
          write_field dev._registers_map reg_R44.OUTA_PWR (to_register_type data.power) }
    else dev
  if data.output = lmx2594_output.outb then
    { dev1 with
      _registers_map :=
        write_field dev1._registers_map reg_R45.OUTB_PWR (to_register_type data.power) }
  else dev1

/-- Overload `_set_output_mux(const lmx2594_output_a_mux &)`. -/
def _set_output_mux_a (dev : lmx2594) (value : OUTA_MUX_type) : lmx2594 :=
  { dev with _registers_map := write_field dev._registers_map reg_R45.OUTA_MUX value.val }

/-- Overload `_set_output_mux(const lmx2594_output_b_mux &)`. -/
def _set_output_mux_b (dev : lmx2594) (value : OUTB_MUX_type) : lmx2594 :=
  { dev with _registers_map := write_field dev._registers_map reg_R46.OUTB_MUX value.val }

def _set_channel_divider (dev : lmx2594) (value : CHDIV_type) : lmx2594 :=
  let m1 := write_field dev._registers_map reg_R75.CHDIV value.val
  if read_field m1 reg_R75.CHDIV > CHDIV_type.div2.val then
    { dev with
      _registers_map := write_field m1 reg_R31.SEG1_EN SEG1_EN_type.driver_buffer_enabled.val }
  else
    { dev with _registers_map := write_field m1 reg_R31.SEG1_EN SEG1_EN_type.disabled.val }

def _set_charge_pump_gain (dev : lmx2594) (value : CPG_type) : lmx2594 :=
  { dev with _registers_map := write_field dev._registers_map reg_R14.CPG value.val }

def _set_doubler (dev : lmx2594) (value : OSC_2X_type) : lmx2594 :=
  { dev with _registers_map := write_field dev._registers_map reg_R9.OSC_2X value.val }

/-- The argument `value` is a `lmx2594_pre_divider`, that is a `uint16_t`. -/
def _set_pre_divider (dev : lmx2594) (value : Nat) : result :=
  if value < lmx2594_constants.pre_divider.min ∨ value > lmx2594_constants.pre_divider.max then
    ⟨dev, some error.invalid_argument⟩
  else
    ⟨{ dev with _registers_map := write_field dev._registers_map reg_R12.PLL_R_PRE value }, none⟩

def _set_multiplier (dev : lmx2594) (value : MULT_type) : lmx2594 :=
  { dev with _registers_map := write_field dev._registers_map reg_R10.MULT value.val }

/-- The argument `value` is a `lmx2594_divider`, that is a `uint16_t`. -/
def _set_divider (dev : lmx2594) (value : Nat) : result :=
  if value < lmx2594_constants.divider.min ∨ value > lmx2594_constants.divider.max then
    ⟨dev, some error.invalid_argument⟩
  else
    ⟨{ dev with _registers_map := write_field dev._registers_map reg_R11.PLL_R value }, none⟩

/-- The argument `value` is a `lmx2594_n_divider`, that is a `uint16_t`. -/
def _set_n_divider (dev : lmx2594) (value : Nat) : lmx2594 :=
  let m1 := write_field dev._registers_map reg_R36.PLL_N_15_0 (value &&& 0xFFFF)
  { dev with _registers_map := write_field m1 reg_R34.PLL_N_18_16 ((value >>> 8) &&& 0x07) }

/-- The argument `value` is a `lmx2594_fractional_numerator`, that is a `uint16_t`. -/
def _set_fractional_numerator (dev : lmx2594) (value : Nat) : lmx2594 :=
  let m1 := write_field dev._registers_map reg_R43.PLL_NUM_15_0 (value &&& 0xFFFF)
  { dev with _registers_map := write_field m1 reg_R42.PLL_NUM_31_16 ((value >>> 8) &&& 0xFFFF) }

/-- The argument `value` is a `lmx2594_fractional_denomerator`, that is a `uint16_t`. -/
def _set_fractional_denomerator (dev : lmx2594) (value : Nat) : lmx2594 :=
  let m1 := write_field dev._registers_map reg_R39.PLL_DEN_15_0 (value &&& 0xFFFF)
  { dev with _registers_map := write_field m1 reg_R38.PLL_DEN_31_16 ((value >>> 8) &&& 0xFFFF) }

def _set_lock_detect (dev : lmx2594) (value : LD_TYPE_type) : lmx2594 :=
  { dev with _registers_map := write_field dev._registers_map reg_R59.LD_TYPE value.val }

/-- Helper for the assignments `_registers_map.regs.reg_R37.bits.PFD_DLY_SEL = v`. -/
def assign_PFD_DLY_SEL (dev : lmx2594) (v : Nat) : result :=
  ⟨{ dev with _registers_map := write_field dev._registers_map reg_R37.PFD_DLY_SEL v }, none⟩

def _set_phase_detector_delay (dev : lmx2594) (vco_frequency : Nat) : result :=
  if vco_frequency < lmx2594_constants.vco_frequency.min ∨
      vco_frequency > dev.get_vco_frequency_max then
    ⟨dev, some error.invalid_argument⟩
  else
    let mash_order := read_field dev._registers_map reg_R44.MASH_ORDER
    if mash_order = MASH_ORDER_type.integer.val then
      if vco_frequency > 12500000000 then assign_PFD_DLY_SEL dev 2
      else assign_PFD_DLY_SEL dev 1
    else if mash_order = MASH_ORDER_type.frac1.val then
      if vco_frequency > 12500000000 then assign_PFD_DLY_SEL dev 3
      else if vco_frequency > 10000000000 then assign_PFD_DLY_SEL dev 2
      else assign_PFD_DLY_SEL dev 1
    else if mash_order = MASH_ORDER_type.frac2.val then
      if vco_frequency > 10000000000 then assign_PFD_DLY_SEL dev 3
      else assign_PFD_DLY_SEL dev 2
    else if mash_order = MASH_ORDER_type.frac3.val then
      if vco_frequency > 10000000000 then assign_PFD_DLY_SEL dev 4
      else assign_PFD_DLY_SEL dev 3
    else if mash_order = MASH_ORDER_type.frac4.val then
      if vco_frequency > 10000000000 then assign_PFD_DLY_SEL dev 6
      else assign_PFD_DLY_SEL dev 5
    else ⟨dev, some error.invalid_argument⟩

def _set_mash_order (dev : lmx2594) (value : MASH_ORDER_type) : lmx2594 :=
  { dev with _registers_map := write_field dev._registers_map reg_R44.MASH_ORDER value.val }

def set_output_enabled (dev : lmx2594) (data : lmx2594_output_enable) : lmx2594 :=
  (dev._set_output_enabled data).mark_changed [44]

def set_output_power (dev : lmx2594) (data : lmx2594_output_power) : lmx2594 :=
  (dev._set_output_power data).mark_changed [45, 44]

def set_output_mux_a (dev : lmx2594) (value : OUTA_MUX_type) : lmx2594 :=
  (dev._set_output_mux_a value).mark_changed [45]

def set_output_mux_b (dev : lmx2594) (value : OUTB_MUX_type) : lmx2594 :=
  (dev._set_output_mux_b value).mark_changed [46]

def set_channel_divider (dev : lmx2594) (value : CHDIV_type) : lmx2594 :=
  (dev._set_channel_divider value).mark_changed [75, 31]

def set_charge_pump_gain (dev : lmx2594) (value : CPG_type) : lmx2594 :=
  (dev._set_charge_pump_gain value).mark_changed [14]

def set_doubler (dev : lmx2594) (value : OSC_2X_type) : lmx2594 :=
  (dev._set_doubler value).mark_changed [9]

def set_pre_divider (dev : lmx2594) (value : Nat) : result :=
  (dev._set_pre_divider value).and_then fun dev1 => ⟨dev1.mark_changed [12], none⟩

def update_pre_divider (tr : transport) (dev : lmx2594) (value : Nat) : result :=
  (dev._set_pre_divider value).and_then fun dev1 => _update_registers tr dev1 [12]

def set_multiplier (dev : lmx2594) (value : MULT_type) : lmx2594 :=
  (dev._set_multiplier value).mark_changed [10]

def set_divider (dev : lmx2594) (value : Nat) : result :=
  (dev._set_divider value).and_then fun dev1 => ⟨dev1.mark_changed [11], none⟩

def update_divider (tr : transport) (dev : lmx2594) (value : Nat) : result :=
  (dev._set_divider value).and_then fun dev1 => _update_registers tr dev1 [11]

def set_n_divider (dev : lmx2594) (value : Nat) : lmx2594 :=
  (dev._set_n_divider value).mark_changed [36, 34]

def set_fractional_numerator (dev : lmx2594) (value : Nat) : lmx2594 :=
  (dev._set_fractional_numerator value).mark_changed [43, 42]

def set_fractional_denomerator (dev : lmx2594) (value : Nat) : lmx2594 :=
  (dev._set_fractional_denomerator value).mark_changed [39, 38]

def set_lock_detect (dev : lmx2594) (value : LD_TYPE_type) : lmx2594 :=
  (dev._set_lock_detect value).mark_changed [59]

def set_phase_detector_delay (dev : lmx2594) (vco_frequency : Nat) : result :=
  (dev._set_phase_detector_delay vco_frequency).and_then
    fun dev1 => ⟨dev1.mark_changed [37], none⟩

def update_phase_detector_delay (tr : transport) (dev : lmx2594) (vco_frequency : Nat) :
    result :=
  (dev._set_phase_detector_delay vco_frequency).and_then
    fun dev1 => _update_registers tr dev1 [37]

def set_mash_order (dev : lmx2594) (value : MASH_ORDER_type) : lmx2594 :=
  (dev._set_mash_order value).mark_changed [44]

/-- The argument `value` is not used by the source: the field is set to `lock_detect`. -/
def _set_lock_detect_mux (dev : lmx2594) (_value : MUXOUT_LD_SEL_type) : lmx2594 :=
  { dev with
    _registers_map :=
      write_field dev._registers_map reg_R0.MUXOUT_LD_SEL MUXOUT_LD_SEL_type.lock_detect.val }

/-- The local `divider` is computed from the frequency as in the source, and as in the source
the field is then assigned `CAL_CLK_DIV_type::div1`. -/
def _set_vco_calibration_divider (dev : lmx2594) (osc_frequency : Nat) : lmx2594 :=
  let _divider : CAL_CLK_DIV_type :=
    if osc_frequency > 800000000 then CAL_CLK_DIV_type.div8
    else if osc_frequency > 400000000 then CAL_CLK_DIV_type.div4
    else if osc_frequency > 200000000 then CAL_CLK_DIV_type.div2
    else CAL_CLK_DIV_type.div1
  { dev with
    _registers_map :=
      write_field dev._registers_map reg_R1.CAL_CLK_DIV CAL_CLK_DIV_type.div1.val }

def set_lock_detect_mux (dev : lmx2594) (value : MUXOUT_LD_SEL_type) : lmx2594 :=
  (dev._set_lock_detect_mux value).mark_changed [0]

def set_vco_calibration_divider (dev : lmx2594) (osc_frequency : Nat) : lmx2594 :=
  (dev._set_vco_calibration_divider osc_frequency).mark_changed [1]

def update_output_enabled (tr : transport) (dev : lmx2594) (data : lmx2594_output_enable) :
    result :=
  _update_registers tr (dev._set_output_enabled data) [44]

def update_output_power (tr : transport) (dev : lmx2594) (data : lmx2594_output_power) :
    result :=
  _update_registers tr (dev._set_output_power data) [45, 44]

def update_output_mux_a (tr : transport) (dev : lmx2594) (value : OUTA_MUX_type) : result :=
  _update_registers tr (dev._set_output_mux_a value) [45]

def update_output_mux_b (tr : transport) (dev : lmx2594) (value : OUTB_MUX_type) : result :=
  _update_registers tr (dev._set_output_mux_b value) [46]

def update_channel_divider (tr : transport) (dev : lmx2594) (value : CHDIV_type) : result :=
  _update_registers tr (dev._set_channel_divider value) [75, 31]

def update_charge_pump_gain (tr : transport) (dev : lmx2594) (value : CPG_type) : result :=
  _update_registers tr (dev._set_charge_pump_gain value) [14]

def update_doubler (tr : transport) (dev : lmx2594) (value : OSC_2X_type) : result :=
  _update_registers tr (dev._set_doubler value) [9]

def update_multiplier (tr : transport) (dev : lmx2594) (value : MULT_type) : result :=
  _update_registers tr (dev._set_multiplier value) [10]

def update_n_divider (tr : transport) (dev : lmx2594) (value : Nat) : result :=
  _update_registers tr (dev._set_n_divider value) [36, 34]

def update_fractional_numerator (tr : transport) (dev : lmx2594) (value : Nat) : result :=
  _update_registers tr (dev._set_fractional_numerator value) [43, 42]

def update_fractional_denomerator (tr : transport) (dev : lmx2594) (value : Nat) : result :=
  _update_registers tr (dev._set_fractional_denomerator value) [39, 38]

def update_lock_detect (tr : transport) (dev : lmx2594) (value : LD_TYPE_type) : result :=
  _update_registers tr (dev._set_lock_detect value) [59]

def update_lock_detect_mux (tr : transport) (dev : lmx2594) (value : MUXOUT_LD_SEL_type) :
    result :=
  _update_registers tr (dev._set_lock_detect_mux value) [0]

def update_vco_calibration_divider (tr : transport) (dev : lmx2594) (osc_frequency : Nat) :
    result :=
  _update_registers tr (dev._set_vco_calibration_divider osc_frequency) [1]

def update_mash_order (tr : transport) (dev : lmx2594) (value : MASH_ORDER_type) : result :=
  _update_registers tr (dev._set_mash_order value) [44]

/-- Statement `_registers_update.clear_changed(register_num)`, its return value dropped as in
the source. -/
def mark_cleared (dev : lmx2594) (register_num : Int) : lmx2594 :=
  { dev with _registers_update := (dev._registers_update.clear_changed register_num).2 }

/-- The `for` loop of `update_changes` from the counter value `registers_count` on: the body
runs for `registers_count`, `registers_count - 1`, ..., 1 and the loop ends when the counter
is 0 (condition `registers_count > 0`).  A raising `write` leaves the loop. -/
def update_changes_loop (tr : transport) : Nat → lmx2594 → result
  | 0, dev => ⟨dev, none⟩
  | registers_count + 1, dev =>
    if dev._registers_update.is_changed_at ((registers_count + 1 : Nat) : Int) then
      (write tr dev (registers_count + 1) (dev.array (registers_count + 1))).and_then
        fun dev1 =>
          update_changes_loop tr registers_count
            (dev1.mark_cleared ((registers_count + 1 : Nat) : Int))
    else update_changes_loop tr registers_count dev

/-- The counter starts at `register_max_num`. -/
def update_changes (tr : transport) (dev : lmx2594) : result :=
  update_changes_loop tr register_max_num.toNat dev

/-- Modelled from the spec: member `read(address, value&)` inherited from `chip_base`
(`chappi_base.h` is not among the sources).  It gives the word the transport returns for the
address, a `uint16_t`; a failing transport raises `error.transport_error`. -/
def read (tr : transport) (dev : lmx2594) (addr : Nat) : Except error Nat :=
  match tr.read dev.bus addr with
  | some w => Except.ok (w % 65536)
  | none => Except.error error.transport_error

def get_pd_frequency_max (dev : lmx2594) : Nat :=
  if read_field dev._registers_map reg_R44.MASH_ORDER = MASH_ORDER_type.integer.val then
    400000000
  else if read_field dev._registers_map reg_R44.MASH_ORDER = MASH_ORDER_type.frac4.val then
    240000000
  else 300000000

def get_pd_frequency_min (dev : lmx2594) : Nat :=
  if read_field dev._registers_map reg_R44.MASH_ORDER = MASH_ORDER_type.integer.val then 125
  else 5000

/-- The value that `_set_vco_calibration_divider` computes into its local `divider` (and does
not store). -/
def vco_calibration_divider_local (osc_frequency : Nat) : CAL_CLK_DIV_type :=
  if osc_frequency > 800000000 then CAL_CLK_DIV_type.div8
  else if osc_frequency > 400000000 then CAL_CLK_DIV_type.div4
  else if osc_frequency > 200000000 then CAL_CLK_DIV_type.div2
  else CAL_CLK_DIV_type.div1

/-- The `do { write(register_count, array[register_count]); } while (--register_count);` loop
of `reset`, entered with a positive counter: the body runs for `register_count`,
`register_count - 1`, ..., 1 and the loop ends when the decremented counter is 0.  A raising
`write` leaves the loop. -/
def reset_loop (tr : transport) : Nat → lmx2594 → result
  | 0, dev => ⟨dev, none⟩
  | register_count + 1, dev =>
    (write tr dev (register_count + 1) (dev.array (register_count + 1))).and_then
      fun dev1 => reset_loop tr register_count dev1

/-- The 10 ms `sleep_for` between the loop and the calibration write has no effect on the
state and is omitted. -/
def reset (tr : transport) (dev : lmx2594) : result :=
  let dev1 : lmx2594 :=
    { dev with
      _registers_map := write_field dev._registers_map reg_R0.RESET RESET_type.reset.val }
  (write tr dev1 0 (dev1._registers_map 0)).and_then fun dev2 =>
    let dev3 : lmx2594 :=
      { dev2 with
        _registers_map := write_field dev2._registers_map reg_R0.RESET RESET_type.normal.val }
    (write tr dev3 0 (dev3._registers_map 0)).and_then fun dev4 =>
      (reset_loop tr register_max_num.toNat dev4).and_then fun dev5 =>
        let dev6 : lmx2594 :=
          { dev5 with
            _registers_map :=
              write_field dev5._registers_map reg_R0.FCAL_EN FCAL_EN_type.calibrate_vco.val }
        write tr dev6 0 (dev6._registers_map 0)

def chip_enable (tr : transport) (dev : lmx2594) (enabled : Bool) : result :=
  let dev1 : lmx2594 :=
    { dev with
      _registers_map :=
        write_field dev._registers_map reg_R0.POWERDOWN
          (if enabled then POWERDOWN_type.normal else POWERDOWN_type.powerdown).val }
  write tr dev1 0 (dev1._registers_map 0)

def vco_calibrate (tr : transport) (dev : lmx2594) : result :=
  let dev1 : lmx2594 :=
    { dev with
      _registers_map :=
        write_field dev._registers_map reg_R0.FCAL_EN FCAL_EN_type.calibrate_vco.val }
  write tr dev1 0 (dev1._registers_map 0)

/-- Overload `bool is_enabled()`: `read(0, _registers_map.regs.reg_R0.reg)` stores the word
read as the in-memory R0, then POWERDOWN is tested.  The boolean is meaningful when no
exception is raised; a raising `read` is taken to leave the register as it was. -/
def is_enabled (tr : transport) (dev : lmx2594) : result × Bool :=
  match read tr dev 0 with
  | Except.error e => (⟨dev, some e⟩, false)
  | Except.ok w =>
    let dev1 : lmx2594 := { dev with _registers_map := Function.update dev._registers_map 0 w }
    (⟨dev1, none⟩,
      if read_field dev1._registers_map reg_R0.POWERDOWN = POWERDOWN_type.normal.val then true
      else false)

/-- Overload `bool is_output_enabled(lmx2594_output)`: `read(44, ...reg_R44.reg)` stores the
word read as the in-memory R44, then the power-down bit of the output is tested
(`data.enabled` starts as false). -/
def is_output_enabled (tr : transport) (dev : lmx2594) (output : lmx2594_output) :
    result × Bool :=
  match read tr dev 44 with
  | Except.error e => (⟨dev, some e⟩, false)
  | Except.ok w =>
    let dev1 : lmx2594 := { dev with _registers_map := Function.update dev._registers_map 44 w }
    (⟨dev1, none⟩,
      if output = lmx2594_output.outa then
        (if read_field dev1._registers_map reg_R44.OUTA_PD = OUT_PD_type.active.val then true
        else false)
      else if output = lmx2594_output.outb then
        (if read_field dev1._registers_map reg_R44.OUTB_PD = OUT_PD_type.active.val then true
        else false)
      else false)

end lmx2594

/-- A parameter of the device together with the value handed to its `set_` / `update_` pair
(the stage and apply operations of the specification). -/
inductive parameter
  | output_enabled (data : lmx2594_output_enable)
  | output_power (data : lmx2594_output_power)
  | output_mux_a (value : OUTA_MUX_type)
  | output_mux_b (value : OUTB_MUX_type)
  | channel_divider (value : CHDIV_type)
  | charge_pump_gain (value : CPG_type)
  | doubler (value : OSC_2X_type)
  | pre_divider (value : Nat)
  | multiplier (value : MULT_type)
  | divider (value : Nat)
  | n_divider (value : Nat)
  | fractional_numerator (value : Nat)
  | fractional_denomerator (value : Nat)
  | lock_detect (value : LD_TYPE_type)
  | lock_detect_mux (value : MUXOUT_LD_SEL_type)
  | phase_detector_delay (vco_frequency : Nat)
  | vco_calibration_divider (osc_frequency : Nat)
  | mash_order (value : MASH_ORDER_type)

/-- The registers of a parameter, in the order in which its `set_` / `update_` pair names
them. -/
def parameter.registers : parameter → List Nat
  | .output_enabled _ => [44]
  | .output_power _ => [45, 44]
  | .output_mux_a _ => [45]
  | .output_mux_b _ => [46]
  | .channel_divider _ => [75, 31]
  | .charge_pump_gain _ => [14]
  | .doubler _ => [9]
  | .pre_divider _ => [12]
  | .multiplier _ => [10]
  | .divider _ => [11]
  | .n_divider _ => [36, 34]
  | .fractional_numerator _ => [43, 42]
  | .fractional_denomerator _ => [39, 38]
  | .lock_detect _ => [59]
  | .lock_detect_mux _ => [0]
  | .phase_detector_delay _ => [37]
  | .vco_calibration_divider _ => [1]
  | .mash_order _ => [44]

/-- The private setter `_set_P(v)` that both `set_P` and `update_P` call first; a `noexcept`
setter returns without an exception. -/
def lmx2594._set_parameter (dev : lmx2594) : parameter → result
  | .output_enabled data => ⟨dev._set_output_enabled data, none⟩
  | .output_power data => ⟨dev._set_output_power data, none⟩
  | .output_mux_a value => ⟨dev._set_output_mux_a value, none⟩
  | .output_mux_b value => ⟨dev._set_output_mux_b value, none⟩
  | .channel_divider value => ⟨dev._set_channel_divider value, none⟩
  | .charge_pump_gain value => ⟨dev._set_charge_pump_gain value, none⟩
  | .doubler value => ⟨dev._set_doubler value, none⟩
  | .pre_divider value => dev._set_pre_divider value
  | .multiplier value => ⟨dev._set_multiplier value, none⟩
  | .divider value => dev._set_divider value
  | .n_divider value => ⟨dev._set_n_divider value, none⟩
  | .fractional_numerator value => ⟨dev._set_fractional_numerator value, none⟩
  | .fractional_denomerator value => ⟨dev._set_fractional_denomerator value, none⟩
  | .lock_detect value => ⟨dev._set_lock_detect value, none⟩
  | .lock_detect_mux value => ⟨dev._set_lock_detect_mux value, none⟩
  | .phase_detector_delay vco_frequency => dev._set_phase_detector_delay vco_frequency
  | .vco_calibration_divider osc_frequency =>
    ⟨dev._set_vco_calibration_divider osc_frequency, none⟩
  | .mash_order value => ⟨dev._set_mash_order value, none⟩

/-- The stage operation `set_P(v)`; a `noexcept` setter returns without an exception. -/
def lmx2594.set_parameter (dev : lmx2594) : parameter → result
  | .output_enabled data => ⟨dev.set_output_enabled data, none⟩
  | .output_power data => ⟨dev.set_output_power data, none⟩
  | .output_mux_a value => ⟨dev.set_output_mux_a value, none⟩
  | .output_mux_b value => ⟨dev.set_output_mux_b value, none⟩
  | .channel_divider value => ⟨dev.set_channel_divider value, none⟩
  | .charge_pump_gain value => ⟨dev.set_charge_pump_gain value, none⟩
  | .doubler value => ⟨dev.set_doubler value, none⟩
  | .pre_divider value => dev.set_pre_divider value
  | .multiplier value => ⟨dev.set_multiplier value, none⟩
  | .divider value => dev.set_divider value
  | .n_divider value => ⟨dev.set_n_divider value, none⟩
  | .fractional_numerator value => ⟨dev.set_fractional_numerator value, none⟩
  | .fractional_denomerator value => ⟨dev.set_fractional_denomerator value, none⟩
  | .lock_detect value => ⟨dev.set_lock_detect value, none⟩
  | .lock_detect_mux value => ⟨dev.set_lock_detect_mux value, none⟩
  | .phase_detector_delay vco_frequency => dev.set_phase_detector_delay vco_frequency
  | .vco_calibration_divider osc_frequency =>
    ⟨dev.set_vco_calibration_divider osc_frequency, none⟩
  | .mash_order value => ⟨dev.set_mash_order value, none⟩

/-- The apply operation `update_P(v)`. -/
def lmx2594.update_parameter (tr : transport) (dev : lmx2594) : parameter → result
  | .output_enabled data => lmx2594.update_output_enabled tr dev data
  | .output_power data => lmx2594.update_output_power tr dev data
  | .output_mux_a value => lmx2594.update_output_mux_a tr dev value
  | .output_mux_b value => lmx2594.update_output_mux_b tr dev value
  | .channel_divider value => lmx2594.update_channel_divider tr dev value
  | .charge_pump_gain value => lmx2594.update_charge_pump_gain tr dev value
  | .doubler value => lmx2594.update_doubler tr dev value
  | .pre_divider value => lmx2594.update_pre_divider tr dev value
  | .multiplier value => lmx2594.update_multiplier tr dev value
  | .divider value => lmx2594.update_divider tr dev value
  | .n_divider value => lmx2594.update_n_divider tr dev value
  | .fractional_numerator value => lmx2594.update_fractional_numerator tr dev value
  | .fractional_denomerator value => lmx2594.update_fractional_denomerator tr dev value
  | .lock_detect value => lmx2594.update_lock_detect tr dev value
  | .lock_detect_mux value => lmx2594.update_lock_detect_mux tr dev value
  | .phase_detector_delay vco_frequency =>
    lmx2594.update_phase_detector_delay tr dev vco_frequency
  | .vco_calibration_divider osc_frequency =>
    lmx2594.update_vco_calibration_divider tr dev osc_frequency
  | .mash_order value => lmx2594.update_mash_order tr dev value

/-- A transport on which every write succeeds (and every read returns zero). -/
def transport.succeeding : transport :=
  { write := fun _ _ _ => true, read := fun _ _ => some 0 }

/-- Number of entries of the dirty bitmap `_changed[register_max_num]` that are true. -/
def lmx2594_registers.registers_update.dirty_count (u : registers_update) : Nat :=
  ((List.range register_max_num.toNat).filter fun n => u._changed (n : Int)).length

/-- The states of the device that the public operations can produce from the freshly
constructed one, with any transport at each call. -/
inductive lmx2594.reachable : lmx2594 → Prop
  | new : lmx2594.reachable lmx2594.new
  | set_parameter (dev : lmx2594) (p : parameter) :
    lmx2594.reachable dev → lmx2594.reachable (dev.set_parameter p).dev
  | update_parameter (tr : transport) (dev : lmx2594) (p : parameter) :
    lmx2594.reachable dev → lmx2594.reachable (dev.update_parameter tr p).dev
  | update_changes (tr : transport) (dev : lmx2594) :
    lmx2594.reachable dev → lmx2594.reachable (lmx2594.update_changes tr dev).dev
  | reset (tr : transport) (dev : lmx2594) :
    lmx2594.reachable dev → lmx2594.reachable (lmx2594.reset tr dev).dev
  | chip_enable (tr : transport) (dev : lmx2594) (enabled : Bool) :
    lmx2594.reachable dev → lmx2594.reachable (lmx2594.chip_enable tr dev enabled).dev
  | vco_calibrate (tr : transport) (dev : lmx2594) :
    lmx2594.reachable dev → lmx2594.reachable (lmx2594.vco_calibrate tr dev).dev
  | is_enabled (tr : transport) (dev : lmx2594) :
    lmx2594.reachable dev → lmx2594.reachable (lmx2594.is_enabled tr dev).1.dev
  | is_output_enabled (tr : transport) (dev : lmx2594) (output : lmx2594_output) :
    lmx2594.reachable dev → lmx2594.reachable (lmx2594.is_output_enabled tr dev output).1.dev

/-- For each register, register 0 first, the mask of its reserved bits: the bits declared
`const register_type Dk : 1` in its structure (all 16 bits for `register_common`).  The comment
names the fields that are not reserved, with their bit ranges. -/
def lmx2594_registers.reserved_masks : List Nat :=
  [
    -- R0: POWERDOWN[0], RESET[1], MUXOUT_LD_SEL[2], FCAL_EN[3], FCAL_LPFD_ADJ[5..6], FCAL_HPFD_ADJ[7..8], OUT_MUTE[9], VCO_PHASE_SYNC[14], RAMP_EN[15]
    0x3C10,
    -- R1: CAL_CLK_DIV[0..2]
    0xFFF8,
    -- R2: no field
    0xFFFF,
    -- R3: no field
    0xFFFF,
    -- R4: ACAL_CMP_DLY[8..15]
    0x00FF,
    -- R5: no field
    0xFFFF,
    -- R6: no field
    0xFFFF,
    -- R7: OUT_FORCE[14]
    0xBFFF,
    -- R8: VCO_CAPCTRL_FORCE[11], VCO_DACISET_FORCE[14]
    0xB7FF,
    -- R9: OSC_2X[12]
    0xEFFF,
    -- R10: MULT[7..11]
    0xF07F,
    -- R11: PLL_R[4..11]
    0xF00F,
    -- R12: PLL_R_PRE[0..11]
    0xF000,
    -- R13: no field
    0xFFFF,
    -- R14: CPG[4..6]
    0xFF8F,
    -- R15: no field
    0xFFFF,
    -- R16: VCO_DACISET[0..8]
    0xFE00,
    -- R17: VCO_DACISET_STRT[0..8]
    0xFE00,
    -- R18: no field
    0xFFFF,
    -- R19: VCO_CAPCTRL[0..7]
    0xFF00,
    -- R20: VCO_SEL_FORCE[10], VCO_SEL[11..13]
    0xC3FF,
    -- R21: no field
    0xFFFF,
    -- R22: no field
    0xFFFF,
    -- R23: no field
    0xFFFF,
    -- R24: no field
    0xFFFF,
    -- R25: no field
    0xFFFF,
    -- R26: no field
    0xFFFF,
    -- R27: no field
    0xFFFF,
    -- R28: no field
    0xFFFF,
    -- R29: no field
    0xFFFF,
    -- R30: no field
    0xFFFF,
    -- R31: SEG1_EN[14]
    0xBFFF,
    -- R32: no field
    0xFFFF,
    -- R33: no field
    0xFFFF,
    -- R34: PLL_N_18_16[0..2]
    0xFFF8,
    -- R35: no field
    0xFFFF,
    -- R36: PLL_N_15_0[0..15]
    0x0000,
    -- R37: PFD_DLY_SEL[8..13], MASH_SEED_EN[15]
    0x40FF,
    -- R38: PLL_DEN_31_16[0..15]
    0x0000,
    -- R39: PLL_DEN_15_0[0..15]
    0x0000,
    -- R40: MASH_SEED_31_16[0..15]
    0x0000,
    -- R41: MASH_SEED_15_0[0..15]
    0x0000,
    -- R42: PLL_NUM_31_16[0..15]
    0x0000,
    -- R43: PLL_NUM_15_0[0..15]
    0x0000,
    -- R44: MASH_ORDER[0..2], MASH_RESET_N[5], OUTA_PD[6], OUTB_PD[7], OUTA_PWR[8..13]
    0xC018,
    -- R45: OUTB_PWR[0..5], OUT_ISET[9..10], OUTA_MUX[11..12]
    0xE1C0,
    -- R46: OUTB_MUX[0..1]
    0xFFFC,
    -- R47: no field
    0xFFFF,
    -- R48: no field
    0xFFFF,
    -- R49: no field
    0xFFFF,
    -- R50: no field
    0xFFFF,
    -- R51: no field
    0xFFFF,
    -- R52: no field
    0xFFFF,
    -- R53: no field
    0xFFFF,
    -- R54: no field
    0xFFFF,
    -- R55: no field
    0xFFFF,
    -- R56: no field
    0xFFFF,
    -- R57: no field
    0xFFFF,
    -- R58: INPIN_FMT[9..11], INPIN_LVL[12..13], INPIN_HYST[14], INPIN_IGNORE[15]
    0x01FF,
    -- R59: LD_TYPE[0]
    0xFFFE,
    -- R60: LD_DLY[0..15]
    0x0000,
    -- R61: no field
    0xFFFF,
    -- R62: no field
    0xFFFF,
    -- R63: no field
    0xFFFF,
    -- R64: no field
    0xFFFF,
    -- R65: no field
    0xFFFF,
    -- R66: no field
    0xFFFF,
    -- R67: no field
    0xFFFF,
    -- R68: no field
    0xFFFF,
    -- R69: MASH_RST_COUNT_31_16[0..15]
    0x0000,
    -- R70: MASH_RST_COUNT_15_0[0..15]
    0x0000,
    -- R71: SYSREF_REPEAT[2], SYSREF_EN[3], SYSREF_PULSE[4], SYSREF_DIV_PRE[5..7]
    0xFF03,
    -- R72: SYSREF_DIV[0..10]
    0xF800,
    -- R73: JESD_DAC1_CTRL[0..5], JESD_DAC2_CTRL[6..11]
    0xF000,
    -- R74: JESD_DAC3_CTRL[0..5], JESD_DAC4_CTRL[6..11], SYSREF_PULSE_CNT[12..15]
    0x0000,
    -- R75: CHDIV[6..10]
    0xF83F,
    -- R76: no field
    0xFFFF,
    -- R77: no field
    0xFFFF,
    -- R78: VCO_CAPCTRL_STRT[1..8], QUICK_RECAL_EN[9], RAMP_THRESH_32[11]
    0xF401,
    -- R79: RAMP_THRESH_31_16[0..15]
    0x0000,
    -- R80: RAMP_THRESH_15_0[0..15]
    0x0000,
    -- R81: RAMP_LIMIT_HIGH_32[0]
    0xFFFE,
    -- R82: RAMP_LIMIT_HIGH_31_16[0..15]
    0x0000,
    -- R83: RAMP_LIMIT_HIGH_15_0[0..15]
    0x0000,
    -- R84: RAMP_LIMIT_LOW_32[0]
    0xFFFE,
    -- R85: RAMP_LIMIT_LOW_31_16[0..15]
    0x0000,
    -- R86: RAMP_LIMIT_LOW_15_0[0..15]
    0x0000,
    -- R87: no field
    0xFFFF,
    -- R88: no field
    0xFFFF,
    -- R89: no field
    0xFFFF,
    -- R90: no field
    0xFFFF,
    -- R91: no field
    0xFFFF,
    -- R92: no field
    0xFFFF,
    -- R93: no field
    0xFFFF,
    -- R94: no field
    0xFFFF,
    -- R95: no field
    0xFFFF,
    -- R96: RAMP_BURST_COUNT[2..14], RAMP_BURST_EN[15]
    0x0003,
    -- R97: RAMP_BURST_TRIG[0..1], RAMP_TRIGA[3..6], RAMP_TRIGB[7..10], RAMP0_RST[15]
    0x7804,
    -- R98: RAMP0_DLY[0], RAMP0_INC_29_16[2..15]
    0x0002,
    -- R99: RAMP0_INC_15_0[0..15]
    0x0000,
    -- R100: RAMP0_LEN[0..15]
    0x0000,
    -- R101: RAMP0_NEXT_TRIG[0..1], RAMP0_NEXT[4], RAMP1_RST[5], RAMP1_DLY[6]
    0xFF8C,
    -- R102: RAMP1_INC_29_16[0..13]
    0xC000,
    -- R103: RAMP1_INC_15_0[0..15]
    0x0000,
    -- R104: RAMP1_LEN[0..15]
    0x0000,
    -- R105: RAMP1_NEXT_TRIG[0..1], RAMP1_NEXT[4], RAMP_MANUAL[5], RAMP_DLY_CNT[6..15]
    0x000C,
    -- R106: RAMP_SCALE_COUNT[0..2], RAMP_TRIG_CAL[4]
    0xFFE8,
    -- R107: no field
    0xFFFF,
    -- R108: no field
    0xFFFF,
    -- R109: no field
    0xFFFF,
    -- R110: rb_VCO_SEL[5..7], rb_LD_VTUNE[9..10]
    0xF91F,
    -- R111: rb_VCO_CAPCTRL[0..7]
    0xFF00,
    -- R112: rb_VCO_DACISET[0..8]
    0xFE00
  ]

/-- Bit `i` of register `r` is a reserved bit. -/
def lmx2594_registers.reserved (r i : Nat) : Bool :=
  (reserved_masks.getD r 0).testBit i

/-- Every reserved bit of every register has the same value in `m1` as in `m`. -/
def same_reserved_bits (m m1 : registers_map) : Prop :=
  ∀ r i, reserved r i = true → (m1 r).testBit i = (m r).testBit i

/-- The change set is clean: the count is zero and `is_changed(r)` is false for every register
number `r`. -/
def lmx2594_registers.registers_update.clean (u : registers_update) : Prop :=
  u._count = 0 ∧ ∀ r : Int, u.is_changed_at r = false

/-- The channels of the LTC2991 monitor, `enum class ltc2991_channel`. -/
inductive ltc2991_channel
  | _1
  | _2
  | _3
  | _4
  | _5
  | _6
  | _7
  | _8
  deriving DecidableEq

/-- The value `static_cast<int>(channel)`. -/
def ltc2991_channel.val : ltc2991_channel → Nat
  | ._1 => 0
  | ._2 => 1
  | ._3 => 2
  | ._4 => 3
  | ._5 => 4
  | ._6 => 5
  | ._7 => 6
  | ._8 => 7

/-- The LTC2991 monitor object holds no register image; `reads` is the log of the register
addresses read so far, oldest first. -/
structure ltc2991 where
  reads : List Nat

namespace ltc2991

/-- Modelled from the spec: member `read(address, value&)` inherited from `chip_base`
(`chappi_base.h` is not among the sources), here with `ValueType = uint8_t`.  `regs` gives the
byte the transport returns for an address, `none` when the transport fails, which raises
`error.transport_error`; the address is appended to the log. -/
def read (regs : Nat → Option Nat) (dev : ltc2991) (addr : Nat) : ltc2991 × Except error Nat :=
  ({ reads := dev.reads ++ [addr] },
    match regs addr with
    | some w => Except.ok (w % 256)
    | none => Except.error error.transport_error)

/-- Private `_get_voltage(addr_msb, value&)`: the result is the integer
`(val_msb & 0b00111111) << 8 | val_lsb`; the source goes on to scale it by the `double`
constant 0.000305180, which is left out.  `value_type(addr_msb + 1)` is a `uint8_t`. -/
def _get_voltage (regs : Nat → Option Nat) (dev : ltc2991) (addr_msb : Nat) :
    ltc2991 × Except error Nat :=
  match dev.read regs addr_msb with
  | (dev1, Except.error e) => (dev1, Except.error e)
  | (dev1, Except.ok val_msb) =>
    match dev1.read regs ((addr_msb + 1) % 256) with
    | (dev2, Except.error e) => (dev2, Except.error e)
    | (dev2, Except.ok val_lsb) => (dev2, Except.ok ((val_msb &&& 0b00111111) <<< 8 ||| val_lsb))

/-- Overload `get_voltage(ltc2991_channel_data&)`; the `int` address expression is converted to
`addr_type`, a `uint8_t`. -/
def get_voltage (regs : Nat → Option Nat) (dev : ltc2991) (channel : ltc2991_channel) :
    ltc2991 × Except error Nat :=
  dev._get_voltage regs ((0x0A + (channel.val <<< 1)) % 256)

/-- Overload `get_temperature(double&)`: the result is the integer
`(msb & 0b00011111) << 8 | lsb`; the source goes on to divide it by the `double` 16.0, which
is left out. -/
def get_temperature (regs : Nat → Option Nat) (dev : ltc2991) : ltc2991 × Except error Nat :=
  match dev.read regs 0x1A with
  | (dev1, Except.error e) => (dev1, Except.error e)
  | (dev1, Except.ok msb) =>
    match dev1.read regs 0x1B with
    | (dev2, Except.error e) => (dev2, Except.error e)
    | (dev2, Except.ok lsb) => (dev2, Except.ok ((msb &&& 0b00011111) <<< 8 ||| lsb))

/-- The addresses that `get_voltage` reads for a channel when both reads succeed, in the order
of the reads. -/
def voltage_registers (channel : ltc2991_channel) : List Nat :=
  (get_voltage (fun _ => some 0) ⟨[]⟩ channel).1.reads

/-- The addresses that `get_temperature` reads when both reads succeed. -/
def temperature_registers : List Nat :=
  (get_temperature (fun _ => some 0) ⟨[]⟩).1.reads

end ltc2991

/-- Frame condition of a single field write from map `m` to map `m1`: every register other
than the one of `f` is untouched, and in the register of `f` every bit outside the field is
untouched. -/
def only_field_changed (m m1 : registers_map) (f : field) : Prop :=
  (∀ r, r ≠ f.reg → m1 r = m r) ∧
    ∀ i, ¬(f.off ≤ i ∧ i < f.off + f.width) → (m1 f.reg).testBit i = (m f.reg).testBit i

/-- The device is left with register map, change set and bus log all as in `dev`. -/
def left_untouched (dev : lmx2594) (r : result) : Prop :=
  r.dev._registers_map = dev._registers_map ∧
    r.dev._registers_update._changed = dev._registers_update._changed ∧
    r.dev._registers_update._count = dev._registers_update._count ∧
    r.dev.bus = dev.bus

end chappi

namespace chappi

open lmx2594_registers

/-! ## Bit-fields -/

theorem testBit_set_bits (w off width v i : Nat) :
    (set_bits w off width v).testBit i =
      if off ≤ i ∧ i < off + width then v.testBit (i - off) else w.testBit i := by
  unfold set_bits
  rw [Nat.add_comm, Nat.testBit_mul_pow_two_add _ (Nat.mod_lt _ (by positivity))]
  by_cases h1 : i < off
  · have h0 : ¬(off ≤ i ∧ i < off + width) := by omega
    simp [h1, h0, Nat.testBit_mod_two_pow]
  · simp only [h1, if_false]
    rw [Nat.add_comm, Nat.testBit_mul_pow_two_add _ (Nat.mod_lt _ (by positivity))]
    by_cases h2 : i - off < width
    · have h3 : off ≤ i ∧ i < off + width := by omega
      simp [h2, h3, Nat.testBit_mod_two_pow]
    · have h3 : ¬(off ≤ i ∧ i < off + width) := by omega
      simp only [h2, h3, if_false]
      rw [← Nat.shiftRight_eq_div_pow, Nat.testBit_shiftRight]
      congr 1
      omega

theorem get_bits_set_bits (w off width v : Nat) :
    get_bits (set_bits w off width v) off width = v % 2 ^ width := by
  unfold get_bits set_bits
  have h : w % 2 ^ off < 2 ^ off := Nat.mod_lt _ (by positivity)
  rw [Nat.add_mul_div_left _ _ (by positivity), Nat.div_eq_of_lt h, Nat.zero_add,
    Nat.add_mul_mod_self_left, Nat.mod_mod]

theorem read_write_field (m : registers_map) (f : field) (v : Nat) :
    read_field (write_field m f v) f = v % 2 ^ f.width := by
  simp [read_field, write_field, get_bits_set_bits]

theorem read_write_field_of_lt (m : registers_map) (f : field) (v : Nat)
    (h : v < 2 ^ f.width) : read_field (write_field m f v) f = v := by
  rw [read_write_field, Nat.mod_eq_of_lt h]

theorem write_field_other (m : registers_map) (f : field) (v r : Nat) (h : r ≠ f.reg) :
    write_field m f v r = m r := by
  simp [write_field, Function.update_noteq h]

theorem write_field_same (m : registers_map) (f : field) (v : Nat) :
    write_field m f v f.reg = set_bits (m f.reg) f.off f.width v := by
  simp [write_field]

theorem read_field_write_field_other (m : registers_map) (f g : field) (v : Nat)
    (h : g.reg ≠ f.reg) : read_field (write_field m f v) g = read_field m g := by
  simp [read_field, write_field_other m f v g.reg h]

theorem only_field_changed_write_field (m : registers_map) (f : field) (v : Nat) :
    only_field_changed m (write_field m f v) f := by
  refine ⟨fun r hr => write_field_other m f v r hr, fun i hi => ?_⟩
  rw [write_field_same, testBit_set_bits, if_neg hi]

theorem only_field_changed_refl (m : registers_map) (f : field) : only_field_changed m m f :=
  ⟨fun _ _ => rfl, fun _ _ => rfl⟩

/-! ## Derived constraints -/

theorem get_vco_frequency_max_cases (dev : lmx2594) :
    dev.get_vco_frequency_max = 11500000000 ∨ dev.get_vco_frequency_max = 15000000000 := by
  unfold lmx2594.get_vco_frequency_max
  split
  · exact Or.inl rfl
  · exact Or.inr rfl

/-- C1: for a register state whose MASH_ORDER field holds one of the five orders and a VCO
frequency between 7.45 GHz and the current ceiling, `get_n_divider_min` returns the value of
the five-branch table (breakpoints 10 GHz and 12.5 GHz); the value is one of 28, 32, 36, 40,
48, and integer/13 GHz gives 32, integer/8 GHz gives 28, frac4/11 GHz gives 48, frac4/9 GHz
gives 40. -/
theorem get_n_divider_min_table (dev : lmx2594) (f : Nat)
    (horder : ∃ order : MASH_ORDER_type,
      read_field dev._registers_map reg_R44.MASH_ORDER = order.val)
    (hmin : 7450000000 ≤ f) (hmax : f ≤ dev.get_vco_frequency_max) :
    (read_field dev._registers_map reg_R44.MASH_ORDER = MASH_ORDER_type.integer.val →
        dev.get_n_divider_min f = Except.ok (if f > 12500000000 then 32 else 28)) ∧
      (read_field dev._registers_map reg_R44.MASH_ORDER = MASH_ORDER_type.frac1.val →
        dev.get_n_divider_min f =
          Except.ok (if f > 12500000000 then 36 else if f > 10000000000 then 32 else 28)) ∧
      (read_field dev._registers_map reg_R44.MASH_ORDER = MASH_ORDER_type.frac2.val →
        dev.get_n_divider_min f = Except.ok (if f > 10000000000 then 36 else 32)) ∧
      (read_field dev._registers_map reg_R44.MASH_ORDER = MASH_ORDER_type.frac3.val →
        dev.get_n_divider_min f = Except.ok (if f > 10000000000 then 40 else 36)) ∧
      (read_field dev._registers_map reg_R44.MASH_ORDER = MASH_ORDER_type.frac4.val →
        dev.get_n_divider_min f = Except.ok (if f > 10000000000 then 48 else 40)) ∧
      (∃ n, n ∈ [28, 32, 36, 40, 48] ∧ dev.get_n_divider_min f = Except.ok n) ∧
      (read_field dev._registers_map reg_R44.MASH_ORDER = MASH_ORDER_type.integer.val →
        f = 13000000000 → dev.get_n_divider_min f = Except.ok 32) ∧
      (read_field dev._registers_map reg_R44.MASH_ORDER = MASH_ORDER_type.integer.val →
        f = 8000000000 → dev.get_n_divider_min f = Except.ok 28) ∧
      (read_field dev._registers_map reg_R44.MASH_ORDER = MASH_ORDER_type.frac4.val →
        f = 11000000000 → dev.get_n_divider_min f = Except.ok 48) ∧
      (read_field dev._registers_map reg_R44.MASH_ORDER = MASH_ORDER_type.frac4.val →
        f = 9000000000 → dev.get_n_divider_min f = Except.ok 40) := by
  have hguard : ¬(f < lmx2594_constants.vco_frequency.min ∨ f > dev.get_vco_frequency_max) := by
    unfold lmx2594_constants.vco_frequency.min
    omega
  unfold lmx2594.get_n_divider_min
  rw [if_neg hguard]
  obtain ⟨order, ho⟩ := horder
  simp only [ho]
  cases order <;> simp [MASH_ORDER_type.val] <;> split_ifs <;> simp <;> omega

theorem get_n_divider_min_table_witness :
    lmx2594.new.get_n_divider_min 13000000000 = Except.ok 32 :=
  (get_n_divider_min_table lmx2594.new 13000000000 ⟨MASH_ORDER_type.integer, by decide⟩
    (by decide) (by decide)).2.2.2.2.2.2.1 (by decide) rfl

theorem exists_mash_order_iff (m : Nat) :
    (∃ order : MASH_ORDER_type, m = order.val) ↔ m ≤ 4 := by
  constructor
  · rintro ⟨order, rfl⟩
    cases order <;> simp [MASH_ORDER_type.val]
  · intro h
    have h5 : m = 0 ∨ m = 1 ∨ m = 2 ∨ m = 3 ∨ m = 4 := by omega
    rcases h5 with rfl | rfl | rfl | rfl | rfl
    · exact ⟨.integer, rfl⟩
    · exact ⟨.frac1, rfl⟩
    · exact ⟨.frac2, rfl⟩
    · exact ⟨.frac3, rfl⟩
    · exact ⟨.frac4, rfl⟩

theorem get_n_divider_min_of_guard (dev : lmx2594) (f : Nat)
    (h : f < 7450000000 ∨ f > dev.get_vco_frequency_max) :
    dev.get_n_divider_min f = Except.error error.invalid_argument := by
  unfold lmx2594.get_n_divider_min lmx2594_constants.vco_frequency.min
  rw [if_pos h]

theorem get_n_divider_min_of_unknown_order (dev : lmx2594) (f : Nat)
    (h : ¬read_field dev._registers_map reg_R44.MASH_ORDER ≤ 4) :
    dev.get_n_divider_min f = Except.error error.invalid_argument := by
  unfold lmx2594.get_n_divider_min
  split
  · rfl
  · simp only [MASH_ORDER_type.val]
    split_ifs <;> first | rfl | omega

theorem get_n_divider_min_ok (dev : lmx2594) (f : Nat)
    (hg : ¬(f < 7450000000 ∨ f > dev.get_vco_frequency_max))
    (h : read_field dev._registers_map reg_R44.MASH_ORDER ≤ 4) :
    ∃ n, dev.get_n_divider_min f = Except.ok n := by
  unfold lmx2594.get_n_divider_min lmx2594_constants.vco_frequency.min
  rw [if_neg hg]
  simp only [MASH_ORDER_type.val]
  split_ifs <;> first | exact ⟨_, rfl⟩ | omega

/-- C2: `get_n_divider_min` raises InvalidArgument exactly when the frequency is below
7,450,000,000 Hz, or above the current ceiling `get_vco_frequency_max()`, or the MASH_ORDER
field holds none of the five orders; it raises nothing else, and with a known order both the
minimum frequency and the ceiling themselves are accepted. -/
theorem get_n_divider_min_invalid_argument_iff (dev : lmx2594) (f : Nat) :
    (dev.get_n_divider_min f = Except.error error.invalid_argument ↔
        f < 7450000000 ∨ f > dev.get_vco_frequency_max ∨
          ¬∃ order : MASH_ORDER_type,
            read_field dev._registers_map reg_R44.MASH_ORDER = order.val) ∧
      (∀ e, dev.get_n_divider_min f = Except.error e → e = error.invalid_argument) ∧
      ((∃ order : MASH_ORDER_type,
          read_field dev._registers_map reg_R44.MASH_ORDER = order.val) →
        (∃ n, dev.get_n_divider_min 7450000000 = Except.ok n) ∧
          ∃ n, dev.get_n_divider_min dev.get_vco_frequency_max = Except.ok n) := by
  rw [exists_mash_order_iff]
  refine ⟨⟨fun herr => ?_, fun h => ?_⟩, fun e he => ?_, fun hk => ⟨?_, ?_⟩⟩
  · by_contra hcon
    have hg : ¬(f < 7450000000 ∨ f > dev.get_vco_frequency_max) := fun hg =>
      hcon (hg.elim Or.inl fun h2 => Or.inr (Or.inl h2))
    have hm : read_field dev._registers_map reg_R44.MASH_ORDER ≤ 4 := by
      by_contra hm
      exact hcon (Or.inr (Or.inr hm))
    obtain ⟨n, hn⟩ := get_n_divider_min_ok dev f hg hm
    rw [hn] at herr
    cases herr
  · rcases h with h | h | h
    · exact get_n_divider_min_of_guard dev f (Or.inl h)
    · exact get_n_divider_min_of_guard dev f (Or.inr h)
    · exact get_n_divider_min_of_unknown_order dev f h
  · by_cases hg : f < 7450000000 ∨ f > dev.get_vco_frequency_max
    · rw [get_n_divider_min_of_guard dev f hg] at he
      cases he
      rfl
    · by_cases hm : read_field dev._registers_map reg_R44.MASH_ORDER ≤ 4
      · obtain ⟨n, hn⟩ := get_n_divider_min_ok dev f hg hm
        rw [hn] at he
        cases he
      · rw [get_n_divider_min_of_unknown_order dev f hm] at he
        cases he
        rfl
  · refine get_n_divider_min_ok dev _ ?_ hk
    rcases get_vco_frequency_max_cases dev with h | h <;> rw [h] <;> omega
  · refine get_n_divider_min_ok dev _ ?_ hk
    rcases get_vco_frequency_max_cases dev with h | h <;> rw [h] <;> omega

theorem get_n_divider_min_invalid_argument_iff_witness :
    (∃ n, lmx2594.new.get_n_divider_min 7450000000 = Except.ok n) ∧
      ∃ n, lmx2594.new.get_n_divider_min lmx2594.new.get_vco_frequency_max = Except.ok n :=
  (get_n_divider_min_invalid_argument_iff lmx2594.new 0).2.2 ⟨MASH_ORDER_type.integer, by decide⟩

/-- C3: `get_vco_frequency_max` is 11,500,000,000 when the CHDIV field is div8 or coarser
(field value at least 3) and 15,000,000,000 otherwise; CHDIV = div8 gives 11.5 GHz, CHDIV =
div2 gives 15 GHz, and two register states with the same CHDIV field have the same ceiling. -/
theorem get_vco_frequency_max_step (dev : lmx2594) :
    dev.get_vco_frequency_max =
        (if read_field dev._registers_map reg_R75.CHDIV ≥ 3 then 11500000000
        else 15000000000) ∧
      (read_field dev._registers_map reg_R75.CHDIV = CHDIV_type.div8.val →
        dev.get_vco_frequency_max = 11500000000) ∧
      (read_field dev._registers_map reg_R75.CHDIV = CHDIV_type.div2.val →
        dev.get_vco_frequency_max = 15000000000) ∧
      ∀ dev2 : lmx2594,
        read_field dev2._registers_map reg_R75.CHDIV =
            read_field dev._registers_map reg_R75.CHDIV →
          dev2.get_vco_frequency_max = dev.get_vco_frequency_max := by
  refine ⟨rfl, fun h => ?_, fun h => ?_, fun dev2 h => ?_⟩
  · simp [lmx2594.get_vco_frequency_max, h]
  · simp [lmx2594.get_vco_frequency_max, h, CHDIV_type.val]
  · simp [lmx2594.get_vco_frequency_max, h]

theorem get_vco_frequency_max_step_witness :
    lmx2594.new.get_vco_frequency_max = 15000000000 ∧
      (lmx2594.new.set_channel_divider CHDIV_type.div8).get_vco_frequency_max = 11500000000 :=
  ⟨(get_vco_frequency_max_step lmx2594.new).2.2.1 (by decide),
    (get_vco_frequency_max_step (lmx2594.new.set_channel_divider CHDIV_type.div8)).2.1
      (by decide)⟩

/-! ## Staging setters -/

theorem write_field_spec (m : registers_map) (f : field) (v : Nat) (h : v < 2 ^ f.width) :
    read_field (write_field m f v) f = v ∧ only_field_changed m (write_field m f v) f :=
  ⟨read_write_field_of_lt m f v h, only_field_changed_write_field m f v⟩

theorem mark_changed_registers_map (dev : lmx2594) (l : List Int) :
    (dev.mark_changed l)._registers_map = dev._registers_map := rfl

theorem mark_changed_bus (dev : lmx2594) (l : List Int) : (dev.mark_changed l).bus = dev.bus :=
  rfl

theorem to_register_type_of_nonneg (p : Int) (h0 : 0 ≤ p) (h1 : p ≤ 63) :
    to_register_type p < 64 ∧ ((to_register_type p : Nat) : Int) = p := by
  unfold to_register_type
  omega

/-- C4: each single-field staging setter, called with a valid value, leaves the targeted
field reading exactly the written value and changes no other bit of that register and no
other register of the map (set_output_enabled, set_output_power with power in 0..63, both
set_output_mux overloads, set_charge_pump_gain, set_doubler, set_pre_divider with 1..128,
set_multiplier, set_divider with 1..255, set_lock_detect, set_mash_order). -/
theorem staging_setter_writes_only_its_field (dev : lmx2594)
    (oe : lmx2594_output_enable) (op : lmx2594_output_power)
    (hop : 0 ≤ op.power ∧ op.power ≤ 63)
    (mux_a : OUTA_MUX_type) (mux_b : OUTB_MUX_type) (cpg : CPG_type) (dbl : OSC_2X_type)
    (pre : Nat) (hpre : 1 ≤ pre ∧ pre ≤ 128) (mult : MULT_type)
    (div : Nat) (hdiv : 1 ≤ div ∧ div ≤ 255) (ld : LD_TYPE_type) (order : MASH_ORDER_type) :
    (oe.output = lmx2594_output.outa →
        read_field (dev.set_output_enabled oe)._registers_map reg_R44.OUTA_PD =
            (if oe.enabled then OUT_PD_type.active else OUT_PD_type.powerdown).val ∧
          only_field_changed dev._registers_map (dev.set_output_enabled oe)._registers_map
            reg_R44.OUTA_PD) ∧
      (oe.output = lmx2594_output.outb →
        read_field (dev.set_output_enabled oe)._registers_map reg_R44.OUTB_PD =
            (if oe.enabled then OUT_PD_type.active else OUT_PD_type.powerdown).val ∧
          only_field_changed dev._registers_map (dev.set_output_enabled oe)._registers_map
            reg_R44.OUTB_PD) ∧
      (op.output = lmx2594_output.outa →
        (read_field (dev.set_output_power op)._registers_map reg_R44.OUTA_PWR : Int) =
            op.power ∧
          only_field_changed dev._registers_map (dev.set_output_power op)._registers_map
            reg_R44.OUTA_PWR) ∧
      (op.output = lmx2594_output.outb →
        (read_field (dev.set_output_power op)._registers_map reg_R45.OUTB_PWR : Int) =
            op.power ∧
          only_field_changed dev._registers_map (dev.set_output_power op)._registers_map
            reg_R45.OUTB_PWR) ∧
      (read_field (dev.set_output_mux_a mux_a)._registers_map reg_R45.OUTA_MUX = mux_a.val ∧
        only_field_changed dev._registers_map (dev.set_output_mux_a mux_a)._registers_map
          reg_R45.OUTA_MUX) ∧
      (read_field (dev.set_output_mux_b mux_b)._registers_map reg_R46.OUTB_MUX = mux_b.val ∧
        only_field_changed dev._registers_map (dev.set_output_mux_b mux_b)._registers_map
          reg_R46.OUTB_MUX) ∧
      (read_field (dev.set_charge_pump_gain cpg)._registers_map reg_R14.CPG = cpg.val ∧
        only_field_changed dev._registers_map (dev.set_charge_pump_gain cpg)._registers_map
          reg_R14.CPG) ∧
      (read_field (dev.set_doubler dbl)._registers_map reg_R9.OSC_2X = dbl.val ∧
        only_field_changed dev._registers_map (dev.set_doubler dbl)._registers_map
          reg_R9.OSC_2X) ∧
      ((dev.set_pre_divider pre).error = none ∧
        read_field (dev.set_pre_divider pre).dev._registers_map reg_R12.PLL_R_PRE = pre ∧
        only_field_changed dev._registers_map (dev.set_pre_divider pre).dev._registers_map
          reg_R12.PLL_R_PRE) ∧
      (read_field (dev.set_multiplier mult)._registers_map reg_R10.MULT = mult.val ∧
        only_field_changed dev._registers_map (dev.set_multiplier mult)._registers_map
          reg_R10.MULT) ∧
      ((dev.set_divider div).error = none ∧
        read_field (dev.set_divider div).dev._registers_map reg_R11.PLL_R = div ∧
        only_field_changed dev._registers_map (dev.set_divider div).dev._registers_map
          reg_R11.PLL_R) ∧
      (read_field (dev.set_lock_detect ld)._registers_map reg_R59.LD_TYPE = ld.val ∧
        only_field_changed dev._registers_map (dev.set_lock_detect ld)._registers_map
          reg_R59.LD_TYPE) ∧
      (read_field (dev.set_mash_order order)._registers_map reg_R44.MASH_ORDER = order.val ∧
        only_field_changed dev._registers_map (dev.set_mash_order order)._registers_map
          reg_R44.MASH_ORDER) := by
  obtain ⟨hp64, hpcast⟩ := to_register_type_of_nonneg op.power hop.1 hop.2
  have hpre0 : ¬(pre < lmx2594_constants.pre_divider.min ∨
      pre > lmx2594_constants.pre_divider.max) := by
    unfold lmx2594_constants.pre_divider.min lmx2594_constants.pre_divider.max
    omega
  have hdiv0 : ¬(div < lmx2594_constants.divider.min ∨ div > lmx2594_constants.divider.max) := by
    unfold lmx2594_constants.divider.min lmx2594_constants.divider.max
    omega
  refine ⟨?_, ?_, ?_, ?_, ?_, ?_, ?_, ?_, ?_, ?_, ?_, ?_, ?_⟩
  · intro ho
    have hmap : (dev.set_output_enabled oe)._registers_map =
        write_field dev._registers_map reg_R44.OUTA_PD
          (if oe.enabled then OUT_PD_type.active else OUT_PD_type.powerdown).val := by
      simp [lmx2594.set_output_enabled, lmx2594._set_output_enabled,
        mark_changed_registers_map, ho]
    rw [hmap]
    exact write_field_spec _ _ _ (by cases oe.enabled <;> decide)
  · intro ho
    have hmap : (dev.set_output_enabled oe)._registers_map =
        write_field dev._registers_map reg_R44.OUTB_PD
          (if oe.enabled then OUT_PD_type.active else OUT_PD_type.powerdown).val := by
      simp [lmx2594.set_output_enabled, lmx2594._set_output_enabled,
        mark_changed_registers_map, ho]
    rw [hmap]
    exact write_field_spec _ _ _ (by cases oe.enabled <;> decide)
  · intro ho
    have hmap : (dev.set_output_power op)._registers_map =
        write_field dev._registers_map reg_R44.OUTA_PWR (to_register_type op.power) := by
      simp [lmx2594.set_output_power, lmx2594._set_output_power, mark_changed_registers_map, ho]
    have hs := write_field_spec dev._registers_map reg_R44.OUTA_PWR
      (to_register_type op.power) hp64
    rw [hmap]
    exact ⟨by rw [hs.1, hpcast], hs.2⟩
  · intro ho
    have hmap : (dev.set_output_power op)._registers_map =
        write_field dev._registers_map reg_R45.OUTB_PWR (to_register_type op.power) := by
      simp [lmx2594.set_output_power, lmx2594._set_output_power, mark_changed_registers_map, ho]
    have hs := write_field_spec dev._registers_map reg_R45.OUTB_PWR
      (to_register_type op.power) hp64
    rw [hmap]
    exact ⟨by rw [hs.1, hpcast], hs.2⟩
  · exact write_field_spec _ _ _ (by cases mux_a <;> decide)
  · exact write_field_spec _ _ _ (by cases mux_b <;> decide)
  · exact write_field_spec _ _ _ (by cases cpg <;> decide)
  · exact write_field_spec _ _ _ (by cases dbl <;> decide)
  · simp only [lmx2594.set_pre_divider, lmx2594._set_pre_divider, if_neg hpre0,
      result.and_then, mark_changed_registers_map, true_and]
    exact write_field_spec _ _ _ (by show pre < 2 ^ 12; omega)
  · exact write_field_spec _ _ _ (by cases mult <;> decide)
  · simp only [lmx2594.set_divider, lmx2594._set_divider, if_neg hdiv0,
      result.and_then, mark_changed_registers_map, true_and]
    exact write_field_spec _ _ _ (by show div < 2 ^ 8; omega)
  · exact write_field_spec _ _ _ (by cases ld <;> decide)
  · exact write_field_spec _ _ _ (by cases order <;> decide)

theorem staging_setter_writes_only_its_field_witness :
    read_field (lmx2594.new.set_pre_divider 128).dev._registers_map reg_R12.PLL_R_PRE = 128 ∧
      (read_field
          (lmx2594.new.set_output_power ⟨lmx2594_output.outb, 63⟩)._registers_map
          reg_R45.OUTB_PWR : Int) = 63 :=
  ⟨(staging_setter_writes_only_its_field lmx2594.new ⟨lmx2594_output.outa, true⟩
      ⟨lmx2594_output.outb, 63⟩ (by decide) OUTA_MUX_type.chdiv OUTB_MUX_type.chdiv
      CPG_type.current_0_mA OSC_2X_type.disabled 128 (by decide) MULT_type.bypass 255
      (by decide) LD_TYPE_type.vco_status MASH_ORDER_type.integer).2.2.2.2.2.2.2.2.1.2.1,
    ((staging_setter_writes_only_its_field lmx2594.new ⟨lmx2594_output.outa, true⟩
      ⟨lmx2594_output.outb, 63⟩ (by decide) OUTA_MUX_type.chdiv OUTB_MUX_type.chdiv
      CPG_type.current_0_mA OSC_2X_type.disabled 128 (by decide) MULT_type.bypass 255
      (by decide) LD_TYPE_type.vco_status MASH_ORDER_type.integer).2.2.2.1 rfl).1⟩

/-! ## Validation -/

theorem _set_pre_divider_of_invalid (dev : lmx2594) (v : Nat) (h : v < 1 ∨ v > 128) :
    dev._set_pre_divider v = ⟨dev, some error.invalid_argument⟩ := by
  unfold lmx2594._set_pre_divider lmx2594_constants.pre_divider.min
    lmx2594_constants.pre_divider.max
  rw [if_pos h]

theorem _set_pre_divider_of_valid (dev : lmx2594) (v : Nat) (h : ¬(v < 1 ∨ v > 128)) :
    dev._set_pre_divider v =
      ⟨{ dev with _registers_map := write_field dev._registers_map reg_R12.PLL_R_PRE v },
        none⟩ := by
  unfold lmx2594._set_pre_divider lmx2594_constants.pre_divider.min
    lmx2594_constants.pre_divider.max
  rw [if_neg h]

theorem _set_divider_of_invalid (dev : lmx2594) (v : Nat) (h : v < 1 ∨ v > 255) :
    dev._set_divider v = ⟨dev, some error.invalid_argument⟩ := by
  unfold lmx2594._set_divider lmx2594_constants.divider.min lmx2594_constants.divider.max
  rw [if_pos h]

theorem _set_divider_of_valid (dev : lmx2594) (v : Nat) (h : ¬(v < 1 ∨ v > 255)) :
    dev._set_divider v =
      ⟨{ dev with _registers_map := write_field dev._registers_map reg_R11.PLL_R v },
        none⟩ := by
  unfold lmx2594._set_divider lmx2594_constants.divider.min lmx2594_constants.divider.max
  rw [if_neg h]

/-- C5: `set_pre_divider(v)` raises InvalidArgument if and only if v < 1 or v > 128, and
`set_divider(v)` if and only if v < 1 or v > 255; every other v is accepted, and for every
accepted v the PLL_R_PRE (respectively PLL_R) field afterwards equals v. -/
theorem set_pre_divider_set_divider_range (dev : lmx2594) (v : Nat) :
    ((dev.set_pre_divider v).error = some error.invalid_argument ↔ v < 1 ∨ v > 128) ∧
      ((dev.set_pre_divider v).error = none ↔ 1 ≤ v ∧ v ≤ 128) ∧
      ((dev.set_divider v).error = some error.invalid_argument ↔ v < 1 ∨ v > 255) ∧
      ((dev.set_divider v).error = none ↔ 1 ≤ v ∧ v ≤ 255) ∧
      ((dev.set_pre_divider v).error = none →
        read_field (dev.set_pre_divider v).dev._registers_map reg_R12.PLL_R_PRE = v) ∧
      ((dev.set_divider v).error = none →
        read_field (dev.set_divider v).dev._registers_map reg_R11.PLL_R = v) := by
  have hp : (v < 1 ∨ v > 128) ∨ ¬(v < 1 ∨ v > 128) := em _
  have hd : (v < 1 ∨ v > 255) ∨ ¬(v < 1 ∨ v > 255) := em _
  refine ⟨?_, ?_, ?_, ?_, ?_, ?_⟩
  · rcases hp with h | h
    · simp [lmx2594.set_pre_divider, _set_pre_divider_of_invalid dev v h, result.and_then]
      omega
    · simp [lmx2594.set_pre_divider, _set_pre_divider_of_valid dev v h, result.and_then]
      omega
  · rcases hp with h | h
    · simp [lmx2594.set_pre_divider, _set_pre_divider_of_invalid dev v h, result.and_then]
      omega
    · simp [lmx2594.set_pre_divider, _set_pre_divider_of_valid dev v h, result.and_then]
      omega
  · rcases hd with h | h
    · simp [lmx2594.set_divider, _set_divider_of_invalid dev v h, result.and_then]
      omega
    · simp [lmx2594.set_divider, _set_divider_of_valid dev v h, result.and_then]
      omega
  · rcases hd with h | h
    · simp [lmx2594.set_divider, _set_divider_of_invalid dev v h, result.and_then]
      omega
    · simp [lmx2594.set_divider, _set_divider_of_valid dev v h, result.and_then]
      omega
  · rcases hp with h | h
    · simp [lmx2594.set_pre_divider, _set_pre_divider_of_invalid dev v h, result.and_then]
    · intro _
      simp only [lmx2594.set_pre_divider, _set_pre_divider_of_valid dev v h, result.and_then,
        mark_changed_registers_map]
      exact read_write_field_of_lt _ _ _ (by show v < 2 ^ 12; omega)
  · rcases hd with h | h
    · simp [lmx2594.set_divider, _set_divider_of_invalid dev v h, result.and_then]
    · intro _
      simp only [lmx2594.set_divider, _set_divider_of_valid dev v h, result.and_then,
        mark_changed_registers_map]
      exact read_write_field_of_lt _ _ _ (by show v < 2 ^ 8; omega)

theorem set_pre_divider_set_divider_range_witness :
    read_field (lmx2594.new.set_pre_divider 128).dev._registers_map reg_R12.PLL_R_PRE = 128 ∧
      read_field (lmx2594.new.set_divider 255).dev._registers_map reg_R11.PLL_R = 255 :=
  ⟨(set_pre_divider_set_divider_range lmx2594.new 128).2.2.2.2.1 (by decide),
    (set_pre_divider_set_divider_range lmx2594.new 255).2.2.2.2.2 (by decide)⟩

theorem and_then_of_raised (dev : lmx2594) (e : error) (k : lmx2594 → result) :
    (result.mk dev (some e)).and_then k = ⟨dev, some e⟩ := rfl

theorem and_then_of_returned (dev : lmx2594) (k : lmx2594 → result) :
    (result.mk dev none).and_then k = k dev := rfl

theorem and_then_of_error_none (r : result) (k : lmx2594 → result) (h : r.error = none) :
    r.and_then k = k r.dev := by
  unfold result.and_then
  rw [h]

theorem left_untouched_raised (dev : lmx2594) (e : error) : left_untouched dev ⟨dev, some e⟩ :=
  ⟨rfl, rfl, rfl, rfl⟩

theorem write_error (tr : transport) (dev : lmx2594) (a w : Nat) :
    (lmx2594.write tr dev a w).error = none ∨
      (lmx2594.write tr dev a w).error = some error.transport_error := by
  unfold lmx2594.write
  by_cases h : tr.write dev.bus a w = true
  · left
    simp [h]
  · right
    simp [h]

theorem _update_registers_error (tr : transport) (l : List Nat) :
    ∀ dev : lmx2594,
      (lmx2594._update_registers tr dev l).error = none ∨
        (lmx2594._update_registers tr dev l).error = some error.transport_error := by
  induction l with
  | nil => intro dev; exact Or.inl rfl
  | cons a rest ih =>
    intro dev
    unfold lmx2594._update_registers
    rcases write_error tr dev a (dev._registers_map a) with h | h
    · rw [and_then_of_error_none _ _ h]
      exact ih _
    · right
      unfold result.and_then
      rw [h]

theorem _update_registers_not_invalid_argument (tr : transport) (dev : lmx2594) (l : List Nat) :
    (lmx2594._update_registers tr dev l).error ≠ some error.invalid_argument := by
  rcases _update_registers_error tr l dev with h | h <;> rw [h] <;> simp

theorem _set_phase_detector_delay_cases (dev : lmx2594) (f : Nat) :
    dev._set_phase_detector_delay f = ⟨dev, some error.invalid_argument⟩ ∨
      (dev._set_phase_detector_delay f).error = none := by
  unfold lmx2594._set_phase_detector_delay lmx2594.assign_PFD_DLY_SEL
  dsimp only
  split_ifs <;> first | exact Or.inl rfl | exact Or.inr rfl

/-- C6: whenever `set_pre_divider`, `update_pre_divider`, `set_divider`, `update_divider`,
`set_phase_detector_delay` or `update_phase_detector_delay` raises InvalidArgument, the
register map is exactly as before, the change set (flags and count) is unchanged and no
transport write has been issued. -/
theorem invalid_argument_leaves_device_untouched (tr : transport) (dev : lmx2594)
    (v f : Nat) :
    ((dev.set_pre_divider v).error = some error.invalid_argument →
        left_untouched dev (dev.set_pre_divider v)) ∧
      ((lmx2594.update_pre_divider tr dev v).error = some error.invalid_argument →
        left_untouched dev (lmx2594.update_pre_divider tr dev v)) ∧
      ((dev.set_divider v).error = some error.invalid_argument →
        left_untouched dev (dev.set_divider v)) ∧
      ((lmx2594.update_divider tr dev v).error = some error.invalid_argument →
        left_untouched dev (lmx2594.update_divider tr dev v)) ∧
      ((dev.set_phase_detector_delay f).error = some error.invalid_argument →
        left_untouched dev (dev.set_phase_detector_delay f)) ∧
      ((lmx2594.update_phase_detector_delay tr dev f).error = some error.invalid_argument →
        left_untouched dev (lmx2594.update_phase_detector_delay tr dev f)) := by
  have hp : (v < 1 ∨ v > 128) ∨ ¬(v < 1 ∨ v > 128) := em _
  have hd : (v < 1 ∨ v > 255) ∨ ¬(v < 1 ∨ v > 255) := em _
  refine ⟨?_, ?_, ?_, ?_, ?_, ?_⟩
  · unfold lmx2594.set_pre_divider
    rcases hp with h | h
    · rw [_set_pre_divider_of_invalid dev v h, and_then_of_raised]
      exact fun _ => left_untouched_raised dev _
    · rw [_set_pre_divider_of_valid dev v h, and_then_of_returned]
      intro he
      cases he
  · unfold lmx2594.update_pre_divider
    rcases hp with h | h
    · rw [_set_pre_divider_of_invalid dev v h, and_then_of_raised]
      exact fun _ => left_untouched_raised dev _
    · rw [_set_pre_divider_of_valid dev v h, and_then_of_returned]
      intro he
      exact absurd he (_update_registers_not_invalid_argument tr _ _)
  · unfold lmx2594.set_divider
    rcases hd with h | h
    · rw [_set_divider_of_invalid dev v h, and_then_of_raised]
      exact fun _ => left_untouched_raised dev _
    · rw [_set_divider_of_valid dev v h, and_then_of_returned]
      intro he
      cases he
  · unfold lmx2594.update_divider
    rcases hd with h | h
    · rw [_set_divider_of_invalid dev v h, and_then_of_raised]
      exact fun _ => left_untouched_raised dev _
    · rw [_set_divider_of_valid dev v h, and_then_of_returned]
      intro he
      exact absurd he (_update_registers_not_invalid_argument tr _ _)
  · unfold lmx2594.set_phase_detector_delay
    rcases _set_phase_detector_delay_cases dev f with h | h
    · rw [h, and_then_of_raised]
      exact fun _ => left_untouched_raised dev _
    · rw [and_then_of_error_none _ _ h]
      intro he
      cases he
  · unfold lmx2594.update_phase_detector_delay
    rcases _set_phase_detector_delay_cases dev f with h | h
    · rw [h, and_then_of_raised]
      exact fun _ => left_untouched_raised dev _
    · rw [and_then_of_error_none _ _ h]
      intro he
      exact absurd he (_update_registers_not_invalid_argument tr _ _)

theorem invalid_argument_leaves_device_untouched_witness :
    left_untouched lmx2594.new
        (lmx2594.update_pre_divider ⟨fun _ _ _ => true, fun _ _ => none⟩ lmx2594.new 129) ∧
      left_untouched lmx2594.new (lmx2594.new.set_phase_detector_delay 7449999999) :=
  ⟨(invalid_argument_leaves_device_untouched ⟨fun _ _ _ => true, fun _ _ => none⟩ lmx2594.new
      129 7449999999).2.1 (by decide),
    (invalid_argument_leaves_device_untouched ⟨fun _ _ _ => true, fun _ _ => none⟩ lmx2594.new
      129 7449999999).2.2.2.2.1 (by decide)⟩

/-! ## Unvalidated and composite parameters -/

/-- C7: on the freshly constructed device, whose OUTA_PWR is 31 and OUTB_PWR is 0,
`set_output_power` with power 64 for output A stores 0 in OUTA_PWR and with power -1 for
output B stores 63 in OUTB_PWR: the register map is modified and the value is reduced modulo
64; the setter has no failure outcome at all. -/
theorem set_output_power_out_of_range_is_reduced :
    read_field lmx2594.new._registers_map reg_R44.OUTA_PWR = 31 ∧
      read_field (lmx2594.new.set_output_power ⟨lmx2594_output.outa, 64⟩)._registers_map
          reg_R44.OUTA_PWR = 0 ∧
      (lmx2594.new.set_output_power ⟨lmx2594_output.outa, 64⟩)._registers_map 44 ≠
          lmx2594.new._registers_map 44 ∧
      read_field lmx2594.new._registers_map reg_R45.OUTB_PWR = 0 ∧
      read_field (lmx2594.new.set_output_power ⟨lmx2594_output.outb, -1⟩)._registers_map
          reg_R45.OUTB_PWR = 63 ∧
      (lmx2594.new.set_output_power ⟨lmx2594_output.outb, -1⟩)._registers_map 45 ≠
          lmx2594.new._registers_map 45 := by
  decide

/-- C8: `set_n_divider(256)` on the freshly constructed device leaves PLL_N_15_0 = 256 and
PLL_N_18_16 = 1, although bits 16..18 of 256 are zero: the field receives bits 8..10 of the
value, and PLL_N_18_16 * 65536 + PLL_N_15_0 is 65792, not 256. -/
theorem set_n_divider_256_misplaces_high_bits :
    read_field (lmx2594.new.set_n_divider 256)._registers_map reg_R36.PLL_N_15_0 = 256 ∧
      read_field (lmx2594.new.set_n_divider 256)._registers_map reg_R34.PLL_N_18_16 = 1 ∧
      (256 >>> 16) % 8 = 0 ∧
      read_field (lmx2594.new.set_n_divider 256)._registers_map reg_R34.PLL_N_18_16 * 65536 +
          read_field (lmx2594.new.set_n_divider 256)._registers_map reg_R36.PLL_N_15_0 =
        65792 := by
  decide

/-- C9: `set_fractional_numerator(256)` on the freshly constructed device leaves R43
(PLL_NUM_15_0) = 256 and R42 (PLL_NUM_31_16) = 1, and `set_fractional_denomerator(256)`
leaves R39 (PLL_DEN_15_0) = 256 and R38 (PLL_DEN_31_16) = 1, although bits 31..16 of 256 are
zero: the high register receives the value shifted right by 8, and high * 65536 + low is
65792, not 256. -/
theorem set_fractional_256_misplaces_high_bits :
    (lmx2594.new.set_fractional_numerator 256)._registers_map 43 = 256 ∧
      (lmx2594.new.set_fractional_numerator 256)._registers_map 42 = 1 ∧
      (lmx2594.new.set_fractional_denomerator 256)._registers_map 39 = 256 ∧
      (lmx2594.new.set_fractional_denomerator 256)._registers_map 38 = 1 ∧
      (256 >>> 16) % 65536 = 0 ∧
      (lmx2594.new.set_fractional_numerator 256)._registers_map 42 * 65536 +
          (lmx2594.new.set_fractional_numerator 256)._registers_map 43 = 65792 := by
  decide

/-! ## Channel divider -/

theorem assign_changed_of_ne (u : registers_update) (a : Int) (b : Bool) (h : a ≠ 113) :
    u.assign_changed a b = { u with _changed := Function.update u._changed a b } := by
  unfold registers_update.assign_changed
  rw [if_neg (show ¬a = register_max_num from h)]

theorem set_changed_cons_of_valid (u : registers_update) (a : Int) (l : List Int)
    (h : registers_update.is_valid a = true) :
    registers_update.set_changed u (a :: l) =
      registers_update.set_changed
        ((u.assign_changed a true).assign_count ((u.assign_changed a true)._count + 1)) l := by
  simp [registers_update.set_changed, h]

/-- One step of `set_changed` at an index of the bitmap proper: the flag of `a` is set, the
count goes up by one and entry 113 follows the low byte of the new count. -/
theorem set_changed_step (u : registers_update) (a : Int) (h : a ≠ 113) :
    (u.assign_changed a true).assign_count ((u.assign_changed a true)._count + 1) =
      { _changed :=
          Function.update (Function.update u._changed a true) 113
            (decide ((u._count + 1) % 256 ≠ 0)),
        _count := u._count + 1 } := by
  rw [assign_changed_of_ne u a true h]
  rfl

/-- After `set_changed` on addresses of the bitmap proper (0 .. 112) the flag of an address
other than 113 is set when it was set before or the address is in the list. -/
theorem set_changed_flags_of_ne (l : List Int)
    (hall : ∀ b ∈ l, registers_update.is_valid b = true ∧ b ≠ 113) :
    ∀ (u : registers_update) (n : Int), n ≠ 113 →
      (registers_update.set_changed u l).2._changed n = (u._changed n || decide (n ∈ l)) := by
  induction l with
  | nil => intro u n _; simp [registers_update.set_changed]
  | cons a rest ih =>
    intro u n hn
    have ha := hall a (List.mem_cons_self a rest)
    rw [set_changed_cons_of_valid u a rest ha.1, set_changed_step u a ha.2,
      ih (fun b hb => hall b (List.mem_cons_of_mem a hb)) _ n hn]
    dsimp only
    rw [Function.update_noteq hn]
    by_cases hna : n = a
    · subst hna
      simp
    · simp [Function.update_noteq hna, hna]

theorem is_changed_at_set_changed_of_mem (u : registers_update) (l : List Int) (a : Int)
    (hall : ∀ b ∈ l, registers_update.is_valid b = true ∧ b ≠ 113) (ha : a ∈ l) :
    registers_update.is_changed_at (registers_update.set_changed u l).2 a = true := by
  unfold registers_update.is_changed_at
  rw [(hall a ha).1, set_changed_flags_of_ne l hall u a (hall a ha).2]
  simp [ha]

theorem is_changed_at_set_changed_pair (u : registers_update) (a b : Int)
    (ha : registers_update.is_valid a = true ∧ a ≠ 113)
    (hb : registers_update.is_valid b = true ∧ b ≠ 113) :
    registers_update.is_changed_at (registers_update.set_changed u [a, b]).2 a = true ∧
      registers_update.is_changed_at (registers_update.set_changed u [a, b]).2 b = true := by
  have hall : ∀ c ∈ [a, b], registers_update.is_valid c = true ∧ c ≠ 113 := by
    intro c hc
    rcases List.mem_cons.1 hc with h | h
    · exact h ▸ ha
    · rw [List.mem_singleton.1 h]
      exact hb
  exact ⟨is_changed_at_set_changed_of_mem u _ a hall (List.mem_cons_self _ _),
    is_changed_at_set_changed_of_mem u _ b hall
      (List.mem_cons_of_mem _ (List.mem_singleton.2 rfl))⟩

/-- C10: after `set_channel_divider(v)` the CHDIV field of R75 equals v and the SEG1_EN bit
of R31 is 'driver buffer enabled' exactly when v is greater than div2 (it is cleared for
div2); no other bit of R75 or R31 and no other register changes, and both R75 and R31 are
marked dirty. -/
theorem set_channel_divider_spec (dev : lmx2594) (v : CHDIV_type) :
    read_field (dev.set_channel_divider v)._registers_map reg_R75.CHDIV = v.val ∧
      (read_field (dev.set_channel_divider v)._registers_map reg_R31.SEG1_EN =
          SEG1_EN_type.driver_buffer_enabled.val ↔ v.val > CHDIV_type.div2.val) ∧
      (v = CHDIV_type.div2 →
        read_field (dev.set_channel_divider v)._registers_map reg_R31.SEG1_EN =
          SEG1_EN_type.disabled.val) ∧
      (∀ r, r ≠ 75 → r ≠ 31 →
        (dev.set_channel_divider v)._registers_map r = dev._registers_map r) ∧
      (∀ i, ¬(6 ≤ i ∧ i < 11) →
        ((dev.set_channel_divider v)._registers_map 75).testBit i =
          (dev._registers_map 75).testBit i) ∧
      (∀ i, i ≠ 14 →
        ((dev.set_channel_divider v)._registers_map 31).testBit i =
          (dev._registers_map 31).testBit i) ∧
      (dev.set_channel_divider v)._registers_update.is_changed_at 75 = true ∧
      (dev.set_channel_divider v)._registers_update.is_changed_at 31 = true := by
  have hv : v.val < 2 ^ reg_R75.CHDIV.width := by cases v <;> decide
  have hrd : read_field (write_field dev._registers_map reg_R75.CHDIV v.val) reg_R75.CHDIV =
      v.val := read_write_field_of_lt _ _ _ hv
  have hmap : ∃ b : Nat, b < 2 ∧ (b = 1 ↔ v.val > CHDIV_type.div2.val) ∧
      (dev.set_channel_divider v)._registers_map =
        write_field (write_field dev._registers_map reg_R75.CHDIV v.val) reg_R31.SEG1_EN b := by
    unfold lmx2594.set_channel_divider lmx2594._set_channel_divider
    simp only [mark_changed_registers_map, hrd]
    by_cases h : v.val > CHDIV_type.div2.val
    · exact ⟨1, by decide, by simp [h], by simp [h, SEG1_EN_type.val]⟩
    · exact ⟨0, by decide, by simp [h], by simp [h, SEG1_EN_type.val]⟩
  obtain ⟨b, hb2, hb, hm⟩ := hmap
  have hdirty := is_changed_at_set_changed_pair (dev._set_channel_divider v)._registers_update
    75 31 (by decide) (by decide)
  have hseg : read_field (dev.set_channel_divider v)._registers_map reg_R31.SEG1_EN = b := by
    rw [hm]
    exact read_write_field_of_lt _ _ _ hb2
  refine ⟨?_, ?_, ?_, ?_, ?_, ?_, hdirty.1, hdirty.2⟩
  · rw [hm, read_field_write_field_other _ _ _ _ (by decide)]
    exact hrd
  · rw [hseg]
    exact hb
  · rintro rfl
    rw [hseg]
    have h0 : ¬b = 1 := fun h1 => absurd (hb.mp h1) (by decide)
    show b = 0
    omega
  · intro r h75 h31
    rw [hm, write_field_other _ _ _ _ h31, write_field_other _ _ _ _ h75]
  · intro i hi
    rw [hm, write_field_other _ _ _ 75 (by decide)]
    exact (only_field_changed_write_field dev._registers_map reg_R75.CHDIV v.val).2 i hi
  · intro i hi
    rw [hm]
    have h1 := (only_field_changed_write_field
      (write_field dev._registers_map reg_R75.CHDIV v.val) reg_R31.SEG1_EN b).2 i
      (by show ¬(14 ≤ i ∧ i < 14 + 1); omega)
    exact h1.trans (congrArg (fun w => Nat.testBit w i)
      (write_field_other dev._registers_map reg_R75.CHDIV v.val 31 (by decide)))

theorem set_channel_divider_spec_witness :
    (lmx2594.new.set_channel_divider CHDIV_type.div8)._registers_map 44 =
        lmx2594.new._registers_map 44 ∧
      ((lmx2594.new.set_channel_divider CHDIV_type.div8)._registers_map 75).testBit 11 =
        (lmx2594.new._registers_map 75).testBit 11 :=
  ⟨(set_channel_divider_spec lmx2594.new CHDIV_type.div8).2.2.2.1 44 (by decide) (by decide),
    (set_channel_divider_spec lmx2594.new CHDIV_type.div8).2.2.2.2.1 11 (by decide)⟩

/-! ## Change set -/

/-- C15 fails at address 113: on a fresh change set `set_changed(113, 5)` returns true and
marks address 5, although 113 is not an address of the register range `[0, register_max_num)`
and is the first address of the list; and `set_changed(5)` alone leaves `is_changed(113)` true,
the flag of an address that is not in the list. -/
theorem set_changed_continues_past_register_max_num :
    ¬((113 : Int) < register_max_num) ∧
      (registers_update.set_changed registers_update.new [113, 5]).1 = true ∧
      (registers_update.set_changed registers_update.new [113, 5]).2.is_changed_at 5 = true ∧
      registers_update.new.is_changed_at 113 = false ∧
      (registers_update.set_changed registers_update.new [5]).2.is_changed_at 113 = true := by
  decide

/-- C11: starting from a freshly constructed change set, `set_changed(5); set_changed(5)`
leaves one dirty flag and the count 2, and `set_changed(5); clear_changed(6)` leaves the flag
of address 5 set with the count 0, so that `is_changed()` is false while address 5 is dirty:
the count is not the number of dirty flags. -/
theorem count_differs_from_dirty_flags :
    (registers_update.set_changed
          (registers_update.set_changed registers_update.new [5]).2 [5]).2._count = 2 ∧
      (registers_update.set_changed
          (registers_update.set_changed registers_update.new [5]).2 [5]).2.dirty_count = 1 ∧
      (registers_update.clear_changed
          (registers_update.set_changed registers_update.new [5]).2 6).2._count = 0 ∧
      (registers_update.clear_changed
          (registers_update.set_changed registers_update.new [5]).2 6).2.dirty_count = 1 ∧
      (registers_update.clear_changed
          (registers_update.set_changed registers_update.new [5]).2 6).2.is_changed = false ∧
      (registers_update.clear_changed
          (registers_update.set_changed registers_update.new [5]).2 6).2.is_changed_at 5 =
        true := by
  decide

/-- C12: on the change set left by `set_changed(5)` on a fresh one (address 5 dirty, count 1)
a second `set_changed(5)` keeps the flag of address 5 set and raises the count to 2. -/
theorem set_changed_twice_counts_twice :
    (registers_update.set_changed registers_update.new [5]).2.is_changed_at 5 = true ∧
      (registers_update.set_changed registers_update.new [5]).2._count = 1 ∧
      (registers_update.set_changed
          (registers_update.set_changed registers_update.new [5]).2 [5]).2.is_changed_at 5 =
        true ∧
      (registers_update.set_changed
          (registers_update.set_changed registers_update.new [5]).2 [5]).2._count = 2 := by
  decide

/-- C13: on the change set left by `set_changed(5)` on a fresh one, address 6 is valid and not
dirty, yet `clear_changed(6)` returns true and lowers the count from 1 to 0, while address 5
stays dirty. -/
theorem clear_changed_of_clean_address_succeeds :
    registers_update.is_valid 6 = true ∧
      (registers_update.set_changed registers_update.new [5]).2.is_changed_at 6 = false ∧
      (registers_update.set_changed registers_update.new [5]).2._count = 1 ∧
      (registers_update.clear_changed
          (registers_update.set_changed registers_update.new [5]).2 6).1 = true ∧
      (registers_update.clear_changed
          (registers_update.set_changed registers_update.new [5]).2 6).2._count = 0 ∧
      (registers_update.clear_changed
          (registers_update.set_changed registers_update.new [5]).2 6).2.is_changed_at 5 =
        true := by
  decide

/-- C14: `is_valid(113)` is true although 113 is not below `register_max_num` = 113, and
`set_changed(113)` on a fresh change set returns true and sets the flag at index 113, one past
the last of the 113 entries of the bitmap. -/
theorem is_valid_accepts_register_max_num :
    register_max_num = 113 ∧
      registers_update.is_valid register_max_num = true ∧
      registers_update.is_valid 113 = true ∧
      (registers_update.set_changed registers_update.new [113]).1 = true ∧
      (registers_update.set_changed registers_update.new [113]).2._changed 113 = true ∧
      (registers_update.set_changed registers_update.new [113]).2.is_changed_at 113 = true ∧
      (registers_update.clear_changed
          (registers_update.set_changed registers_update.new [113]).2 113).1 = true := by
  decide

theorem is_valid_iff (n : Int) :
    registers_update.is_valid n = true ↔ 0 ≤ n ∧ n ≤ 113 := by
  unfold registers_update.is_valid register_max_num
  split_ifs with h <;> simp <;> omega

/-! ## Construction -/

/-- C16: immediately after construction every register r below `register_max_num` holds the
word of the power-on image built from the declared default field values, fields packed from
bit 0 upwards (R0 = 0x2410, R36 = 100, R44 = 0x1FA0; the whole image is listed, and the
declared defaults read back through the field layout), `is_changed()` is false and
`is_changed(r)` is false for every r. -/
theorem new_holds_default_image :
    (∀ r : Nat, (r : Int) < register_max_num →
        lmx2594.new._registers_map r = pack (registers_map_defaults_bits.getD r [])) ∧
      (List.range 113).map lmx2594.new._registers_map =
        [
          0x2410, 0x080B, 0x0500, 0x0642, 0x0A43, 0x00C8, 0xC802, 0x00B2,
          0x2000, 0x0604, 0x10D8, 0x0018, 0x5001, 0x4000, 0x1E70, 0x064F,
          0x0080, 0x00FA, 0x0064, 0x27B7, 0xF848, 0x0401, 0x0001, 0x007C,
          0x071A, 0x0C2B, 0x0DB0, 0x0002, 0x0488, 0x318C, 0x318C, 0x03EC,
          0x0393, 0x1E21, 0x0000, 0x0004, 0x0064, 0x0204, 0x0000, 0x0000,
          0x0000, 0x0000, 0x0000, 0x0000, 0x1FA0, 0xC8C0, 0x07FD, 0x0300,
          0x0300, 0x4180, 0x0000, 0x0080, 0x0820, 0x0000, 0x0000, 0x0000,
          0x0000, 0x0020, 0x8001, 0x0001, 0x0000, 0x00A8, 0x0322, 0x0000,
          0x1388, 0x0000, 0x01F4, 0x0000, 0x03E8, 0x0000, 0x0000, 0x0081,
          0x0000, 0x003F, 0x0000, 0x0800, 0x000C, 0x0000, 0x0001, 0x0000,
          0x0000, 0x0000, 0x0000, 0x0000, 0x0000, 0x0000, 0x0000, 0x0000,
          0x0000, 0x0000, 0x0000, 0x0000, 0x0000, 0x0000, 0x0000, 0x0000,
          0x0000, 0x0800, 0x0000, 0x0000, 0x0000, 0x0000, 0x0000, 0x0000,
          0x0000, 0x0000, 0x0000, 0x0000, 0x0000, 0x0000, 0x0000, 0x0000,
          0x0000] ∧
      lmx2594.new._registers_map 0 = 0x2410 ∧
      lmx2594.new._registers_map 36 = 100 ∧
      lmx2594.new._registers_map 44 = 0x1FA0 ∧
      read_field lmx2594.new._registers_map reg_R0.POWERDOWN = POWERDOWN_type.normal.val ∧
      read_field lmx2594.new._registers_map reg_R0.RESET = RESET_type.normal.val ∧
      read_field lmx2594.new._registers_map reg_R0.MUXOUT_LD_SEL =
        MUXOUT_LD_SEL_type.readback.val ∧
      read_field lmx2594.new._registers_map reg_R0.FCAL_EN = FCAL_EN_type.disabled.val ∧
      read_field lmx2594.new._registers_map reg_R1.CAL_CLK_DIV = CAL_CLK_DIV_type.div8.val ∧
      read_field lmx2594.new._registers_map reg_R9.OSC_2X = OSC_2X_type.disabled.val ∧
      read_field lmx2594.new._registers_map reg_R10.MULT = MULT_type.bypass.val ∧
      read_field lmx2594.new._registers_map reg_R11.PLL_R = 1 ∧
      read_field lmx2594.new._registers_map reg_R12.PLL_R_PRE = 1 ∧
      read_field lmx2594.new._registers_map reg_R14.CPG = CPG_type.current_15_mA.val ∧
      read_field lmx2594.new._registers_map reg_R31.SEG1_EN = SEG1_EN_type.disabled.val ∧
      read_field lmx2594.new._registers_map reg_R34.PLL_N_18_16 = 0 ∧
      read_field lmx2594.new._registers_map reg_R36.PLL_N_15_0 = 100 ∧
      read_field lmx2594.new._registers_map reg_R37.PFD_DLY_SEL = 2 ∧
      read_field lmx2594.new._registers_map reg_R38.PLL_DEN_31_16 = 0 ∧
      read_field lmx2594.new._registers_map reg_R39.PLL_DEN_15_0 = 0 ∧
      read_field lmx2594.new._registers_map reg_R42.PLL_NUM_31_16 = 0 ∧
      read_field lmx2594.new._registers_map reg_R43.PLL_NUM_15_0 = 0 ∧
      read_field lmx2594.new._registers_map reg_R44.MASH_ORDER = MASH_ORDER_type.integer.val ∧
      read_field lmx2594.new._registers_map reg_R44.OUTA_PD = OUT_PD_type.active.val ∧
      read_field lmx2594.new._registers_map reg_R44.OUTB_PD = OUT_PD_type.powerdown.val ∧
      read_field lmx2594.new._registers_map reg_R44.OUTA_PWR = 31 ∧
      read_field lmx2594.new._registers_map reg_R45.OUTB_PWR = 0 ∧
      read_field lmx2594.new._registers_map reg_R45.OUTA_MUX = OUTA_MUX_type.vco.val ∧
      read_field lmx2594.new._registers_map reg_R46.OUTB_MUX = OUTB_MUX_type.vco.val ∧
      read_field lmx2594.new._registers_map reg_R59.LD_TYPE =
        LD_TYPE_type.vco_vtune_status.val ∧
      read_field lmx2594.new._registers_map reg_R75.CHDIV = CHDIV_type.div2.val ∧
      lmx2594.new._registers_update.is_changed = false ∧
      ∀ r : Int, lmx2594.new._registers_update.is_changed_at r = false := by
  refine ⟨fun r _ => rfl, ?_⟩
  repeat refine ⟨by decide, ?_⟩
  intro r
  unfold registers_update.is_changed_at
  split_ifs <;> rfl

theorem new_holds_default_image_witness :
    lmx2594.new._registers_map 72 = pack (registers_map_defaults_bits.getD 72 []) :=
  new_holds_default_image.1 72 (by decide)

/-! ## Stage and apply -/

theorem set_parameter_eq (dev : lmx2594) (p : parameter) :
    dev.set_parameter p =
      (dev._set_parameter p).and_then fun d =>
        ⟨d.mark_changed (p.registers.map Int.ofNat), none⟩ := by
  cases p <;> rfl

theorem update_parameter_eq (tr : transport) (dev : lmx2594) (p : parameter) :
    dev.update_parameter tr p =
      (dev._set_parameter p).and_then fun d => lmx2594._update_registers tr d p.registers := by
  cases p <;> rfl

theorem registers_valid (p : parameter) :
    ∀ a ∈ p.registers.map Int.ofNat, registers_update.is_valid a = true ∧ a ≠ 113 := by
  cases p <;> simp only [parameter.registers] <;> decide

theorem registers_nodup (p : parameter) : p.registers.Nodup := by
  cases p <;> simp only [parameter.registers] <;> decide

theorem _set_parameter_bus (dev : lmx2594) (p : parameter) :
    (dev._set_parameter p).dev.bus = dev.bus := by
  cases p <;>
    simp only [lmx2594._set_parameter, lmx2594._set_output_enabled, lmx2594._set_output_power,
      lmx2594._set_output_mux_a, lmx2594._set_output_mux_b, lmx2594._set_channel_divider,
      lmx2594._set_charge_pump_gain, lmx2594._set_doubler, lmx2594._set_pre_divider,
      lmx2594._set_multiplier, lmx2594._set_divider, lmx2594._set_n_divider,
      lmx2594._set_fractional_numerator, lmx2594._set_fractional_denomerator,
      lmx2594._set_lock_detect, lmx2594._set_lock_detect_mux,
      lmx2594._set_phase_detector_delay, lmx2594.assign_PFD_DLY_SEL,
      lmx2594._set_vco_calibration_divider, lmx2594._set_mash_order] <;>
    (try split_ifs) <;> rfl

theorem _set_parameter_registers_update (dev : lmx2594) (p : parameter) :
    (dev._set_parameter p).dev._registers_update = dev._registers_update := by
  cases p <;>
    simp only [lmx2594._set_parameter, lmx2594._set_output_enabled, lmx2594._set_output_power,
      lmx2594._set_output_mux_a, lmx2594._set_output_mux_b, lmx2594._set_channel_divider,
      lmx2594._set_charge_pump_gain, lmx2594._set_doubler, lmx2594._set_pre_divider,
      lmx2594._set_multiplier, lmx2594._set_divider, lmx2594._set_n_divider,
      lmx2594._set_fractional_numerator, lmx2594._set_fractional_denomerator,
      lmx2594._set_lock_detect, lmx2594._set_lock_detect_mux,
      lmx2594._set_phase_detector_delay, lmx2594.assign_PFD_DLY_SEL,
      lmx2594._set_vco_calibration_divider, lmx2594._set_mash_order] <;>
    (try split_ifs) <;> rfl

theorem _set_parameter_registers_map (dev : lmx2594) (p : parameter) (a : Nat)
    (ha : a ∉ p.registers) :
    (dev._set_parameter p).dev._registers_map a = dev._registers_map a := by
  cases p <;>
    simp only [parameter.registers, List.mem_cons, List.mem_singleton, List.not_mem_nil,
      or_false, not_or] at ha <;>
    simp only [lmx2594._set_parameter, lmx2594._set_output_enabled, lmx2594._set_output_power,
      lmx2594._set_output_mux_a, lmx2594._set_output_mux_b, lmx2594._set_channel_divider,
      lmx2594._set_charge_pump_gain, lmx2594._set_doubler, lmx2594._set_pre_divider,
      lmx2594._set_multiplier, lmx2594._set_divider, lmx2594._set_n_divider,
      lmx2594._set_fractional_numerator, lmx2594._set_fractional_denomerator,
      lmx2594._set_lock_detect, lmx2594._set_lock_detect_mux,
      lmx2594._set_phase_detector_delay, lmx2594.assign_PFD_DLY_SEL,
      lmx2594._set_vco_calibration_divider, lmx2594._set_mash_order] <;>
    (try split_ifs) <;>
    simp [write_field, Function.update_apply, ha, reg_R0.MUXOUT_LD_SEL, reg_R1.CAL_CLK_DIV,
      reg_R9.OSC_2X, reg_R10.MULT, reg_R11.PLL_R, reg_R12.PLL_R_PRE, reg_R14.CPG,
      reg_R31.SEG1_EN, reg_R34.PLL_N_18_16, reg_R36.PLL_N_15_0, reg_R37.PFD_DLY_SEL,
      reg_R38.PLL_DEN_31_16, reg_R39.PLL_DEN_15_0, reg_R42.PLL_NUM_31_16,
      reg_R43.PLL_NUM_15_0, reg_R44.MASH_ORDER, reg_R44.OUTA_PD, reg_R44.OUTB_PD,
      reg_R44.OUTA_PWR, reg_R45.OUTB_PWR, reg_R45.OUTA_MUX, reg_R46.OUTB_MUX,
      reg_R59.LD_TYPE, reg_R75.CHDIV]

theorem _update_registers_of_succeeding (tr : transport)
    (hok : ∀ log a w, tr.write log a w = true) (l : List Nat) :
    ∀ dev : lmx2594,
      lmx2594._update_registers tr dev l =
        ⟨{ dev with bus := dev.bus ++ l.map fun r => (r, dev._registers_map r) }, none⟩ := by
  induction l with
  | nil => intro dev; simp [lmx2594._update_registers]
  | cons a rest ih =>
    intro dev
    simp [lmx2594._update_registers, lmx2594.write, hok, result.and_then, ih]

theorem and_then_error_none (r : result) (k : lmx2594 → result)
    (h : (r.and_then k).error = none) : r.error = none := by
  unfold result.and_then at h
  cases hr : r.error with
  | none => rfl
  | some e => rw [hr] at h; cases h

theorem _set_parameter_error_of_set (dev : lmx2594) (p : parameter)
    (h : (dev.set_parameter p).error = none) : (dev._set_parameter p).error = none := by
  rw [set_parameter_eq] at h
  exact and_then_error_none _ _ h

/-- C17: for every parameter P and value v, `set_P(v)` issues no transport call (the bus log
is as before, whether or not the call succeeds), and when it succeeds every register of P, and
every register whose word it changed, is reported dirty by `is_changed(r)`. -/
theorem set_parameter_stages_without_transport (dev : lmx2594) (p : parameter) :
    (dev.set_parameter p).dev.bus = dev.bus ∧
      ((dev.set_parameter p).error = none →
        ∀ r ∈ p.registers,
          (dev.set_parameter p).dev._registers_update.is_changed_at (r : Int) = true) ∧
      ((dev.set_parameter p).error = none →
        ∀ r : Nat, (dev.set_parameter p).dev._registers_map r ≠ dev._registers_map r →
          (dev.set_parameter p).dev._registers_update.is_changed_at (r : Int) = true) := by
  have hdirty : (dev.set_parameter p).error = none →
      ∀ r ∈ p.registers,
        (dev.set_parameter p).dev._registers_update.is_changed_at (r : Int) = true := by
    intro h r hr
    have h1 := _set_parameter_error_of_set dev p h
    rw [set_parameter_eq, and_then_of_error_none _ _ h1]
    exact is_changed_at_set_changed_of_mem _ _ _ (registers_valid p)
      (List.mem_map_of_mem Int.ofNat hr)
  refine ⟨?_, hdirty, fun h r hr => ?_⟩
  · rw [set_parameter_eq]
    cases he : (dev._set_parameter p).error with
    | none =>
      rw [and_then_of_error_none _ _ he]
      exact _set_parameter_bus dev p
    | some e =>
      unfold result.and_then
      rw [he]
      exact _set_parameter_bus dev p
  · refine hdirty h r ?_
    by_contra hmem
    apply hr
    have h1 := _set_parameter_error_of_set dev p h
    rw [set_parameter_eq, and_then_of_error_none _ _ h1]
    exact _set_parameter_registers_map dev p r hmem

theorem set_parameter_stages_without_transport_witness :
    (lmx2594.new.set_parameter (parameter.n_divider 100)).dev._registers_update.is_changed_at
        34 = true :=
  (set_parameter_stages_without_transport lmx2594.new (parameter.n_divider 100)).2.1 rfl 34
    (by decide)

/-- C18 fails as stated: with R12 staged dirty by `set_pre_divider(5)` on the fresh device,
`update_pre_divider(5)` on a succeeding transport returns normally, writes R12 once, and
`is_changed(12)` is still true afterwards. -/
theorem update_pre_divider_leaves_register_dirty :
    (lmx2594.new.set_pre_divider 5).error = none ∧
      (lmx2594.new.set_pre_divider 5).dev._registers_update.is_changed_at 12 = true ∧
      (lmx2594.update_pre_divider transport.succeeding
          (lmx2594.new.set_pre_divider 5).dev 5).error = none ∧
      (lmx2594.update_pre_divider transport.succeeding
          (lmx2594.new.set_pre_divider 5).dev 5).dev.bus = [(12, 0x5005)] ∧
      (lmx2594.update_pre_divider transport.succeeding
          (lmx2594.new.set_pre_divider 5).dev 5).dev._registers_update.is_changed_at 12 =
        true := by
  decide

/-- C18 as amended: for every parameter P, every value v that `set_P` accepts and every prior
state, `update_P(v)` on a succeeding transport returns normally, changes the register map
exactly as `set_P(v)` does, issues exactly one write per register of P (each register once, in
the order of the source) carrying that register's word after the change, issues no other
write, and leaves the change set exactly as it was: `is_changed(r)` afterwards is what it was
before the call. -/
theorem update_parameter_writes_its_registers (tr : transport)
    (hok : ∀ log a w, tr.write log a w = true) (dev : lmx2594) (p : parameter)
    (hvalid : (dev.set_parameter p).error = none) :
    (dev.update_parameter tr p).error = none ∧
      (dev.update_parameter tr p).dev._registers_map =
        (dev.set_parameter p).dev._registers_map ∧
      (dev.update_parameter tr p).dev.bus =
        dev.bus ++
          p.registers.map (fun r => (r, (dev.update_parameter tr p).dev._registers_map r)) ∧
      p.registers.Nodup ∧
      (dev.update_parameter tr p).dev._registers_update = dev._registers_update ∧
      ∀ r : Int,
        (dev.update_parameter tr p).dev._registers_update.is_changed_at r =
          dev._registers_update.is_changed_at r := by
  have h1 := _set_parameter_error_of_set dev p hvalid
  have hu : dev.update_parameter tr p =
      ⟨{ (dev._set_parameter p).dev with
          bus := (dev._set_parameter p).dev.bus ++
            p.registers.map fun r => (r, (dev._set_parameter p).dev._registers_map r) },
        none⟩ := by
    rw [update_parameter_eq, and_then_of_error_none _ _ h1,
      _update_registers_of_succeeding tr hok]
  have hs : (dev.set_parameter p).dev._registers_map =
      (dev._set_parameter p).dev._registers_map := by
    rw [set_parameter_eq, and_then_of_error_none _ _ h1]
    rfl
  rw [hu, hs]
  refine ⟨rfl, rfl, ?_, registers_nodup p, _set_parameter_registers_update dev p, fun r => ?_⟩
  · show (dev._set_parameter p).dev.bus ++ _ = dev.bus ++ _
    rw [_set_parameter_bus]
  · show (dev._set_parameter p).dev._registers_update.is_changed_at r = _
    rw [_set_parameter_registers_update]

theorem update_parameter_writes_its_registers_witness :
    (lmx2594.new.update_parameter transport.succeeding
        (parameter.channel_divider CHDIV_type.div8)).dev.bus =
      [] ++
        (parameter.channel_divider CHDIV_type.div8).registers.map fun r =>
          (r, (lmx2594.new.update_parameter transport.succeeding
            (parameter.channel_divider CHDIV_type.div8)).dev._registers_map r) :=
  (update_parameter_writes_its_registers transport.succeeding (fun _ _ _ => rfl) lmx2594.new
    (parameter.channel_divider CHDIV_type.div8) rfl).2.2.1

/-! ## Flush of the staged changes -/

theorem update_changes_loop_writes (tr : transport) (n : Nat) :
    ∀ dev : lmx2594,
      ∃ extra : List (Nat × Nat),
        (lmx2594.update_changes_loop tr n dev).dev.bus = dev.bus ++ extra ∧
          ∀ x ∈ extra, 1 ≤ x.1 ∧ x.1 ≤ n := by
  induction n with
  | zero => intro dev; exact ⟨[], by simp [lmx2594.update_changes_loop], by simp⟩
  | succ k ih =>
    intro dev
    unfold lmx2594.update_changes_loop
    split_ifs with hc
    · by_cases hw : tr.write dev.bus (k + 1) (dev.array (k + 1)) = true
      · simp only [lmx2594.write, hw, if_true, result.and_then]
        obtain ⟨extra, he, hx⟩ := ih (lmx2594.mark_cleared
          { dev with bus := dev.bus ++ [(k + 1, dev.array (k + 1))] } ((k + 1 : Nat) : Int))
        refine ⟨(k + 1, dev.array (k + 1)) :: extra, ?_, ?_⟩
        · rw [he]
          simp [lmx2594.mark_cleared]
        · intro x hxm
          rcases List.mem_cons.mp hxm with rfl | h
          · exact ⟨by simp, le_refl _⟩
          · exact ⟨(hx x h).1, Nat.le_succ_of_le (hx x h).2⟩
      · simp only [lmx2594.write, hw, result.and_then]
        exact ⟨[(k + 1, dev.array (k + 1))], rfl, by simp⟩
    · obtain ⟨extra, he, hx⟩ := ih dev
      exact ⟨extra, he, fun x h => ⟨(hx x h).1, Nat.le_succ_of_le (hx x h).2⟩⟩

theorem update_changes_never_writes_register_0 (tr : transport) (dev : lmx2594) :
    ∃ extra : List (Nat × Nat),
      (lmx2594.update_changes tr dev).dev.bus = dev.bus ++ extra ∧ ∀ x ∈ extra, x.1 ≠ 0 := by
  obtain ⟨extra, he, hx⟩ := update_changes_loop_writes tr register_max_num.toNat dev
  exact ⟨extra, he, fun x h => by have := (hx x h).1; omega⟩

/-- C19: with register 0 staged dirty by `set_lock_detect_mux` on the fresh device (its word
is then 0x2414), `update_changes()` on a succeeding transport returns normally, issues a
single write, to address 113 with the word 1 read past the end of the register array, issues
no write to address 0, and register 0 is still dirty afterwards: the flush loop runs from
`register_max_num` down to 1 and never reaches register 0. -/
theorem update_changes_skips_register_0 :
    (lmx2594.new.set_lock_detect_mux MUXOUT_LD_SEL_type.lock_detect)._registers_update.is_changed_at
        0 = true ∧
      (lmx2594.new.set_lock_detect_mux MUXOUT_LD_SEL_type.lock_detect)._registers_map 0 =
        0x2414 ∧
      (lmx2594.update_changes transport.succeeding
          (lmx2594.new.set_lock_detect_mux MUXOUT_LD_SEL_type.lock_detect)).error = none ∧
      (lmx2594.update_changes transport.succeeding
          (lmx2594.new.set_lock_detect_mux MUXOUT_LD_SEL_type.lock_detect)).dev.bus =
        [(113, 1)] ∧
      (lmx2594.update_changes transport.succeeding
          (lmx2594.new.set_lock_detect_mux MUXOUT_LD_SEL_type.lock_detect)).dev.bus.all
        (fun x => decide (x.1 ≠ 0)) = true ∧
      (lmx2594.update_changes transport.succeeding
          (lmx2594.new.set_lock_detect_mux
            MUXOUT_LD_SEL_type.lock_detect)).dev._registers_update.is_changed_at 0 = true := by
  decide

/-- C20: after staging `set_lock_detect_mux` (register 0) on the fresh device,
`update_changes()` on a succeeding transport returns normally and the change set is not
all-clear: `is_changed(0)` is true before the flush and still true after it. -/
theorem update_changes_leaves_change_set_pending :
    (lmx2594.new.set_lock_detect_mux MUXOUT_LD_SEL_type.lock_detect)._registers_update.is_changed_at
        0 = true ∧
      (lmx2594.update_changes transport.succeeding
          (lmx2594.new.set_lock_detect_mux MUXOUT_LD_SEL_type.lock_detect)).error = none ∧
      (lmx2594.update_changes transport.succeeding
          (lmx2594.new.set_lock_detect_mux
            MUXOUT_LD_SEL_type.lock_detect)).dev._registers_update.is_changed_at 0 = true ∧
      ¬∀ r : Int,
        (lmx2594.update_changes transport.succeeding
          (lmx2594.new.set_lock_detect_mux
            MUXOUT_LD_SEL_type.lock_detect)).dev._registers_update.is_changed_at r = false := by
  refine ⟨by decide, by decide, by decide, fun h => ?_⟩
  exact absurd (h 0) (by decide)

/-! ## Phase-detector delay -/

theorem _set_phase_detector_delay_table (dev : lmx2594) (f : Nat)
    (hg : ¬(f < 7450000000 ∨ f > dev.get_vco_frequency_max))
    (hm : read_field dev._registers_map reg_R44.MASH_ORDER ≤ 4) :
    ∃ x : Nat, 1 ≤ x ∧ x ≤ 6 ∧
      dev._set_phase_detector_delay f = lmx2594.assign_PFD_DLY_SEL dev x ∧
      (read_field dev._registers_map reg_R44.MASH_ORDER = 0 →
        x = if f > 12500000000 then 2 else 1) ∧
      (read_field dev._registers_map reg_R44.MASH_ORDER = 1 →
        x = if f > 12500000000 then 3 else if f > 10000000000 then 2 else 1) ∧
      (read_field dev._registers_map reg_R44.MASH_ORDER = 2 →
        x = if f > 10000000000 then 3 else 2) ∧
      (read_field dev._registers_map reg_R44.MASH_ORDER = 3 →
        x = if f > 10000000000 then 4 else 3) ∧
      (read_field dev._registers_map reg_R44.MASH_ORDER = 4 →
        x = if f > 10000000000 then 6 else 5) := by
  unfold lmx2594._set_phase_detector_delay lmx2594_constants.vco_frequency.min
  rw [if_neg hg]
  simp only [MASH_ORDER_type.val]
  have h5 : read_field dev._registers_map reg_R44.MASH_ORDER = 0 ∨
      read_field dev._registers_map reg_R44.MASH_ORDER = 1 ∨
      read_field dev._registers_map reg_R44.MASH_ORDER = 2 ∨
      read_field dev._registers_map reg_R44.MASH_ORDER = 3 ∨
      read_field dev._registers_map reg_R44.MASH_ORDER = 4 := by omega
  rcases h5 with h | h | h | h | h <;> rw [h] <;> simp <;> split_ifs <;>
    exact ⟨_, by decide, by decide, rfl, rfl⟩

/-- C24: for a register state whose MASH_ORDER field holds one of the five orders and a VCO
frequency between 7.45 GHz and the current ceiling, `set_phase_detector_delay` returns normally
and stores in PFD_DLY_SEL of R37 the code of the five-branch table (breakpoints 10 GHz and
12.5 GHz); the code is in 1..6, and no other bit of R37 and no other register changes. -/
theorem set_phase_detector_delay_table (dev : lmx2594) (f : Nat)
    (horder : ∃ order : MASH_ORDER_type,
      read_field dev._registers_map reg_R44.MASH_ORDER = order.val)
    (hmin : 7450000000 ≤ f) (hmax : f ≤ dev.get_vco_frequency_max) :
    (dev.set_phase_detector_delay f).error = none ∧
      (read_field dev._registers_map reg_R44.MASH_ORDER = MASH_ORDER_type.integer.val →
        read_field (dev.set_phase_detector_delay f).dev._registers_map reg_R37.PFD_DLY_SEL =
          if f > 12500000000 then 2 else 1) ∧
      (read_field dev._registers_map reg_R44.MASH_ORDER = MASH_ORDER_type.frac1.val →
        read_field (dev.set_phase_detector_delay f).dev._registers_map reg_R37.PFD_DLY_SEL =
          if f > 12500000000 then 3 else if f > 10000000000 then 2 else 1) ∧
      (read_field dev._registers_map reg_R44.MASH_ORDER = MASH_ORDER_type.frac2.val →
        read_field (dev.set_phase_detector_delay f).dev._registers_map reg_R37.PFD_DLY_SEL =
          if f > 10000000000 then 3 else 2) ∧
      (read_field dev._registers_map reg_R44.MASH_ORDER = MASH_ORDER_type.frac3.val →
        read_field (dev.set_phase_detector_delay f).dev._registers_map reg_R37.PFD_DLY_SEL =
          if f > 10000000000 then 4 else 3) ∧
      (read_field dev._registers_map reg_R44.MASH_ORDER = MASH_ORDER_type.frac4.val →
        read_field (dev.set_phase_detector_delay f).dev._registers_map reg_R37.PFD_DLY_SEL =
          if f > 10000000000 then 6 else 5) ∧
      (1 ≤ read_field (dev.set_phase_detector_delay f).dev._registers_map
          reg_R37.PFD_DLY_SEL ∧
        read_field (dev.set_phase_detector_delay f).dev._registers_map reg_R37.PFD_DLY_SEL ≤
          6) ∧
      only_field_changed dev._registers_map
        (dev.set_phase_detector_delay f).dev._registers_map reg_R37.PFD_DLY_SEL := by
  have hg : ¬(f < 7450000000 ∨ f > dev.get_vco_frequency_max) := by omega
  have hm := (exists_mash_order_iff _).mp horder
  obtain ⟨x, hx1, hx6, hset, h0, h1, h2, h3, h4⟩ := _set_phase_detector_delay_table dev f hg hm
  have hmap : (dev.set_phase_detector_delay f).dev._registers_map =
      write_field dev._registers_map reg_R37.PFD_DLY_SEL x := by
    unfold lmx2594.set_phase_detector_delay
    rw [hset]
    rfl
  have herr : (dev.set_phase_detector_delay f).error = none := by
    unfold lmx2594.set_phase_detector_delay
    rw [hset]
    rfl
  have hread : read_field (dev.set_phase_detector_delay f).dev._registers_map
      reg_R37.PFD_DLY_SEL = x := by
    rw [hmap]
    exact read_write_field_of_lt _ _ _ (by show x < 2 ^ 6; omega)
  rw [hread, hmap]
  exact ⟨herr, h0, h1, h2, h3, h4, ⟨hx1, hx6⟩, only_field_changed_write_field _ _ _⟩

theorem set_phase_detector_delay_table_witness :
    read_field (lmx2594.new.set_phase_detector_delay 13000000000).dev._registers_map
        reg_R37.PFD_DLY_SEL = 2 :=
  (set_phase_detector_delay_table lmx2594.new 13000000000 ⟨MASH_ORDER_type.integer, by decide⟩
    (by decide) (by decide)).2.1 (by decide)

/-! ## Frequency bounds -/

/-- C27: for every register state `get_pd_frequency_min() < get_pd_frequency_max()`; the
bounds are 125 and 400,000,000 when MASH_ORDER is integer, 5000 and 240,000,000 when it is
frac4, and 5000 and 300,000,000 for every other value of the field; so the integer interval
strictly contains the two fractional intervals, and the frac4 ceiling is strictly below the
ceiling of the other fractional orders. -/
theorem pd_frequency_bounds (dev : lmx2594) :
    dev.get_pd_frequency_min < dev.get_pd_frequency_max ∧
      (read_field dev._registers_map reg_R44.MASH_ORDER = MASH_ORDER_type.integer.val →
        dev.get_pd_frequency_min = 125 ∧ dev.get_pd_frequency_max = 400000000) ∧
      (read_field dev._registers_map reg_R44.MASH_ORDER = MASH_ORDER_type.frac4.val →
        dev.get_pd_frequency_min = 5000 ∧ dev.get_pd_frequency_max = 240000000) ∧
      (read_field dev._registers_map reg_R44.MASH_ORDER ≠ MASH_ORDER_type.integer.val →
        read_field dev._registers_map reg_R44.MASH_ORDER ≠ MASH_ORDER_type.frac4.val →
        dev.get_pd_frequency_min = 5000 ∧ dev.get_pd_frequency_max = 300000000) ∧
      ((125 : Nat) < 5000 ∧ (300000000 : Nat) < 400000000 ∧ (240000000 : Nat) < 400000000) ∧
      (240000000 : Nat) < 300000000 := by
  unfold lmx2594.get_pd_frequency_min lmx2594.get_pd_frequency_max
  simp only [MASH_ORDER_type.val]
  refine ⟨?_, ?_, ?_, ?_, by decide, by decide⟩
  · split_ifs <;> omega
  · intro h
    simp [h]
  · intro h
    simp [h]
  · intro h0 h4
    simp [h0, h4]

theorem pd_frequency_bounds_witness :
    lmx2594.new.get_pd_frequency_min = 125 ∧ lmx2594.new.get_pd_frequency_max = 400000000 :=
  (pd_frequency_bounds lmx2594.new).2.1 (by decide)

/-! ## Setters that ignore their argument -/

/-- C30: on the freshly constructed device, whose MUXOUT_LD_SEL is `readback`,
`set_lock_detect_mux(readback)` leaves the field reading `lock_detect` and changes the word of
R0 from 0x2410 to 0x2414: the argument is not used. -/
theorem set_lock_detect_mux_readback_stores_lock_detect :
    read_field lmx2594.new._registers_map reg_R0.MUXOUT_LD_SEL =
        MUXOUT_LD_SEL_type.readback.val ∧
      read_field (lmx2594.new.set_lock_detect_mux MUXOUT_LD_SEL_type.readback)._registers_map
          reg_R0.MUXOUT_LD_SEL = MUXOUT_LD_SEL_type.lock_detect.val ∧
      MUXOUT_LD_SEL_type.lock_detect.val ≠ MUXOUT_LD_SEL_type.readback.val ∧
      lmx2594.new._registers_map 0 = 0x2410 ∧
      (lmx2594.new.set_lock_detect_mux MUXOUT_LD_SEL_type.readback)._registers_map 0 =
        0x2414 := by
  decide

/-- C26: on the freshly constructed device `set_vco_calibration_divider(900000000)` leaves
CAL_CLK_DIV = div1, although the source's comparison chain selects div8 for that frequency
(its local `divider`); the same happens for 500,000,000 (div4 selected) and 300,000,000 (div2
selected). -/
theorem set_vco_calibration_divider_stores_div1 :
    lmx2594.vco_calibration_divider_local 900000000 = CAL_CLK_DIV_type.div8 ∧
      read_field (lmx2594.new.set_vco_calibration_divider 900000000)._registers_map
          reg_R1.CAL_CLK_DIV = CAL_CLK_DIV_type.div1.val ∧
      lmx2594.vco_calibration_divider_local 500000000 = CAL_CLK_DIV_type.div4 ∧
      read_field (lmx2594.new.set_vco_calibration_divider 500000000)._registers_map
          reg_R1.CAL_CLK_DIV = CAL_CLK_DIV_type.div1.val ∧
      lmx2594.vco_calibration_divider_local 300000000 = CAL_CLK_DIV_type.div2 ∧
      read_field (lmx2594.new.set_vco_calibration_divider 300000000)._registers_map
          reg_R1.CAL_CLK_DIV = CAL_CLK_DIV_type.div1.val ∧
      CAL_CLK_DIV_type.div1.val ≠ CAL_CLK_DIV_type.div8.val := by
  decide

/-- C25 fails as stated: on the freshly constructed device the CAL_CLK_DIV field after
`set_vco_calibration_divider` is div1 for 900 MHz (not div8), div1 for 300 MHz (not div4) and
div1 for 150 MHz (not div2). -/
theorem set_vco_calibration_divider_examples_fail :
    read_field (lmx2594.new.set_vco_calibration_divider 900000000)._registers_map
          reg_R1.CAL_CLK_DIV = CAL_CLK_DIV_type.div1.val ∧
      CAL_CLK_DIV_type.div1.val ≠ CAL_CLK_DIV_type.div8.val ∧
      read_field (lmx2594.new.set_vco_calibration_divider 300000000)._registers_map
          reg_R1.CAL_CLK_DIV = CAL_CLK_DIV_type.div1.val ∧
      CAL_CLK_DIV_type.div1.val ≠ CAL_CLK_DIV_type.div4.val ∧
      read_field (lmx2594.new.set_vco_calibration_divider 150000000)._registers_map
          reg_R1.CAL_CLK_DIV = CAL_CLK_DIV_type.div1.val ∧
      CAL_CLK_DIV_type.div1.val ≠ CAL_CLK_DIV_type.div2.val := by
  decide

/-- C25 as amended: for every prior state, the CAL_CLK_DIV field of R1 left by
`set_vco_calibration_divider` is divide-by-1 for 150 MHz and for 50 MHz, which is also what the
comparison chain of the source selects for these two frequencies (it selects divide-by-8 for
900 MHz and divide-by-2 for 300 MHz). -/
theorem set_vco_calibration_divider_low_frequencies (dev : lmx2594) :
    read_field (dev.set_vco_calibration_divider 150000000)._registers_map
          reg_R1.CAL_CLK_DIV = CAL_CLK_DIV_type.div1.val ∧
      read_field (dev.set_vco_calibration_divider 50000000)._registers_map
          reg_R1.CAL_CLK_DIV = CAL_CLK_DIV_type.div1.val ∧
      lmx2594.vco_calibration_divider_local 150000000 = CAL_CLK_DIV_type.div1 ∧
      lmx2594.vco_calibration_divider_local 50000000 = CAL_CLK_DIV_type.div1 ∧
      lmx2594.vco_calibration_divider_local 900000000 = CAL_CLK_DIV_type.div8 ∧
      lmx2594.vco_calibration_divider_local 300000000 = CAL_CLK_DIV_type.div2 := by
  refine ⟨?_, ?_, by decide, by decide, by decide, by decide⟩
  · exact read_write_field_of_lt _ _ _ (by decide)
  · exact read_write_field_of_lt _ _ _ (by decide)

/-! ## Reserved bits -/

theorem same_reserved_bits_refl (m : registers_map) : same_reserved_bits m m :=
  fun _ _ _ => rfl

theorem same_reserved_bits_trans {m m1 m2 : registers_map} (h1 : same_reserved_bits m m1)
    (h2 : same_reserved_bits m1 m2) : same_reserved_bits m m2 :=
  fun r i h => (h2 r i h).trans (h1 r i h)

theorem same_reserved_bits_of_eq {m m1 m2 : registers_map} (h1 : same_reserved_bits m m1)
    (h2 : m2 = m1) : same_reserved_bits m m2 := by
  rw [h2]
  exact h1

theorem write_field_keeps_reserved (m : registers_map) (f : field) (v : Nat)
    (hf : (List.range f.width).all (fun k => !reserved f.reg (f.off + k)) = true) :
    same_reserved_bits m (write_field m f v) := by
  intro r i hres
  by_cases hr : r = f.reg
  · subst hr
    rw [write_field_same, testBit_set_bits]
    split_ifs with hin
    · exfalso
      rw [List.all_eq_true] at hf
      have hk := hf (i - f.off) (List.mem_range.mpr (by omega))
      have hi : f.off + (i - f.off) = i := by omega
      rw [hi, hres] at hk
      exact absurd hk (by decide)
    · rfl
  · rw [write_field_other m f v r hr]

theorem _set_parameter_keeps_reserved (dev : lmx2594) (p : parameter) :
    same_reserved_bits dev._registers_map (dev._set_parameter p).dev._registers_map := by
  cases p <;>
    simp only [lmx2594._set_parameter, lmx2594._set_output_enabled, lmx2594._set_output_power,
      lmx2594._set_output_mux_a, lmx2594._set_output_mux_b, lmx2594._set_channel_divider,
      lmx2594._set_charge_pump_gain, lmx2594._set_doubler, lmx2594._set_pre_divider,
      lmx2594._set_multiplier, lmx2594._set_divider, lmx2594._set_n_divider,
      lmx2594._set_fractional_numerator, lmx2594._set_fractional_denomerator,
      lmx2594._set_lock_detect, lmx2594._set_lock_detect_mux,
      lmx2594._set_phase_detector_delay, lmx2594.assign_PFD_DLY_SEL,
      lmx2594._set_vco_calibration_divider, lmx2594._set_mash_order] <;>
    (try split_ifs) <;>
    first
      | exact same_reserved_bits_refl _
      | exact write_field_keeps_reserved _ _ _ (by decide)
      | exact same_reserved_bits_trans (write_field_keeps_reserved _ _ _ (by decide))
          (write_field_keeps_reserved _ _ _ (by decide))

theorem and_then_dev_prop (P : lmx2594 → Prop) (r : result) (k : lmx2594 → result)
    (hr : P r.dev) (hk : ∀ d, P d → P (k d).dev) : P (r.and_then k).dev := by
  unfold result.and_then
  cases he : r.error with
  | none => exact hk _ hr
  | some e => exact hr

theorem write_registers_map (tr : transport) (dev : lmx2594) (a w : Nat) :
    (lmx2594.write tr dev a w).dev._registers_map = dev._registers_map := rfl

theorem write_registers_update (tr : transport) (dev : lmx2594) (a w : Nat) :
    (lmx2594.write tr dev a w).dev._registers_update = dev._registers_update := rfl

theorem _update_registers_registers_map (tr : transport) (l : List Nat) :
    ∀ dev : lmx2594,
      (lmx2594._update_registers tr dev l).dev._registers_map = dev._registers_map := by
  induction l with
  | nil => intro dev; rfl
  | cons a rest ih =>
    intro dev
    unfold lmx2594._update_registers
    exact and_then_dev_prop (fun d => d._registers_map = dev._registers_map) _ _ rfl
      fun d hd => (ih d).trans hd

theorem _update_registers_registers_update (tr : transport) (l : List Nat) :
    ∀ dev : lmx2594,
      (lmx2594._update_registers tr dev l).dev._registers_update = dev._registers_update := by
  induction l with
  | nil => intro dev; rfl
  | cons a rest ih =>
    intro dev
    unfold lmx2594._update_registers
    exact and_then_dev_prop (fun d => d._registers_update = dev._registers_update) _ _ rfl
      fun d hd => (ih d).trans hd

theorem update_changes_loop_registers_map (tr : transport) (n : Nat) :
    ∀ dev : lmx2594,
      (lmx2594.update_changes_loop tr n dev).dev._registers_map = dev._registers_map := by
  induction n with
  | zero => intro dev; rfl
  | succ k ih =>
    intro dev
    unfold lmx2594.update_changes_loop
    split_ifs
    · exact and_then_dev_prop (fun d => d._registers_map = dev._registers_map) _ _ rfl
        fun d hd => (ih _).trans hd
    · exact ih dev

theorem reset_loop_registers_map (tr : transport) (n : Nat) :
    ∀ dev : lmx2594,
      (lmx2594.reset_loop tr n dev).dev._registers_map = dev._registers_map := by
  induction n with
  | zero => intro dev; rfl
  | succ k ih =>
    intro dev
    unfold lmx2594.reset_loop
    exact and_then_dev_prop (fun d => d._registers_map = dev._registers_map) _ _ rfl
      fun d hd => (ih d).trans hd

theorem reset_loop_registers_update (tr : transport) (n : Nat) :
    ∀ dev : lmx2594,
      (lmx2594.reset_loop tr n dev).dev._registers_update = dev._registers_update := by
  induction n with
  | zero => intro dev; rfl
  | succ k ih =>
    intro dev
    unfold lmx2594.reset_loop
    exact and_then_dev_prop (fun d => d._registers_update = dev._registers_update) _ _ rfl
      fun d hd => (ih d).trans hd

theorem set_parameter_registers_map (dev : lmx2594) (p : parameter) :
    (dev.set_parameter p).dev._registers_map = (dev._set_parameter p).dev._registers_map := by
  rw [set_parameter_eq]
  exact and_then_dev_prop
    (fun d => d._registers_map = (dev._set_parameter p).dev._registers_map) _ _ rfl
    fun d hd => hd

theorem update_parameter_registers_map (tr : transport) (dev : lmx2594) (p : parameter) :
    (dev.update_parameter tr p).dev._registers_map =
      (dev._set_parameter p).dev._registers_map := by
  rw [update_parameter_eq]
  exact and_then_dev_prop
    (fun d => d._registers_map = (dev._set_parameter p).dev._registers_map) _ _ rfl
    fun d hd => (_update_registers_registers_map tr _ d).trans hd

theorem reset_keeps_reserved (tr : transport) (dev : lmx2594) :
    same_reserved_bits dev._registers_map (lmx2594.reset tr dev).dev._registers_map := by
  unfold lmx2594.reset
  refine and_then_dev_prop (fun d => same_reserved_bits dev._registers_map d._registers_map)
    _ _ (write_field_keeps_reserved _ _ _ (by decide)) fun d2 h2 => ?_
  refine and_then_dev_prop (fun d => same_reserved_bits dev._registers_map d._registers_map)
    _ _ (same_reserved_bits_trans h2 (write_field_keeps_reserved _ _ _ (by decide)))
    fun d4 h4 => ?_
  refine and_then_dev_prop (fun d => same_reserved_bits dev._registers_map d._registers_map)
    _ _ (same_reserved_bits_of_eq h4 (reset_loop_registers_map tr _ d4)) fun d5 h5 => ?_
  exact same_reserved_bits_trans h5 (write_field_keeps_reserved _ _ _ (by decide))

/-- C29 fails as stated: on the freshly constructed device, with a transport whose reads
return 0, `is_enabled()` returns normally and leaves bit 4 of R0, a reserved bit that is 1 in
the power-on image, at 0. -/
theorem is_enabled_overwrites_reserved_bit :
    reserved 0 4 = true ∧
      (lmx2594.new._registers_map 0).testBit 4 = true ∧
      (lmx2594.is_enabled transport.succeeding lmx2594.new).1.error = none ∧
      ((lmx2594.is_enabled transport.succeeding lmx2594.new).1.dev._registers_map 0).testBit
          4 = false := by
  decide

/-- C29 as amended: every `set_P`, `update_P`, `update_changes`, `reset`, `chip_enable` and
`vco_calibrate`, whatever the transport does, leaves every reserved (const-declared) bit of
every register as it was before the call, hence as in the power-on image when no query ran
before; `is_enabled` and `is_output_enabled` leave every register other than R0, respectively
R44, untouched and replace the in-memory word of that register by the word the transport
returns (nothing changes when the read fails). -/
theorem operations_keep_reserved_bits (tr : transport) (dev : lmx2594) (p : parameter)
    (enabled : Bool) (output : lmx2594_output) :
    same_reserved_bits dev._registers_map (dev.set_parameter p).dev._registers_map ∧
      same_reserved_bits dev._registers_map (dev.update_parameter tr p).dev._registers_map ∧
      same_reserved_bits dev._registers_map
        (lmx2594.update_changes tr dev).dev._registers_map ∧
      same_reserved_bits dev._registers_map (lmx2594.reset tr dev).dev._registers_map ∧
      same_reserved_bits dev._registers_map
        (lmx2594.chip_enable tr dev enabled).dev._registers_map ∧
      same_reserved_bits dev._registers_map (lmx2594.vco_calibrate tr dev).dev._registers_map ∧
      (∀ r, r ≠ 0 → (lmx2594.is_enabled tr dev).1.dev._registers_map r = dev._registers_map r) ∧
      (∀ w, tr.read dev.bus 0 = some w →
        (lmx2594.is_enabled tr dev).1.dev._registers_map 0 = w % 65536) ∧
      (tr.read dev.bus 0 = none →
        (lmx2594.is_enabled tr dev).1.dev._registers_map = dev._registers_map) ∧
      (∀ r, r ≠ 44 →
        (lmx2594.is_output_enabled tr dev output).1.dev._registers_map r =
          dev._registers_map r) ∧
      (∀ w, tr.read dev.bus 44 = some w →
        (lmx2594.is_output_enabled tr dev output).1.dev._registers_map 44 = w % 65536) ∧
      (tr.read dev.bus 44 = none →
        (lmx2594.is_output_enabled tr dev output).1.dev._registers_map =
          dev._registers_map) := by
  refine ⟨?_, ?_, ?_, reset_keeps_reserved tr dev, ?_, ?_, ?_, ?_, ?_, ?_, ?_, ?_⟩
  · rw [set_parameter_registers_map]
    exact _set_parameter_keeps_reserved dev p
  · rw [update_parameter_registers_map]
    exact _set_parameter_keeps_reserved dev p
  · unfold lmx2594.update_changes
    rw [update_changes_loop_registers_map]
    exact same_reserved_bits_refl _
  · exact write_field_keeps_reserved _ _ _ (by decide)
  · exact write_field_keeps_reserved _ _ _ (by decide)
  · intro r hr
    unfold lmx2594.is_enabled lmx2594.read
    cases tr.read dev.bus 0 with
    | none => rfl
    | some w => simp [Function.update_noteq hr]
  · intro w hw
    unfold lmx2594.is_enabled lmx2594.read
    rw [hw]
    simp
  · intro hw
    unfold lmx2594.is_enabled lmx2594.read
    rw [hw]
  · intro r hr
    unfold lmx2594.is_output_enabled lmx2594.read
    cases tr.read dev.bus 44 with
    | none => rfl
    | some w => simp [Function.update_noteq hr]
  · intro w hw
    unfold lmx2594.is_output_enabled lmx2594.read
    rw [hw]
    simp
  · intro hw
    unfold lmx2594.is_output_enabled lmx2594.read
    rw [hw]

theorem operations_keep_reserved_bits_witness :
    ((lmx2594.reset transport.succeeding lmx2594.new).dev._registers_map 0).testBit 4 =
        (lmx2594.new._registers_map 0).testBit 4 ∧
      (lmx2594.is_enabled transport.succeeding lmx2594.new).1.dev._registers_map 0 =
        0 % 65536 :=
  ⟨(operations_keep_reserved_bits transport.succeeding lmx2594.new
      (parameter.pre_divider 1) true lmx2594_output.outa).2.2.2.1 0 4 (by decide),
    (operations_keep_reserved_bits transport.succeeding lmx2594.new
      (parameter.pre_divider 1) true lmx2594_output.outa).2.2.2.2.2.2.2.1 0 rfl⟩

/-! ## Repeated apply -/

theorem set_bits_set_bits (w off width v v1 : Nat) :
    set_bits (set_bits w off width v) off width v1 = set_bits w off width v1 := by
  apply Nat.eq_of_testBit_eq
  intro i
  rw [testBit_set_bits, testBit_set_bits, testBit_set_bits]
  split_ifs <;> rfl

theorem write_field_write_field (m : registers_map) (f : field) (v v1 : Nat) :
    write_field (write_field m f v) f v1 = write_field m f v1 := by
  funext r
  by_cases hr : r = f.reg
  · subst hr
    rw [write_field_same, write_field_same, write_field_same, set_bits_set_bits]
  · rw [write_field_other _ _ _ _ hr, write_field_other _ _ _ _ hr,
      write_field_other _ _ _ _ hr]

theorem write_field_pair_again (m : registers_map) (f g : field) (v w : Nat)
    (h : f.reg ≠ g.reg) :
    write_field (write_field (write_field (write_field m f v) g w) f v) g w =
      write_field (write_field m f v) g w := by
  funext r
  by_cases hg : r = g.reg
  · subst hg
    rw [write_field_same, write_field_other _ f _ _ (Ne.symm h), write_field_same,
      set_bits_set_bits]
  · rw [write_field_other _ g _ _ hg, write_field_other _ g _ _ hg]
    by_cases hf : r = f.reg
    · subst hf
      rw [write_field_same, write_field_other _ g _ _ hg, write_field_same,
        set_bits_set_bits]
    · rw [write_field_other _ f _ _ hf, write_field_other _ g _ _ hg,
        write_field_other _ f _ _ hf]

theorem _set_phase_detector_delay_branch (dev : lmx2594) (f : Nat) :
    dev._set_phase_detector_delay f = ⟨dev, some error.invalid_argument⟩ ∨
      ∃ x : Nat, ∀ dev1 : lmx2594,
        dev1._registers_map 44 = dev._registers_map 44 →
        dev1._registers_map 75 = dev._registers_map 75 →
          dev1._set_phase_detector_delay f = lmx2594.assign_PFD_DLY_SEL dev1 x := by
  have hcongr : ∀ dev1 : lmx2594,
      dev1._registers_map 44 = dev._registers_map 44 →
      dev1._registers_map 75 = dev._registers_map 75 →
      dev1._set_phase_detector_delay f =
        if f < lmx2594_constants.vco_frequency.min ∨ f > dev.get_vco_frequency_max then
          ⟨dev1, some error.invalid_argument⟩
        else
          if read_field dev._registers_map reg_R44.MASH_ORDER = MASH_ORDER_type.integer.val then
            if f > 12500000000 then lmx2594.assign_PFD_DLY_SEL dev1 2
            else lmx2594.assign_PFD_DLY_SEL dev1 1
          else if read_field dev._registers_map reg_R44.MASH_ORDER =
              MASH_ORDER_type.frac1.val then
            if f > 12500000000 then lmx2594.assign_PFD_DLY_SEL dev1 3
            else if f > 10000000000 then lmx2594.assign_PFD_DLY_SEL dev1 2
            else lmx2594.assign_PFD_DLY_SEL dev1 1
          else if read_field dev._registers_map reg_R44.MASH_ORDER =
              MASH_ORDER_type.frac2.val then
            if f > 10000000000 then lmx2594.assign_PFD_DLY_SEL dev1 3
            else lmx2594.assign_PFD_DLY_SEL dev1 2
          else if read_field dev._registers_map reg_R44.MASH_ORDER =
              MASH_ORDER_type.frac3.val then
            if f > 10000000000 then lmx2594.assign_PFD_DLY_SEL dev1 4
            else lmx2594.assign_PFD_DLY_SEL dev1 3
          else if read_field dev._registers_map reg_R44.MASH_ORDER =
              MASH_ORDER_type.frac4.val then
            if f > 10000000000 then lmx2594.assign_PFD_DLY_SEL dev1 6
            else lmx2594.assign_PFD_DLY_SEL dev1 5
          else ⟨dev1, some error.invalid_argument⟩ := by
    intro dev1 h44 h75
    have hm : read_field dev1._registers_map reg_R44.MASH_ORDER =
        read_field dev._registers_map reg_R44.MASH_ORDER := by
      unfold read_field
      exact congrArg (fun w => get_bits w reg_R44.MASH_ORDER.off reg_R44.MASH_ORDER.width) h44
    have hv : dev1.get_vco_frequency_max = dev.get_vco_frequency_max := by
      unfold lmx2594.get_vco_frequency_max read_field
      have : dev1._registers_map reg_R75.CHDIV.reg = dev._registers_map reg_R75.CHDIV.reg := h75
      rw [this]
    unfold lmx2594._set_phase_detector_delay
    rw [hm, hv]
  have h0 := hcongr dev rfl rfl
  by_cases hg : f < lmx2594_constants.vco_frequency.min ∨ f > dev.get_vco_frequency_max
  · left
    rw [h0, if_pos hg]
  · simp only [if_neg hg] at h0 hcongr
    clear h0
    split_ifs at hcongr
    all_goals first
      | exact Or.inr ⟨_, hcongr⟩
      | (left; exact hcongr dev rfl rfl)

theorem _set_parameter_again (dev : lmx2594) (p : parameter)
    (h : (dev._set_parameter p).error = none) (dev1 : lmx2594)
    (hmap : dev1._registers_map = (dev._set_parameter p).dev._registers_map) :
    (dev1._set_parameter p).error = none ∧
      (dev1._set_parameter p).dev._registers_map = dev1._registers_map := by
  cases p with
  | output_enabled data =>
    refine ⟨rfl, ?_⟩
    simp only [lmx2594._set_parameter, lmx2594._set_output_enabled] at hmap ⊢
    cases ho : data.output <;> simp only [ho, reduceCtorEq, if_true, if_false] at hmap ⊢ <;>
      rw [hmap, write_field_write_field]
  | output_power data =>
    refine ⟨rfl, ?_⟩
    simp only [lmx2594._set_parameter, lmx2594._set_output_power] at hmap ⊢
    cases ho : data.output <;> simp only [ho, reduceCtorEq, if_true, if_false] at hmap ⊢ <;>
      rw [hmap, write_field_write_field]
  | output_mux_a value =>
    refine ⟨rfl, ?_⟩
    simp only [lmx2594._set_parameter, lmx2594._set_output_mux_a] at hmap ⊢
    rw [hmap, write_field_write_field]
  | output_mux_b value =>
    refine ⟨rfl, ?_⟩
    simp only [lmx2594._set_parameter, lmx2594._set_output_mux_b] at hmap ⊢
    rw [hmap, write_field_write_field]
  | channel_divider value =>
    refine ⟨rfl, ?_⟩
    simp only [lmx2594._set_parameter, lmx2594._set_channel_divider, read_write_field]
      at hmap ⊢
    split_ifs at hmap ⊢ <;>
      rw [hmap] <;> exact write_field_pair_again _ _ _ _ _ (by decide)
  | charge_pump_gain value =>
    refine ⟨rfl, ?_⟩
    simp only [lmx2594._set_parameter, lmx2594._set_charge_pump_gain] at hmap ⊢
    rw [hmap, write_field_write_field]
  | doubler value =>
    refine ⟨rfl, ?_⟩
    simp only [lmx2594._set_parameter, lmx2594._set_doubler] at hmap ⊢
    rw [hmap, write_field_write_field]
  | pre_divider value =>
    simp only [lmx2594._set_parameter, lmx2594._set_pre_divider] at h hmap ⊢
    split_ifs at h hmap ⊢
    exact ⟨rfl, by rw [hmap]; exact write_field_write_field _ _ _ _⟩
  | multiplier value =>
    refine ⟨rfl, ?_⟩
    simp only [lmx2594._set_parameter, lmx2594._set_multiplier] at hmap ⊢
    rw [hmap, write_field_write_field]
  | divider value =>
    simp only [lmx2594._set_parameter, lmx2594._set_divider] at h hmap ⊢
    split_ifs at h hmap ⊢
    exact ⟨rfl, by rw [hmap]; exact write_field_write_field _ _ _ _⟩
  | n_divider value =>
    refine ⟨rfl, ?_⟩
    simp only [lmx2594._set_parameter, lmx2594._set_n_divider] at hmap ⊢
    rw [hmap]
    exact write_field_pair_again _ _ _ _ _ (by decide)
  | fractional_numerator value =>
    refine ⟨rfl, ?_⟩
    simp only [lmx2594._set_parameter, lmx2594._set_fractional_numerator] at hmap ⊢
    rw [hmap]
    exact write_field_pair_again _ _ _ _ _ (by decide)
  | fractional_denomerator value =>
    refine ⟨rfl, ?_⟩
    simp only [lmx2594._set_parameter, lmx2594._set_fractional_denomerator] at hmap ⊢
    rw [hmap]
    exact write_field_pair_again _ _ _ _ _ (by decide)
  | lock_detect value =>
    refine ⟨rfl, ?_⟩
    simp only [lmx2594._set_parameter, lmx2594._set_lock_detect] at hmap ⊢
    rw [hmap, write_field_write_field]
  | lock_detect_mux value =>
    refine ⟨rfl, ?_⟩
    simp only [lmx2594._set_parameter, lmx2594._set_lock_detect_mux] at hmap ⊢
    rw [hmap, write_field_write_field]
  | phase_detector_delay vco_frequency =>
    simp only [lmx2594._set_parameter] at h hmap ⊢
    rcases _set_phase_detector_delay_branch dev vco_frequency with hb | ⟨x, hx⟩
    · rw [hb] at h
      cases h
    · have h1 := hx dev rfl rfl
      rw [h1] at hmap
      have hm : dev1._registers_map = write_field dev._registers_map reg_R37.PFD_DLY_SEL x :=
        hmap
      have h2 := hx dev1
        (by rw [hm]; exact write_field_other _ _ _ _ (by decide))
        (by rw [hm]; exact write_field_other _ _ _ _ (by decide))
      rw [h2]
      refine ⟨rfl, ?_⟩
      show write_field dev1._registers_map reg_R37.PFD_DLY_SEL x = dev1._registers_map
      rw [hm, write_field_write_field]
  | vco_calibration_divider osc_frequency =>
    refine ⟨rfl, ?_⟩
    simp only [lmx2594._set_parameter, lmx2594._set_vco_calibration_divider] at hmap ⊢
    rw [hmap, write_field_write_field]
  | mash_order value =>
    refine ⟨rfl, ?_⟩
    simp only [lmx2594._set_parameter, lmx2594._set_mash_order] at hmap ⊢
    rw [hmap, write_field_write_field]

theorem update_parameter_of_succeeding (tr : transport)
    (hok : ∀ log a w, tr.write log a w = true) (dev : lmx2594) (p : parameter)
    (h : (dev._set_parameter p).error = none) :
    dev.update_parameter tr p =
      ⟨{ (dev._set_parameter p).dev with
          bus := (dev._set_parameter p).dev.bus ++
            p.registers.map fun r => (r, (dev._set_parameter p).dev._registers_map r) },
        none⟩ := by
  rw [update_parameter_eq, and_then_of_error_none _ _ h, _update_registers_of_succeeding tr hok]

/-- C22: for every parameter P and every value v that `set_P` accepts, two calls of
`update_P(v)` in a row on a succeeding transport both return normally, each appends the same
writes to the bus (one per register of P, same addresses, same words, nothing left out the
second time), and the register map after the second call is the register map after the first
call. -/
theorem update_parameter_twice (tr : transport)
    (hok : ∀ log a w, tr.write log a w = true) (dev : lmx2594) (p : parameter)
    (hvalid : (dev.set_parameter p).error = none) :
    (dev.update_parameter tr p).error = none ∧
      ((dev.update_parameter tr p).dev.update_parameter tr p).error = none ∧
      ((dev.update_parameter tr p).dev.update_parameter tr p).dev._registers_map =
        (dev.update_parameter tr p).dev._registers_map ∧
      (dev.update_parameter tr p).dev.bus =
        dev.bus ++
          p.registers.map (fun r => (r, (dev.update_parameter tr p).dev._registers_map r)) ∧
      ((dev.update_parameter tr p).dev.update_parameter tr p).dev.bus =
        (dev.update_parameter tr p).dev.bus ++
          p.registers.map (fun r => (r, (dev.update_parameter tr p).dev._registers_map r)) := by
  have h1 := _set_parameter_error_of_set dev p hvalid
  have hu := update_parameter_of_succeeding tr hok dev p h1
  have hm1 : (dev.update_parameter tr p).dev._registers_map =
      (dev._set_parameter p).dev._registers_map := by rw [hu]
  obtain ⟨h2, hm2⟩ := _set_parameter_again dev p h1 (dev.update_parameter tr p).dev hm1
  have hu2 := update_parameter_of_succeeding tr hok (dev.update_parameter tr p).dev p h2
  have hb2 : ((dev.update_parameter tr p).dev._set_parameter p).dev.bus =
      (dev.update_parameter tr p).dev.bus := _set_parameter_bus _ p
  refine ⟨by rw [hu], by rw [hu2], ?_, ?_, ?_⟩
  · rw [hu2]
    exact hm2
  · rw [hu]
    show (dev._set_parameter p).dev.bus ++ _ = dev.bus ++ _
    rw [_set_parameter_bus]
  · rw [hu2]
    show ((dev.update_parameter tr p).dev._set_parameter p).dev.bus ++ _ = _
    rw [hb2, hm2]

theorem update_parameter_twice_witness :
    ((lmx2594.new.update_parameter transport.succeeding
          (parameter.channel_divider CHDIV_type.div8)).dev.update_parameter
        transport.succeeding (parameter.channel_divider CHDIV_type.div8)).dev._registers_map =
      (lmx2594.new.update_parameter transport.succeeding
        (parameter.channel_divider CHDIV_type.div8)).dev._registers_map :=
  (update_parameter_twice transport.succeeding (fun _ _ _ => rfl) lmx2594.new
    (parameter.channel_divider CHDIV_type.div8) rfl).2.2.1

/-! ## Failure during the flush -/

/-- C23 fails: on the fresh device stage `set_pre_divider(5)` and flush it on a succeeding
transport (writes to 113 and 12), then stage `set_channel_divider(div8)`; R75, R31 and R12 are
then dirty.  With a transport on which exactly the writes to address 12 fail,
`update_changes()` raises the transport error after the writes to 113, 75, 31 and 12, and R31,
a dirty register above R12 that has been written, is still dirty afterwards: the pass at index
113 has used up the count, so that `clear_changed(31)` refuses to clear. -/
theorem update_changes_failure_leaves_written_register_dirty :
    ((lmx2594.update_changes transport.succeeding
          (lmx2594.new.set_pre_divider 5).dev).dev.set_channel_divider
        CHDIV_type.div8)._registers_update.is_changed_at 31 = true ∧
      ((lmx2594.update_changes transport.succeeding
          (lmx2594.new.set_pre_divider 5).dev).dev.set_channel_divider
        CHDIV_type.div8)._registers_update.is_changed_at 12 = true ∧
      (lmx2594.update_changes ⟨fun _ a _ => decide (a ≠ 12), fun _ _ => none⟩
          ((lmx2594.update_changes transport.succeeding
            (lmx2594.new.set_pre_divider 5).dev).dev.set_channel_divider
              CHDIV_type.div8)).error = some error.transport_error ∧
      (lmx2594.update_changes ⟨fun _ a _ => decide (a ≠ 12), fun _ _ => none⟩
          ((lmx2594.update_changes transport.succeeding
            (lmx2594.new.set_pre_divider 5).dev).dev.set_channel_divider
              CHDIV_type.div8)).dev.bus =
        [(113, 0), (12, 0x5005), (113, 0), (75, 0x08C0), (31, 0x43EC), (12, 0x5005)] ∧
      (lmx2594.update_changes ⟨fun _ a _ => decide (a ≠ 12), fun _ _ => none⟩
          ((lmx2594.update_changes transport.succeeding
            (lmx2594.new.set_pre_divider 5).dev).dev.set_channel_divider
              CHDIV_type.div8)).dev._registers_update.is_changed_at 31 = true := by
  decide

/-! ## Reset -/

set_option maxRecDepth 8000

/-- C21: on the freshly constructed device `reset()` with a succeeding transport returns
normally and issues 116 writes: register 0 with RESET set (0x2412), register 0 with RESET
cleared (0x2410), then the words at the 113 addresses 113, 112, ..., 1 in this order, then
register 0 with FCAL_EN set (0x2418).  The third write goes to address 113, the last write of
the loop to address 1, and the loop writes no register 0: it runs from `register_max_num`
down to 1 instead of from `register_max_num - 1` down to 0. -/
theorem reset_resync_skips_register_0 :
    (lmx2594.reset transport.succeeding lmx2594.new).error = none ∧
      (lmx2594.reset transport.succeeding lmx2594.new).dev.bus =
        [(0, 0x2412), (0, 0x2410)] ++
          (List.range 113).map (fun k => (113 - k, lmx2594.new._registers_map (113 - k))) ++
          [(0, 0x2418)] ∧
      ((lmx2594.reset transport.succeeding lmx2594.new).dev.bus.get? 2).map Prod.fst =
        some 113 ∧
      ((lmx2594.reset transport.succeeding lmx2594.new).dev.bus.get? 114).map Prod.fst =
        some 1 ∧
      (((lmx2594.reset transport.succeeding lmx2594.new).dev.bus.drop 2).take 113).all
        (fun x => decide (x.1 ≠ 0)) = true := by
  decide

set_option maxRecDepth 512

/-! ## Chip enable -/

/-- C31: for every state, every transport and every boolean `b`, `chip_enable(b)` leaves the
POWERDOWN bit of R0 at `normal` when `b` is true and at `powerdown` when `b` is false, changes
no other bit of R0 and no other register, issues exactly one write, to address 0 with the new
R0 word, and leaves the change set as it was. -/
theorem chip_enable_frame (tr : transport) (dev : lmx2594) (b : Bool) :
    read_field (lmx2594.chip_enable tr dev b).dev._registers_map reg_R0.POWERDOWN =
        (if b then POWERDOWN_type.normal.val else POWERDOWN_type.powerdown.val) ∧
      only_field_changed dev._registers_map (lmx2594.chip_enable tr dev b).dev._registers_map
        reg_R0.POWERDOWN ∧
      (lmx2594.chip_enable tr dev b).dev.bus =
        dev.bus ++ [(0, (lmx2594.chip_enable tr dev b).dev._registers_map 0)] ∧
      (lmx2594.chip_enable tr dev b).dev._registers_update = dev._registers_update := by
  refine ⟨?_, only_field_changed_write_field _ _ _, rfl, rfl⟩
  cases b
  · exact read_write_field_of_lt _ _ _ (by decide)
  · exact read_write_field_of_lt _ _ _ (by decide)

/-! ## Register addresses -/

set_option maxRecDepth 8000

/-- C32 fails for `reset()`: on the freshly constructed device, with a succeeding transport,
`reset()` returns normally and one of its writes goes to address 113 = `register_max_num`,
with the word found at index 113 of the register array, so not every address passed to the
transport is below `register_max_num`; `is_valid` accepts that index as well. -/
theorem reset_writes_address_register_max_num :
    (lmx2594.reset transport.succeeding lmx2594.new).error = none ∧
      (113, lmx2594.new._registers_map 113) ∈
        (lmx2594.reset transport.succeeding lmx2594.new).dev.bus ∧
      ((lmx2594.reset transport.succeeding lmx2594.new).dev.bus.all
        fun x => decide ((x.1 : Int) < register_max_num)) = false ∧
      registers_update.is_valid register_max_num = true := by
  decide

set_option maxRecDepth 512

/-! ## The derived constraints as functions of the register state -/

theorem get_vco_frequency_max_congr (dev1 dev2 : lmx2594)
    (hc : read_field dev1._registers_map reg_R75.CHDIV =
      read_field dev2._registers_map reg_R75.CHDIV) :
    dev1.get_vco_frequency_max = dev2.get_vco_frequency_max := by
  unfold lmx2594.get_vco_frequency_max
  rw [hc]

theorem get_n_divider_min_congr (dev1 dev2 : lmx2594) (f : Nat)
    (hm : read_field dev1._registers_map reg_R44.MASH_ORDER =
      read_field dev2._registers_map reg_R44.MASH_ORDER)
    (hc : read_field dev1._registers_map reg_R75.CHDIV =
      read_field dev2._registers_map reg_R75.CHDIV) :
    dev1.get_n_divider_min f = dev2.get_n_divider_min f := by
  unfold lmx2594.get_n_divider_min
  rw [get_vco_frequency_max_congr dev1 dev2 hc, hm]

theorem _set_channel_divider_registers_map (dev : lmx2594) (v : CHDIV_type) :
    ∃ b : Nat,
      (dev._set_channel_divider v)._registers_map =
        write_field (write_field dev._registers_map reg_R75.CHDIV v.val) reg_R31.SEG1_EN b := by
  unfold lmx2594._set_channel_divider
  dsimp only
  split_ifs
  · exact ⟨_, rfl⟩
  · exact ⟨_, rfl⟩

/-- C33: the outcome of `get_n_divider_min(f)` (a value or the invalid-argument exception) is
the same on any two devices whose register maps agree on the MASH_ORDER and CHDIV fields,
whatever the rest of the maps, the change sets and the bus logs are, and
`get_vco_frequency_max()` depends on the CHDIV field alone; after a staged `set_mash_order(v)`
or `set_channel_divider(v)`, which issues no write, the outcome is the one of a device holding
the staged field value.  The getters are `const` members without an assignment or a transport
call, so they are functions from the device to the outcome and leave the device as it is. -/
theorem get_n_divider_min_depends_on_two_fields :
    (∀ (dev1 dev2 : lmx2594) (f : Nat),
      read_field dev1._registers_map reg_R44.MASH_ORDER =
          read_field dev2._registers_map reg_R44.MASH_ORDER →
        read_field dev1._registers_map reg_R75.CHDIV =
          read_field dev2._registers_map reg_R75.CHDIV →
        dev1.get_n_divider_min f = dev2.get_n_divider_min f) ∧
      (∀ dev1 dev2 : lmx2594,
        read_field dev1._registers_map reg_R75.CHDIV =
          read_field dev2._registers_map reg_R75.CHDIV →
        dev1.get_vco_frequency_max = dev2.get_vco_frequency_max) ∧
      (∀ (dev dev1 : lmx2594) (v : MASH_ORDER_type) (f : Nat),
        read_field dev1._registers_map reg_R44.MASH_ORDER = v.val →
        read_field dev1._registers_map reg_R75.CHDIV =
          read_field dev._registers_map reg_R75.CHDIV →
        (dev.set_mash_order v).bus = dev.bus ∧
          (dev.set_mash_order v).get_n_divider_min f = dev1.get_n_divider_min f) ∧
      (∀ (dev dev1 : lmx2594) (v : CHDIV_type) (f : Nat),
        read_field dev1._registers_map reg_R44.MASH_ORDER =
          read_field dev._registers_map reg_R44.MASH_ORDER →
        read_field dev1._registers_map reg_R75.CHDIV = v.val →
        (dev.set_channel_divider v).bus = dev.bus ∧
          (dev.set_channel_divider v).get_n_divider_min f = dev1.get_n_divider_min f) := by
  refine ⟨get_n_divider_min_congr, get_vco_frequency_max_congr, ?_, ?_⟩
  · intro dev dev1 v f hm hc
    refine ⟨rfl, get_n_divider_min_congr _ _ f ?_ ?_⟩
    · rw [hm]
      exact read_write_field_of_lt _ _ _ (by cases v <;> decide)
    · rw [hc]
      exact read_field_write_field_other _ _ _ _ (by decide)
  · intro dev dev1 v f hm hc
    obtain ⟨b, hb⟩ := _set_channel_divider_registers_map dev v
    have hmap : (dev.set_channel_divider v)._registers_map =
        write_field (write_field dev._registers_map reg_R75.CHDIV v.val) reg_R31.SEG1_EN b :=
      (mark_changed_registers_map _ _).trans hb
    refine ⟨(mark_changed_bus _ _).trans (_set_parameter_bus dev (parameter.channel_divider v)),
      get_n_divider_min_congr _ _ f ?_ ?_⟩
    · rw [hm, hmap, read_field_write_field_other _ _ _ _ (by decide),
        read_field_write_field_other _ _ _ _ (by decide)]
    · rw [hc, hmap, read_field_write_field_other _ _ _ _ (by decide)]
      exact read_write_field_of_lt _ _ _ (by cases v <;> decide)

theorem get_n_divider_min_depends_on_two_fields_witness :
    lmx2594.new.get_n_divider_min 9000000000 = Except.ok 28 ∧
      (lmx2594.new.set_mash_order MASH_ORDER_type.frac4).bus = [] ∧
      (lmx2594.new.set_mash_order MASH_ORDER_type.frac4).get_n_divider_min 9000000000 =
        Except.ok 40 ∧
      (lmx2594.new.set_channel_divider CHDIV_type.div8).get_n_divider_min 12000000000 =
        Except.error error.invalid_argument :=
  ⟨by rfl,
    (get_n_divider_min_depends_on_two_fields.2.2.1 lmx2594.new
      (lmx2594.new.set_mash_order MASH_ORDER_type.frac4) MASH_ORDER_type.frac4 9000000000
      (by decide) (by decide)).1,
    by rfl, by rfl⟩

/-! ## The calibration divider that is stored -/

/-- C34: for every oscillator frequency and every prior state, after
`set_vco_calibration_divider(f)` the CAL_CLK_DIV field of R1 is div1, also for frequencies for
which the comparison chain computes div2, div4 or div8; every other bit of R1 and every other
register is as before, R1 is marked dirty and no write is issued. -/
theorem set_vco_calibration_divider_always_div1 (dev : lmx2594) (f : Nat) :
    read_field (dev.set_vco_calibration_divider f)._registers_map reg_R1.CAL_CLK_DIV =
        CAL_CLK_DIV_type.div1.val ∧
      only_field_changed dev._registers_map (dev.set_vco_calibration_divider f)._registers_map
        reg_R1.CAL_CLK_DIV ∧
      (dev.set_vco_calibration_divider f)._registers_update.is_changed_at 1 = true ∧
      (dev.set_vco_calibration_divider f).bus = dev.bus ∧
      (800000000 < f → lmx2594.vco_calibration_divider_local f = CAL_CLK_DIV_type.div8) ∧
      (400000000 < f → f ≤ 800000000 →
        lmx2594.vco_calibration_divider_local f = CAL_CLK_DIV_type.div4) ∧
      (200000000 < f → f ≤ 400000000 →
        lmx2594.vco_calibration_divider_local f = CAL_CLK_DIV_type.div2) ∧
      (f ≤ 200000000 → lmx2594.vco_calibration_divider_local f = CAL_CLK_DIV_type.div1) := by
  refine ⟨read_write_field_of_lt _ _ _ (by decide), only_field_changed_write_field _ _ _, ?_,
    rfl, ?_, ?_, ?_, ?_⟩
  · exact is_changed_at_set_changed_of_mem _ [1] 1 (by decide) (by decide)
  · intro h; unfold lmx2594.vco_calibration_divider_local; rw [if_pos h]
  · intro h1 h2; unfold lmx2594.vco_calibration_divider_local
    rw [if_neg (by omega), if_pos h1]
  · intro h1 h2; unfold lmx2594.vco_calibration_divider_local
    rw [if_neg (by omega), if_neg (by omega), if_pos h1]
  · intro h; unfold lmx2594.vco_calibration_divider_local
    rw [if_neg (by omega), if_neg (by omega), if_neg (by omega)]

theorem set_vco_calibration_divider_always_div1_witness :
    read_field (lmx2594.new.set_vco_calibration_divider 900000000)._registers_map
        reg_R1.CAL_CLK_DIV = CAL_CLK_DIV_type.div1.val ∧
      lmx2594.vco_calibration_divider_local 900000000 = CAL_CLK_DIV_type.div8 :=
  ⟨(set_vco_calibration_divider_always_div1 lmx2594.new 900000000).1,
    (set_vco_calibration_divider_always_div1 lmx2594.new 900000000).2.2.2.2.1 (by decide)⟩

/-! ## The count against the dirty flags -/

/-- C35 fails: the state left by `set_lock_detect_mux(lock_detect)` followed by
`update_changes()` on a succeeding transport, starting from the fresh device, is reachable
through the public operations; in it the count is below the number of dirty flags and
`is_changed()` is false while `is_changed(0)` is true. -/
theorem flush_hides_dirty_register_0 :
    lmx2594.reachable
        (lmx2594.update_changes transport.succeeding
          (lmx2594.new.set_lock_detect_mux MUXOUT_LD_SEL_type.lock_detect)).dev ∧
      (lmx2594.update_changes transport.succeeding
          (lmx2594.new.set_lock_detect_mux
            MUXOUT_LD_SEL_type.lock_detect)).dev._registers_update._count <
        ((lmx2594.update_changes transport.succeeding
          (lmx2594.new.set_lock_detect_mux
            MUXOUT_LD_SEL_type.lock_detect)).dev._registers_update.dirty_count : Int) ∧
      (lmx2594.update_changes transport.succeeding
          (lmx2594.new.set_lock_detect_mux
            MUXOUT_LD_SEL_type.lock_detect)).dev._registers_update.is_changed = false ∧
      (lmx2594.update_changes transport.succeeding
          (lmx2594.new.set_lock_detect_mux
            MUXOUT_LD_SEL_type.lock_detect)).dev._registers_update.is_changed_at 0 = true := by
  refine ⟨?_, by decide, by decide, by decide⟩
  exact lmx2594.reachable.update_changes transport.succeeding _
    (lmx2594.reachable.set_parameter lmx2594.new
      (parameter.lock_detect_mux MUXOUT_LD_SEL_type.lock_detect) lmx2594.reachable.new)

/-! ## Stage and flush against apply -/

theorem write_of_succeeding (tr : transport) (hok : ∀ log a w, tr.write log a w = true)
    (dev : lmx2594) (a w : Nat) :
    lmx2594.write tr dev a w = ⟨{ dev with bus := dev.bus ++ [(a, w)] }, none⟩ := by
  unfold lmx2594.write
  rw [if_pos (hok _ _ _)]

/-- C36 fails: on the fresh device, whose change set is clean, `set_output_power(outa, 20)`
followed by `update_changes()` on a succeeding transport issues the writes to 113, 45 and 44,
while `update_output_power(outa, 20)` alone issues the writes to 45 and 44; after the flush
`is_changed(44)` is still true, so the change set is not clean. -/
theorem set_then_update_changes_writes_address_113 :
    lmx2594.new._registers_update.clean ∧
      (lmx2594.update_changes transport.succeeding
          (lmx2594.new.set_output_power ⟨lmx2594_output.outa, 20⟩)).error = none ∧
      (lmx2594.update_changes transport.succeeding
          (lmx2594.new.set_output_power ⟨lmx2594_output.outa, 20⟩)).dev.bus =
        [(113, 0), (45, 0xC8C0), (44, 0x14A0)] ∧
      (lmx2594.update_output_power transport.succeeding lmx2594.new
          ⟨lmx2594_output.outa, 20⟩).error = none ∧
      (lmx2594.update_output_power transport.succeeding lmx2594.new
          ⟨lmx2594_output.outa, 20⟩).dev.bus = [(45, 0xC8C0), (44, 0x14A0)] ∧
      (lmx2594.update_changes transport.succeeding
          (lmx2594.new.set_output_power
            ⟨lmx2594_output.outa, 20⟩)).dev._registers_update.is_changed_at 44 = true ∧
      ¬(lmx2594.update_changes transport.succeeding
          (lmx2594.new.set_output_power
            ⟨lmx2594_output.outa, 20⟩)).dev._registers_update.clean := by
  refine ⟨⟨rfl, fun r => ?_⟩, by decide, by decide, by decide, by decide, by decide,
    fun h => ?_⟩
  · unfold registers_update.is_changed_at
    split_ifs <;> rfl
  · exact absurd (h.2 44) (by decide)

/-! ## Monotonicity of the frequency tables -/

theorem get_n_divider_min_value (dev : lmx2594) (f : Nat) (n : Int)
    (h : dev.get_n_divider_min f = Except.ok n) :
    ¬(f < 7450000000 ∨ f > dev.get_vco_frequency_max) ∧
      read_field dev._registers_map reg_R44.MASH_ORDER ≤ 4 ∧
      (read_field dev._registers_map reg_R44.MASH_ORDER = 0 →
        n = if f > 12500000000 then 32 else 28) ∧
      (read_field dev._registers_map reg_R44.MASH_ORDER = 1 →
        n = if f > 12500000000 then 36 else if f > 10000000000 then 32 else 28) ∧
      (read_field dev._registers_map reg_R44.MASH_ORDER = 2 →
        n = if f > 10000000000 then 36 else 32) ∧
      (read_field dev._registers_map reg_R44.MASH_ORDER = 3 →
        n = if f > 10000000000 then 40 else 36) ∧
      (read_field dev._registers_map reg_R44.MASH_ORDER = 4 →
        n = if f > 10000000000 then 48 else 40) := by
  unfold lmx2594.get_n_divider_min at h
  simp only [MASH_ORDER_type.val, lmx2594_constants.vco_frequency.min] at h
  by_cases hg : f < 7450000000 ∨ f > dev.get_vco_frequency_max
  · rw [if_pos hg] at h
    cases h
  · rw [if_neg hg] at h
    refine ⟨hg, ?_⟩
    generalize read_field dev._registers_map reg_R44.MASH_ORDER = o at h ⊢
    split_ifs at h <;> simp only [Except.ok.injEq, reduceCtorEq] at h <;> subst h <;>
      refine ⟨by omega, ?_, ?_, ?_, ?_, ?_⟩ <;> intro ho <;>
      first
        | (exfalso; omega)
        | (split_ifs; rfl)

theorem _set_phase_detector_delay_value (dev : lmx2594) (f : Nat)
    (h : (dev.set_phase_detector_delay f).error = none) :
    ¬(f < 7450000000 ∨ f > dev.get_vco_frequency_max) ∧
      read_field dev._registers_map reg_R44.MASH_ORDER ≤ 4 ∧
      ∃ x : Nat,
        read_field (dev.set_phase_detector_delay f).dev._registers_map reg_R37.PFD_DLY_SEL = x ∧
        (read_field dev._registers_map reg_R44.MASH_ORDER = 0 →
          x = if f > 12500000000 then 2 else 1) ∧
        (read_field dev._registers_map reg_R44.MASH_ORDER = 1 →
          x = if f > 12500000000 then 3 else if f > 10000000000 then 2 else 1) ∧
        (read_field dev._registers_map reg_R44.MASH_ORDER = 2 →
          x = if f > 10000000000 then 3 else 2) ∧
        (read_field dev._registers_map reg_R44.MASH_ORDER = 3 →
          x = if f > 10000000000 then 4 else 3) ∧
        (read_field dev._registers_map reg_R44.MASH_ORDER = 4 →
          x = if f > 10000000000 then 6 else 5) := by
  have h1 : (dev._set_phase_detector_delay f).error = none := and_then_error_none _ _ h
  have hg : ¬(f < 7450000000 ∨ f > dev.get_vco_frequency_max) := by
    intro hg
    unfold lmx2594._set_phase_detector_delay at h1
    simp only [lmx2594_constants.vco_frequency.min] at h1
    rw [if_pos hg] at h1
    cases h1
  have hm : read_field dev._registers_map reg_R44.MASH_ORDER ≤ 4 := by
    by_contra hm
    unfold lmx2594._set_phase_detector_delay at h1
    simp only [lmx2594_constants.vco_frequency.min, MASH_ORDER_type.val] at h1
    rw [if_neg hg] at h1
    rw [if_neg (by omega), if_neg (by omega), if_neg (by omega), if_neg (by omega),
      if_neg (by omega)] at h1
    cases h1
  obtain ⟨x, hx1, hx6, hset, ht⟩ := _set_phase_detector_delay_table dev f hg hm
  refine ⟨hg, hm, x, ?_, ht⟩
  unfold lmx2594.set_phase_detector_delay
  rw [hset]
  exact read_write_field_of_lt _ _ _ (by
    have : 2 ^ reg_R37.PFD_DLY_SEL.width = 64 := by decide
    omega)

/-- C37: `get_n_divider_min` is monotone: on one device, of two accepted frequencies the
larger never gets the smaller minimum divider, and for one frequency accepted by two devices,
the device with the higher MASH order (integer < frac1 < frac2 < frac3 < frac4, the order of
the field values 0 .. 4) never gets the smaller minimum divider.  The same two properties hold
for the PFD_DLY_SEL code left in R37 by `set_phase_detector_delay`. -/
theorem get_n_divider_min_monotone :
    (∀ (dev : lmx2594) (f1 f2 : Nat) (n1 n2 : Int), f1 ≤ f2 →
      dev.get_n_divider_min f1 = Except.ok n1 → dev.get_n_divider_min f2 = Except.ok n2 →
      n1 ≤ n2) ∧
    (∀ (dev1 dev2 : lmx2594) (f : Nat) (n1 n2 : Int),
      read_field dev1._registers_map reg_R44.MASH_ORDER ≤
        read_field dev2._registers_map reg_R44.MASH_ORDER →
      dev1.get_n_divider_min f = Except.ok n1 → dev2.get_n_divider_min f = Except.ok n2 →
      n1 ≤ n2) ∧
    (∀ (dev : lmx2594) (f1 f2 : Nat), f1 ≤ f2 →
      (dev.set_phase_detector_delay f1).error = none →
      (dev.set_phase_detector_delay f2).error = none →
      read_field (dev.set_phase_detector_delay f1).dev._registers_map reg_R37.PFD_DLY_SEL ≤
        read_field (dev.set_phase_detector_delay f2).dev._registers_map reg_R37.PFD_DLY_SEL) ∧
    (∀ (dev1 dev2 : lmx2594) (f : Nat),
      read_field dev1._registers_map reg_R44.MASH_ORDER ≤
        read_field dev2._registers_map reg_R44.MASH_ORDER →
      (dev1.set_phase_detector_delay f).error = none →
      (dev2.set_phase_detector_delay f).error = none →
      read_field (dev1.set_phase_detector_delay f).dev._registers_map reg_R37.PFD_DLY_SEL ≤
        read_field (dev2.set_phase_detector_delay f).dev._registers_map reg_R37.PFD_DLY_SEL) := by
  refine ⟨?_, ?_, ?_, ?_⟩
  · intro dev f1 f2 n1 n2 hf h1 h2
    obtain ⟨_, hm, a0, a1, a2, a3, a4⟩ := get_n_divider_min_value dev f1 n1 h1
    obtain ⟨_, _, b0, b1, b2, b3, b4⟩ := get_n_divider_min_value dev f2 n2 h2
    generalize read_field dev._registers_map reg_R44.MASH_ORDER = o at *
    have ho : o = 0 ∨ o = 1 ∨ o = 2 ∨ o = 3 ∨ o = 4 := by omega
    rcases ho with ho | ho | ho | ho | ho
    · rw [a0 ho, b0 ho]; split_ifs <;> omega
    · rw [a1 ho, b1 ho]; split_ifs <;> omega
    · rw [a2 ho, b2 ho]; split_ifs <;> omega
    · rw [a3 ho, b3 ho]; split_ifs <;> omega
    · rw [a4 ho, b4 ho]; split_ifs <;> omega
  · intro dev1 dev2 f n1 n2 hle h1 h2
    obtain ⟨_, hm1, a0, a1, a2, a3, a4⟩ := get_n_divider_min_value dev1 f n1 h1
    obtain ⟨_, hm2, b0, b1, b2, b3, b4⟩ := get_n_divider_min_value dev2 f n2 h2
    generalize read_field dev1._registers_map reg_R44.MASH_ORDER = o1 at *
    generalize read_field dev2._registers_map reg_R44.MASH_ORDER = o2 at *
    have ho1 : o1 = 0 ∨ o1 = 1 ∨ o1 = 2 ∨ o1 = 3 ∨ o1 = 4 := by omega
    have ho2 : o2 = 0 ∨ o2 = 1 ∨ o2 = 2 ∨ o2 = 3 ∨ o2 = 4 := by omega
    rcases ho1 with ho1 | ho1 | ho1 | ho1 | ho1 <;>
      rcases ho2 with ho2 | ho2 | ho2 | ho2 | ho2 <;>
      first
        | (exfalso; omega)
        | ((first | rw [a0 ho1] | rw [a1 ho1] | rw [a2 ho1] | rw [a3 ho1] | rw [a4 ho1]);
            (first | rw [b0 ho2] | rw [b1 ho2] | rw [b2 ho2] | rw [b3 ho2] | rw [b4 ho2]) <;>
            (split_ifs <;> omega))
  · intro dev f1 f2 hf h1 h2
    obtain ⟨_, hm, x1, hx1, a0, a1, a2, a3, a4⟩ := _set_phase_detector_delay_value dev f1 h1
    obtain ⟨_, _, x2, hx2, b0, b1, b2, b3, b4⟩ := _set_phase_detector_delay_value dev f2 h2
    rw [hx1, hx2]
    generalize read_field dev._registers_map reg_R44.MASH_ORDER = o at *
    have ho : o = 0 ∨ o = 1 ∨ o = 2 ∨ o = 3 ∨ o = 4 := by omega
    rcases ho with ho | ho | ho | ho | ho
    · rw [a0 ho, b0 ho]; split_ifs <;> omega
    · rw [a1 ho, b1 ho]; split_ifs <;> omega
    · rw [a2 ho, b2 ho]; split_ifs <;> omega
    · rw [a3 ho, b3 ho]; split_ifs <;> omega
    · rw [a4 ho, b4 ho]; split_ifs <;> omega
  · intro dev1 dev2 f hle h1 h2
    obtain ⟨_, hm1, x1, hx1, a0, a1, a2, a3, a4⟩ := _set_phase_detector_delay_value dev1 f h1
    obtain ⟨_, hm2, x2, hx2, b0, b1, b2, b3, b4⟩ := _set_phase_detector_delay_value dev2 f h2
    rw [hx1, hx2]
    generalize read_field dev1._registers_map reg_R44.MASH_ORDER = o1 at *
    generalize read_field dev2._registers_map reg_R44.MASH_ORDER = o2 at *
    have ho1 : o1 = 0 ∨ o1 = 1 ∨ o1 = 2 ∨ o1 = 3 ∨ o1 = 4 := by omega
    have ho2 : o2 = 0 ∨ o2 = 1 ∨ o2 = 2 ∨ o2 = 3 ∨ o2 = 4 := by omega
    rcases ho1 with ho1 | ho1 | ho1 | ho1 | ho1 <;>
      rcases ho2 with ho2 | ho2 | ho2 | ho2 | ho2 <;>
      first
        | (exfalso; omega)
        | ((first | rw [a0 ho1] | rw [a1 ho1] | rw [a2 ho1] | rw [a3 ho1] | rw [a4 ho1]);
            (first | rw [b0 ho2] | rw [b1 ho2] | rw [b2 ho2] | rw [b3 ho2] | rw [b4 ho2]) <;>
            (split_ifs <;> omega))

theorem get_n_divider_min_monotone_witness :
    (9000000000 ≤ 13000000000 →
      lmx2594.new.get_n_divider_min 9000000000 = Except.ok 28 →
      lmx2594.new.get_n_divider_min 13000000000 = Except.ok 32 → (28 : Int) ≤ 32) ∧
      lmx2594.new.get_n_divider_min 9000000000 = Except.ok 28 ∧
      lmx2594.new.get_n_divider_min 13000000000 = Except.ok 32 ∧
      read_field (lmx2594.new.set_phase_detector_delay 9000000000).dev._registers_map
          reg_R37.PFD_DLY_SEL ≤
        read_field (lmx2594.new.set_phase_detector_delay 13000000000).dev._registers_map
          reg_R37.PFD_DLY_SEL :=
  ⟨get_n_divider_min_monotone.1 lmx2594.new 9000000000 13000000000 28 32, by rfl, by rfl,
    get_n_divider_min_monotone.2.2.1 lmx2594.new 9000000000 13000000000 (by decide) (by decide)
      (by decide)⟩

/-! ## Frame of reset -/

theorem get_bits_one (w off : Nat) : get_bits w off 1 = (w.testBit off).toNat := by
  unfold get_bits
  rw [Nat.toNat_testBit, pow_one]

theorem reset_loop_error_of_succeeding (tr : transport)
    (hok : ∀ log a w, tr.write log a w = true) (n : Nat) :
    ∀ dev : lmx2594, (lmx2594.reset_loop tr n dev).error = none := by
  induction n with
  | zero => intro dev; rfl
  | succ n ih =>
    intro dev
    unfold lmx2594.reset_loop
    rw [write_of_succeeding tr hok, and_then_of_returned]
    exact ih _

theorem reset_of_succeeding (tr : transport) (hok : ∀ log a w, tr.write log a w = true)
    (dev : lmx2594) :
    (lmx2594.reset tr dev).error = none ∧
      (lmx2594.reset tr dev).dev._registers_map =
        write_field
          (write_field (write_field dev._registers_map reg_R0.RESET RESET_type.reset.val)
            reg_R0.RESET RESET_type.normal.val)
          reg_R0.FCAL_EN FCAL_EN_type.calibrate_vco.val ∧
      (lmx2594.reset tr dev).dev._registers_update = dev._registers_update := by
  unfold lmx2594.reset
  simp only [write_of_succeeding tr hok, and_then_of_returned]
  rw [and_then_of_error_none _ _ (reset_loop_error_of_succeeding tr hok _ _)]
  simp only [reset_loop_registers_map, reset_loop_registers_update]
  refine ⟨?_, ?_, ?_⟩ <;> first | rfl | trivial

/-- C38: for every state, `reset()` with a succeeding transport returns normally and leaves the
in-memory R0 with RESET = normal and FCAL_EN = calibrate_vco, every other bit of R0 and every
other register as before the call, and the change set (flags and count) as before the call. -/
theorem reset_frame (tr : transport) (hok : ∀ log a w, tr.write log a w = true)
    (dev : lmx2594) :
    (lmx2594.reset tr dev).error = none ∧
      read_field (lmx2594.reset tr dev).dev._registers_map reg_R0.RESET =
        RESET_type.normal.val ∧
      read_field (lmx2594.reset tr dev).dev._registers_map reg_R0.FCAL_EN =
        FCAL_EN_type.calibrate_vco.val ∧
      (∀ i : Nat, i ≠ reg_R0.RESET.off → i ≠ reg_R0.FCAL_EN.off →
        ((lmx2594.reset tr dev).dev._registers_map 0).testBit i =
          (dev._registers_map 0).testBit i) ∧
      (∀ r : Nat, r ≠ 0 → (lmx2594.reset tr dev).dev._registers_map r = dev._registers_map r) ∧
      (lmx2594.reset tr dev).dev._registers_update = dev._registers_update ∧
      (∀ r : Int, (lmx2594.reset tr dev).dev._registers_update.is_changed_at r =
        dev._registers_update.is_changed_at r) ∧
      (lmx2594.reset tr dev).dev._registers_update.is_changed =
        dev._registers_update.is_changed := by
  obtain ⟨he, hm, hu⟩ := reset_of_succeeding tr hok dev
  have hw : (lmx2594.reset tr dev).dev._registers_map 0 =
      set_bits (set_bits (set_bits (dev._registers_map 0) 1 1 1) 1 1 0) 3 1 1 := by
    rw [hm]
    simp [write_field, reg_R0.RESET, reg_R0.FCAL_EN, RESET_type.val, FCAL_EN_type.val]
  have hbit : ∀ i : Nat, ((lmx2594.reset tr dev).dev._registers_map 0).testBit i =
      if i = 3 then true else if i = 1 then false else (dev._registers_map 0).testBit i := by
    intro i
    rw [hw, testBit_set_bits, testBit_set_bits, testBit_set_bits]
    by_cases h3 : i = 3
    · subst h3; simp
    · by_cases h1 : i = 1
      · subst h1; simp
      · rw [if_neg (by omega), if_neg (by omega), if_neg (by omega), if_neg h3, if_neg h1]
  refine ⟨he, ?_, ?_, ?_, ?_, hu, fun r => by rw [hu], by rw [hu]⟩
  · show get_bits ((lmx2594.reset tr dev).dev._registers_map 0) 1 1 = 0
    rw [get_bits_one, hbit]
    rfl
  · show get_bits ((lmx2594.reset tr dev).dev._registers_map 0) 3 1 = 1
    rw [get_bits_one, hbit]
    rfl
  · intro i h1 h3
    have h1a : i ≠ 1 := h1
    have h3a : i ≠ 3 := h3
    rw [hbit, if_neg h3a, if_neg h1a]
  · intro r hr
    rw [hm, write_field_other _ _ _ _ (by simpa using hr), write_field_other _ _ _ _ (by simpa using hr),
      write_field_other _ _ _ _ (by simpa using hr)]

theorem reset_frame_witness :
    (lmx2594.reset transport.succeeding lmx2594.new).error = none ∧
      read_field (lmx2594.reset transport.succeeding lmx2594.new).dev._registers_map
        reg_R0.RESET = RESET_type.normal.val ∧
      (lmx2594.reset transport.succeeding lmx2594.new).dev._registers_update =
        lmx2594.new._registers_update :=
  match reset_frame transport.succeeding (fun _ _ _ => rfl) lmx2594.new with
  | ⟨he, hr, _, _, _, hu, _⟩ => ⟨he, hr, hu⟩

/-! ## LTC2991: register pairs of the voltage channels -/

theorem ltc2991_read_of_some (regs : Nat → Option Nat) (dev : ltc2991) (a w : Nat)
    (h : regs a = some w) :
    dev.read regs a = ({ reads := dev.reads ++ [a] }, Except.ok (w % 256)) := by
  unfold ltc2991.read
  rw [h]

theorem ltc2991_channel_val_lt (c : ltc2991_channel) : c.val < 8 := by
  cases c <;> decide

theorem voltage_registers_eq (c : ltc2991_channel) :
    ltc2991.voltage_registers c = [0x0A + 2 * c.val, 0x0A + 2 * c.val + 1] := by
  cases c <;> decide

theorem voltage_code_le (msb lsb : Nat) (h : lsb < 256) :
    (msb &&& 0b00111111) <<< 8 ||| lsb ≤ 16383 := by
  have h1 : msb &&& 0b00111111 ≤ 63 := Nat.and_le_right
  have h2 : (msb &&& 0b00111111) <<< 8 < 2 ^ 14 := by
    rw [Nat.shiftLeft_eq]
    omega
  have h3 : lsb < 2 ^ 14 := by omega
  have := Nat.or_lt_two_pow h2 h3
  omega

/-- C39: in the LTC2991 monitor, `get_voltage` for the channel `_k` (whose enumerator value is
k - 1) reads, when the reads succeed, the register at 0x0A + 2 (k - 1) for the most significant
byte and then the one at 0x0A + 2 (k - 1) + 1 for the least significant byte; the register
pairs of two distinct channels have no address in common, together the eight pairs are exactly
the addresses 0x0A .. 0x19, and none contains a temperature register 0x1A or 0x1B.  The integer
code `(msb & 0x3F) << 8 | lsb` that is then scaled is at most 16383 for every outcome of the
reads. -/
theorem get_voltage_register_pairs :
    (∀ (regs : Nat → Option Nat) (dev : ltc2991) (c : ltc2991_channel) (msb lsb : Nat),
      regs (0x0A + 2 * c.val) = some msb → regs (0x0A + 2 * c.val + 1) = some lsb →
      (dev.get_voltage regs c).1.reads = dev.reads ++ [0x0A + 2 * c.val, 0x0A + 2 * c.val + 1] ∧
      (dev.get_voltage regs c).2 =
        Except.ok ((msb % 256 &&& 0x3F) <<< 8 ||| lsb % 256)) ∧
    (∀ (regs : Nat → Option Nat) (dev : ltc2991) (c : ltc2991_channel) (code : Nat),
      (dev.get_voltage regs c).2 = Except.ok code → code ≤ 16383) ∧
    (∀ c : ltc2991_channel,
      ltc2991.voltage_registers c = [0x0A + 2 * c.val, 0x0A + 2 * c.val + 1]) ∧
    (∀ c1 c2 : ltc2991_channel, c1 ≠ c2 →
      ∀ a, a ∈ ltc2991.voltage_registers c1 → a ∉ ltc2991.voltage_registers c2) ∧
    (∀ a : Nat, (∃ c, a ∈ ltc2991.voltage_registers c) ↔ 0x0A ≤ a ∧ a ≤ 0x19) ∧
    ltc2991.temperature_registers = [0x1A, 0x1B] ∧
    (∀ c a, a ∈ ltc2991.voltage_registers c → a ∉ ltc2991.temperature_registers) := by
  have hval : ∀ c : ltc2991_channel, (0x0A + (c.val <<< 1)) % 256 = 0x0A + 2 * c.val := by
    intro c; cases c <;> decide
  have hval1 : ∀ c : ltc2991_channel, (0x0A + 2 * c.val + 1) % 256 = 0x0A + 2 * c.val + 1 := by
    intro c; cases c <;> decide
  refine ⟨?_, ?_, voltage_registers_eq, ?_, ?_, by decide, ?_⟩
  · intro regs dev c msb lsb h1 h2
    unfold ltc2991.get_voltage ltc2991._get_voltage
    rw [hval, ltc2991_read_of_some _ _ _ _ h1]
    dsimp only
    rw [hval1, ltc2991_read_of_some _ _ _ _ h2]
    dsimp only
    simp
  · intro regs dev c code h
    unfold ltc2991.get_voltage ltc2991._get_voltage ltc2991.read at h
    cases h1 : regs ((0x0A + (c.val <<< 1)) % 256) with
    | none => rw [h1] at h; cases h
    | some w1 =>
      rw [h1] at h
      dsimp only at h
      cases h2 : regs (((0x0A + (c.val <<< 1)) % 256 + 1) % 256) with
      | none => rw [h2] at h; cases h
      | some w2 =>
        rw [h2] at h
        dsimp only at h
        injection h with h
        rw [← h]
        exact voltage_code_le _ _ (Nat.mod_lt _ (by decide))
  · intro c1 c2 hne a h1 h2
    rw [voltage_registers_eq] at h1 h2
    simp only [List.mem_cons, List.mem_singleton, List.not_mem_nil, or_false] at h1 h2
    have : c1.val ≠ c2.val := by
      intro h; apply hne; revert h; cases c1 <;> cases c2 <;> decide
    omega
  · intro a
    constructor
    · rintro ⟨c, hc⟩
      rw [voltage_registers_eq] at hc
      simp only [List.mem_cons, List.mem_singleton, List.not_mem_nil, or_false] at hc
      have := ltc2991_channel_val_lt c
      omega
    · rintro ⟨h1, h2⟩
      have hk : (a - 10) / 2 < 8 := by omega
      have : ∃ c : ltc2991_channel, c.val = (a - 10) / 2 := by
        generalize (a - 10) / 2 = k at hk
        interval_cases k
        · exact ⟨ltc2991_channel._1, rfl⟩
        · exact ⟨ltc2991_channel._2, rfl⟩
        · exact ⟨ltc2991_channel._3, rfl⟩
        · exact ⟨ltc2991_channel._4, rfl⟩
        · exact ⟨ltc2991_channel._5, rfl⟩
        · exact ⟨ltc2991_channel._6, rfl⟩
        · exact ⟨ltc2991_channel._7, rfl⟩
        · exact ⟨ltc2991_channel._8, rfl⟩
      obtain ⟨c, hc⟩ := this
      refine ⟨c, ?_⟩
      rw [voltage_registers_eq]
      simp only [List.mem_cons, List.mem_singleton, List.not_mem_nil, or_false]
      omega
  · intro c a h1 h2
    rw [voltage_registers_eq] at h1
    have h3 : ltc2991.temperature_registers = [0x1A, 0x1B] := by decide
    rw [h3] at h2
    simp only [List.mem_cons, List.mem_singleton, List.not_mem_nil, or_false] at h1 h2
    have := ltc2991_channel_val_lt c
    omega

theorem get_voltage_register_pairs_witness :
    ((ltc2991.mk []).get_voltage (fun a => some (a + 250)) ltc2991_channel._3).1.reads =
        [] ++ [0x0A + 2 * ltc2991_channel._3.val, 0x0A + 2 * ltc2991_channel._3.val + 1] ∧
      ((ltc2991.mk []).get_voltage (fun a => some (a + 250)) ltc2991_channel._3).2 =
        Except.ok (((14 + 250) % 256 &&& 0x3F) <<< 8 ||| (15 + 250) % 256) :=
  get_voltage_register_pairs.1 (fun a => some (a + 250)) (ltc2991.mk []) ltc2991_channel._3
    (14 + 250) (15 + 250) rfl rfl

/-! ## SYSREF divider code -/

/-- C40: for every 16-bit `div`, `get_SYSREF_DIV(div)` is 0 when `div < 4`, 2047 when
`div > 4098` and `(div - 4) / 2` rounded down otherwise; the result is at most 2047, so it is
below 2 ^ 11 and the 11-bit SYSREF_DIV field of R72 holds it unchanged; the function is monotone
non-decreasing, and `get_SYSREF_DIV(4) = 0` is the SYSREF_DIV field of the power-on image. -/
theorem get_SYSREF_DIV_spec :
    (∀ div : Nat, div < 65536 →
      (div < 4 → get_SYSREF_DIV div = 0) ∧
      (4098 < div → get_SYSREF_DIV div = 2047) ∧
      (4 ≤ div → div ≤ 4098 → get_SYSREF_DIV div = (div - 4) / 2) ∧
      get_SYSREF_DIV div ≤ 2047 ∧
      get_SYSREF_DIV div < 2 ^ reg_R72.SYSREF_DIV.width ∧
      (∀ m : registers_map,
        read_field (write_field m reg_R72.SYSREF_DIV (get_SYSREF_DIV div)) reg_R72.SYSREF_DIV =
          get_SYSREF_DIV div)) ∧
      (∀ d1 d2 : Nat, d1 ≤ d2 → get_SYSREF_DIV d1 ≤ get_SYSREF_DIV d2) ∧
      get_SYSREF_DIV 4 = 0 ∧
      read_field registers_map_defaults reg_R72.SYSREF_DIV = get_SYSREF_DIV 4 ∧
      read_field lmx2594.new._registers_map reg_R72.SYSREF_DIV = 0 := by
  have hle : ∀ div : Nat, get_SYSREF_DIV div ≤ 2047 := by
    intro div
    unfold get_SYSREF_DIV
    split_ifs <;> omega
  refine ⟨fun div _ => ⟨?_, ?_, ?_, hle div, ?_, ?_⟩, ?_, by decide, by decide, by decide⟩
  · intro h; unfold get_SYSREF_DIV; rw [if_pos h]
  · intro h; unfold get_SYSREF_DIV; rw [if_neg (by omega), if_pos h]
  · intro h1 h2; unfold get_SYSREF_DIV; rw [if_neg (by omega), if_neg (by omega)]
  · have := hle div
    have h2 : 2 ^ reg_R72.SYSREF_DIV.width = 2048 := by decide
    omega
  · intro m
    apply read_write_field_of_lt
    have := hle div
    have h2 : 2 ^ reg_R72.SYSREF_DIV.width = 2048 := by decide
    omega
  · intro d1 d2 h
    unfold get_SYSREF_DIV
    split_ifs <;> omega

theorem get_SYSREF_DIV_spec_witness :
    (4 ≤ 1000 → 1000 ≤ 4098 → get_SYSREF_DIV 1000 = (1000 - 4) / 2) ∧
      get_SYSREF_DIV 1000 = 498 ∧ get_SYSREF_DIV 5000 = 2047 ∧
      (1000 ≤ 5000 → get_SYSREF_DIV 1000 ≤ get_SYSREF_DIV 5000) :=
  ⟨(get_SYSREF_DIV_spec.1 1000 (by decide)).2.2.1, by decide, by decide,
    get_SYSREF_DIV_spec.2.1 1000 5000⟩

end chappi
